import Mathlib

/-!
# Radeon Memory Visualizer backend: snapshot queries

A shallow embedding of `source/backend/rmt_data_snapshot.cpp`.

Conventions of the embedding

* `uint64_t` values are natural numbers; every addition or multiplication the
  source performs on them is reduced modulo `2 ^ 64` explicitly.
* C enumerations are integer coded (`RmtHeapType`, `RmtResourceType`,
  `RmtResourceUsageType`), so that they can index arrays as they do in C.
* A C array is a function from its index to its element; a counted array
  (`resources` with `resource_count`, `allocation_details` with
  `allocation_count`) is a list holding its first `count` elements.
* A pointer that the source checks against null is an `Option`.
-/

namespace Rmv

/-! ## Machine integers -/

/-- The constant `UINT64_MAX`. -/
def UINT64_MAX : Nat := 2 ^ 64 - 1

/-- Reduction of an arithmetic result to the range of `uint64_t`. -/
def wrap64 (n : Nat) : Nat := n % 2 ^ 64

/-- The macro `RMT_MAXIMUM(a, b)`. -/
def RMT_MAXIMUM (a b : Nat) : Nat := if a > b then a else b

/-- The macro `RMT_MINIMUM(a, b)`. -/
def RMT_MINIMUM (a b : Nat) : Nat := if a < b then a else b

/-! ## Enumerations and constants declared in the backend headers -/

/-- The type `RmtGpuAddress`, a 64 bit address. -/
abbrev RmtGpuAddress := Nat

/-- The enumeration `RmtErrorCode`, restricted to the codes this file returns. -/
inductive RmtErrorCode where
  | RMT_OK
  | RMT_ERROR_INVALID_POINTER
  | RMT_ERROR_MALFORMED_DATA
  | RMT_ERROR_FILE_NOT_OPEN
  deriving DecidableEq, Repr

/-- The enumeration `RmtHeapType`, integer coded. -/
abbrev RmtHeapType := Int

/-- Modelled from the spec: the enumerators of `RmtHeapType` are declared in a
header that is not among the sources. The order local, invisible, system is the
order of `kHeapDescriptions` in `heap_overview_heap_model.cpp`; the unknown heap
precedes them. -/
def kRmtHeapTypeUnknown : RmtHeapType := -1

/-- The local (CPU visible video memory) heap, see `kRmtHeapTypeUnknown`. -/
def kRmtHeapTypeLocal : RmtHeapType := 0

/-- The invisible (video memory) heap, see `kRmtHeapTypeUnknown`. -/
def kRmtHeapTypeInvisible : RmtHeapType := 1

/-- The system (host memory) heap, see `kRmtHeapTypeUnknown`. -/
def kRmtHeapTypeSystem : RmtHeapType := 2

/-- The enumeration `RmtResourceType`, integer coded. -/
abbrev RmtResourceType := Int

/-- Modelled from the spec: the sentinel resource type "heap", excluded from
usage accounting. Its enumerator is declared in a header that is not among the
sources; only its identity matters, not its numeric value. -/
def kRmtResourceTypeHeap : RmtResourceType := 11

/-- The enumeration `RmtResourceUsageType`, integer coded. -/
abbrev RmtResourceUsageType := Int

/-- Modelled from the spec: the capability flags of a segment (VRAM, host, CPU
cached, CPU visible, GPU cached, GPU visible). The bit values are declared in a
header that is not among the sources; each flag is a single bit of its own. -/
def kRmtSegmentStatusFlagVram : Nat := 1

/-- Host memory flag, see `kRmtSegmentStatusFlagVram`. -/
def kRmtSegmentStatusFlagHost : Nat := 2

/-- CPU cached flag, see `kRmtSegmentStatusFlagVram`. -/
def kRmtSegmentStatusFlagCpuCached : Nat := 4

/-- CPU visible flag, see `kRmtSegmentStatusFlagVram`. -/
def kRmtSegmentStatusFlagCpuVisible : Nat := 8

/-- GPU cached flag, see `kRmtSegmentStatusFlagVram`. -/
def kRmtSegmentStatusFlagGpuCached : Nat := 16

/-- GPU visible flag, see `kRmtSegmentStatusFlagVram`. -/
def kRmtSegmentStatusFlagGpuVisible : Nat := 32

/-- The enumeration `RmtPageSize`. -/
inductive RmtPageSize where
  | kRmtPageSizeUnmapped
  | kRmtPageSize4Kb
  | kRmtPageSize64Kb
  | kRmtPageSize256Kb
  | kRmtPageSize1Mb
  | kRmtPageSize2Mb
  deriving DecidableEq, Repr

/-- Modelled from the spec: `RmtGetPageSize`, declared in a header whose
implementation is not among the sources; the number of bytes in a page of the
given size (a 4 KiB page is 4096 bytes). -/
def RmtGetPageSize : RmtPageSize → Nat
  | .kRmtPageSizeUnmapped => 0
  | .kRmtPageSize4Kb => 4096
  | .kRmtPageSize64Kb => 65536
  | .kRmtPageSize256Kb => 262144
  | .kRmtPageSize1Mb => 1048576
  | .kRmtPageSize2Mb => 2097152

/-- Modelled from the spec: `RmtGetAllocationSizeInBytes`, whose implementation
is not among the sources; the byte size of an allocation is its page count
times the byte size of a page, in 64 bit arithmetic. -/
def RmtGetAllocationSizeInBytes (size_in_pages : Nat) (page_size : RmtPageSize) : Nat :=
  wrap64 (size_in_pages * RmtGetPageSize page_size)

/-! ## Data model -/

/-- The structure `RmtResource`. The pointer `bound_allocation` is kept as the
base address of the allocation it points to, the one field read through it. -/
structure RmtResource where
  identifier : Nat := 0
  address : RmtGpuAddress := 0
  size_in_bytes : Nat := 0
  resource_type : RmtResourceType := 0
  bound_allocation : Option RmtGpuAddress := none

/-- The structure `RmtVirtualAllocation`; `resources` holds the first
`resource_count` entries of the resource pointer array. -/
structure RmtVirtualAllocation where
  base_address : RmtGpuAddress := 0
  size_in_4kb_page : Nat := 0
  heap_preferences : Int → RmtHeapType := fun _ => kRmtHeapTypeUnknown
  resources : List RmtResource := []

/-- The structure `RmtVirtualAllocationList`; `allocation_details` holds the
first `allocation_count` entries of the array. -/
structure RmtVirtualAllocationList where
  allocation_details : List RmtVirtualAllocation := []

/-- The structure `RmtResourceList`; `resources` holds the first
`resource_count` entries of the array. -/
structure RmtResourceList where
  resources : List RmtResource := []

/-- The structure `RmtSegmentInfo`. -/
structure RmtSegmentInfo where
  base_address : RmtGpuAddress := 0
  size : Nat := 0
  heap_type : RmtHeapType := kRmtHeapTypeUnknown

/-! ### Tokens

`RmtToken` is a C structure holding the token type and a union with one member
per kind of token; every member starts with the common fields. The embedding
keeps the common fields once and each union member that the replay reads as a
field of its own, so that an access such as `current_token.cpu_map_token` reads
the member that the source names, whatever the type of the token is. How the
members overlap in memory is not part of the embedding. -/

/-- Modelled from the spec: the enumeration `RmtTokenType`, declared in a
header that is not among the sources. The eight kinds that the history replay
handles are those of its `switch`; the other kinds of the trace format fall in
its `default` branch. -/
inductive RmtTokenType where
  | kRmtTokenTypeTimestamp
  | kRmtTokenTypePageTableUpdate
  | kRmtTokenTypeUserdata
  | kRmtTokenTypeMisc
  | kRmtTokenTypeResourceReference
  | kRmtTokenTypeResourceBind
  | kRmtTokenTypeProcessEvent
  | kRmtTokenTypePageReference
  | kRmtTokenTypeCpuMap
  | kRmtTokenTypeVirtualFree
  | kRmtTokenTypeVirtualAllocate
  | kRmtTokenTypeResourceCreate
  | kRmtTokenTypeTimeDelta
  | kRmtTokenTypeResourceDestroy
  deriving DecidableEq, Repr

/-- The enumeration `RmtResidencyUpdateType`: a residency update adds the
memory to the resident set or removes it. -/
inductive RmtResidencyUpdateType where
  | kRmtResidencyUpdateTypeAdd
  | kRmtResidencyUpdateTypeRemove
  deriving DecidableEq, Repr

/-- The structure `RmtTokenCommon`, restricted to the fields the replay reads. -/
structure RmtTokenCommon where
  thread_id : Nat := 0
  timestamp : Nat := 0
  deriving DecidableEq, Repr

/-- The union member `resource_create_token`. -/
structure RmtTokenResourceCreate where
  resource_identifier : Nat := 0
  deriving DecidableEq, Repr

/-- The union member `resource_destroy_token`. -/
structure RmtTokenResourceDestroy where
  resource_identifier : Nat := 0
  deriving DecidableEq, Repr

/-- The union member `resource_bind_token`. -/
structure RmtTokenResourceBind where
  resource_identifier : Nat := 0
  deriving DecidableEq, Repr

/-- The union member `virtual_allocate_token`. -/
structure RmtTokenVirtualAllocate where
  virtual_address : RmtGpuAddress := 0
  size_in_bytes : Nat := 0
  deriving DecidableEq, Repr

/-- The union member `resource_reference`. -/
structure RmtTokenResourceReference where
  residency_update_type : RmtResidencyUpdateType := .kRmtResidencyUpdateTypeAdd
  virtual_address : RmtGpuAddress := 0
  deriving DecidableEq, Repr

/-- The union member `cpu_map_token`. -/
structure RmtTokenCpuMap where
  virtual_address : RmtGpuAddress := 0
  is_unmap : Bool := false
  deriving DecidableEq, Repr

/-- The union member `virtual_free_token`. -/
structure RmtTokenVirtualFree where
  virtual_address : RmtGpuAddress := 0
  deriving DecidableEq, Repr

/-- The union member `page_table_update_token`. -/
structure RmtTokenPageTableUpdate where
  virtual_address : RmtGpuAddress := 0
  physical_address : RmtGpuAddress := 0
  size_in_pages : Nat := 0
  page_size : RmtPageSize := .kRmtPageSize4Kb
  is_unmapping : Bool := false
  deriving DecidableEq, Repr

/-- The structure `RmtToken`: the type, the common fields and the members of
the union. -/
structure RmtToken where
  type : RmtTokenType := .kRmtTokenTypeTimestamp
  common : RmtTokenCommon := {}
  resource_create_token : RmtTokenResourceCreate := {}
  resource_destroy_token : RmtTokenResourceDestroy := {}
  resource_bind_token : RmtTokenResourceBind := {}
  virtual_allocate_token : RmtTokenVirtualAllocate := {}
  resource_reference : RmtTokenResourceReference := {}
  cpu_map_token : RmtTokenCpuMap := {}
  virtual_free_token : RmtTokenVirtualFree := {}
  page_table_update_token : RmtTokenPageTableUpdate := {}
  deriving DecidableEq, Repr

/-- Modelled from the spec: the structure `RmtStreamMerger`, whose definition is
not among the sources. It merges the token streams of the trace; `streams` holds
the streams from their start and `remaining` what each stream still has to
deliver, the cursor of the merger. -/
structure RmtStreamMerger where
  streams : List (List RmtToken) := []
  remaining : List (List RmtToken) := []
  deriving DecidableEq, Repr

/-- The structure `RmtDataSet`, restricted to the segment configuration and the
stream merger. -/
structure RmtDataSet where
  segment_info : Int → RmtSegmentInfo := fun _ => {}
  segment_info_count : Int := 0
  stream_merger : RmtStreamMerger := {}

/-- The structure `RmtPageTable`, restricted to the per heap mapped totals. -/
structure RmtPageTable where
  mapped_per_heap : Int → Nat := fun _ => 0

/-- The structure `RmtDataSnapshot`. -/
structure RmtDataSnapshot where
  timestamp : Nat := 0
  data_set : RmtDataSet := {}
  virtual_allocation_list : RmtVirtualAllocationList := {}
  resource_list : RmtResourceList := {}
  page_table : RmtPageTable := {}

/-- The structure `RmtSegmentStatus`. -/
structure RmtSegmentStatus where
  heap_type : RmtHeapType := 0
  flags : Nat := 0
  total_physical_size : Nat := 0
  total_virtual_memory_requested : Nat := 0
  total_bound_virtual_memory : Nat := 0
  total_physical_mapped_by_process : Nat := 0
  total_physical_mapped_by_other_processes : Nat := 0
  physical_bytes_per_resource_usage : Int → Nat := fun _ => 0
  max_allocation_size : Nat := 0
  min_allocation_size : Nat := 0
  mean_allocation_size : Nat := 0

/-- The enumeration `RmtResourceHistoryEventType`, with the kinds of event that
the replay records. -/
inductive RmtResourceHistoryEventType where
  | kRmtResourceHistoryEventResourceCreated
  | kRmtResourceHistoryEventResourceDestroyed
  | kRmtResourceHistoryEventResourceBound
  | kRmtResourceHistoryEventVirtualMemoryMapped
  | kRmtResourceHistoryEventVirtualMemoryUnmapped
  | kRmtResourceHistoryEventVirtualMemoryAllocated
  | kRmtResourceHistoryEventVirtualMemoryFree
  | kRmtResourceHistoryEventVirtualMemoryMakeResident
  | kRmtResourceHistoryEventVirtualMemoryEvict
  | kRmtResourceHistoryEventPhysicalMapToLocal
  | kRmtResourceHistoryEventPhysicalMapToHost
  | kRmtResourceHistoryEventPhysicalUnmap
  deriving DecidableEq, Repr

/-- Modelled from the spec: the structure `RmtResourceHistoryEvent`, declared in
a header that is not among the sources; an event is its kind, the thread
identifier, the timestamp and the flag that marks a physical event. -/
structure RmtResourceHistoryEvent where
  event_type : RmtResourceHistoryEventType
  thread_id : Nat
  timestamp : Nat
  physical : Bool
  deriving DecidableEq, Repr

/-- The structure `RmtResourceHistory`: the resource, its base allocation (the
pointer kept as the base address of the allocation, as in `RmtResource`), the
event array and the number of events in it. -/
structure RmtResourceHistory where
  resource : Option RmtResource := none
  base_allocation : Option RmtGpuAddress := none
  events : Nat → RmtResourceHistoryEvent := fun _ =>
    { event_type := .kRmtResourceHistoryEventResourceCreated
      thread_id := 0, timestamp := 0, physical := false }
  event_count : Nat := 0

/-- The enumeration `RmtSegmentSubscriptionStatus`. -/
inductive RmtSegmentSubscriptionStatus where
  | kRmtSegmentSubscriptionStatusOverLimit
  | kRmtSegmentSubscriptionStatusUnderLimit
  | kRmtSegmentSubscriptionStatusCloseToLimit
  deriving DecidableEq, Repr

/-! ## Functions of other backend modules -/

/-- The parts of the resource list module that `RmtDataSnapshotGetSegmentStatus`
uses and whose definitions are not among the sources: the constant
`kRmtResourceUsageTypeCount`, the function `RmtResourceGetUsageType`, and
`RmtResourceGetBackingStorageHistogram`, given here by the histogram array it
fills in for a resource of a snapshot. -/
structure RmtResourceApi where
  kRmtResourceUsageTypeCount : Nat
  RmtResourceGetUsageType : RmtResource → RmtResourceUsageType
  RmtResourceGetBackingStorageHistogram : RmtDataSnapshot → RmtResource → Int → Nat

/-! ## `RmtDataSnapshotGetSegmentStatus` -/

/-- The `switch (heap_type)` of `RmtDataSnapshotGetSegmentStatus`, which ors the
capability flags of the heap into the flags field. -/
def segmentStatusSetFlags (heap_type : RmtHeapType) (flags : Nat) : Nat :=
  if heap_type = kRmtHeapTypeInvisible then
    ((flags ||| kRmtSegmentStatusFlagVram) ||| kRmtSegmentStatusFlagGpuVisible)
      ||| kRmtSegmentStatusFlagGpuCached
  else if heap_type = kRmtHeapTypeLocal then
    (((flags ||| kRmtSegmentStatusFlagVram) ||| kRmtSegmentStatusFlagGpuVisible)
      ||| kRmtSegmentStatusFlagGpuCached) ||| kRmtSegmentStatusFlagCpuVisible
  else if heap_type = kRmtHeapTypeSystem then
    ((((flags ||| kRmtSegmentStatusFlagHost) ||| kRmtSegmentStatusFlagGpuVisible)
      ||| kRmtSegmentStatusFlagGpuCached) ||| kRmtSegmentStatusFlagCpuVisible)
      ||| kRmtSegmentStatusFlagCpuCached
  else
    flags

/-- The loop that clears `physical_bytes_per_resource_usage[0 .. count)`. -/
def segmentStatusClearUsage (count : Nat) (bytes : Int → Nat) : Int → Nat :=
  (List.range count).foldl
    (fun (acc : Int → Nat) (current_resource_usage_index : Nat) =>
      Function.update acc (current_resource_usage_index : Int) 0)
    bytes

/-- The local variables of `RmtDataSnapshotGetSegmentStatus` that the loop over
the allocations updates, together with the output structure. The counter
`allocation_count` is incremented at most once per allocation of a list whose
length is an `int32_t`, so it cannot wrap. -/
structure SegmentStatusLocals where
  max_virtual_allocation_size : Nat
  min_virtual_allocation_size : Nat
  total_virtual_memory_requested : Nat
  allocation_count : Nat
  out_segment_status : RmtSegmentStatus

/-- One iteration of the loop over the resources of an allocation. -/
def segmentStatusResourceStep (api : RmtResourceApi) (snapshot : RmtDataSnapshot)
    (heap_type : RmtHeapType) (current_virtual_allocation : RmtVirtualAllocation)
    (out : RmtSegmentStatus) (current_resource : RmtResource) : RmtSegmentStatus :=
  if current_resource.resource_type = kRmtResourceTypeHeap then
    out
  else
    let current_resource_usage := api.RmtResourceGetUsageType current_resource
    let out1 : RmtSegmentStatus :=
      if current_virtual_allocation.heap_preferences 0 = heap_type then
        { out with
          total_bound_virtual_memory :=
            wrap64 (out.total_bound_virtual_memory + current_resource.size_in_bytes) }
      else
        out
    let resource_histogram := api.RmtResourceGetBackingStorageHistogram snapshot current_resource
    { out1 with
      physical_bytes_per_resource_usage :=
        Function.update out1.physical_bytes_per_resource_usage current_resource_usage
          (wrap64 (out1.physical_bytes_per_resource_usage current_resource_usage
            + resource_histogram heap_type)) }

/-- One iteration of the loop over the virtual allocations. -/
def segmentStatusAllocationStep (api : RmtResourceApi) (snapshot : RmtDataSnapshot)
    (heap_type : RmtHeapType) (st : SegmentStatusLocals)
    (current_virtual_allocation : RmtVirtualAllocation) : SegmentStatusLocals :=
  let size_in_bytes :=
    RmtGetAllocationSizeInBytes current_virtual_allocation.size_in_4kb_page .kRmtPageSize4Kb
  let st1 : SegmentStatusLocals :=
    if current_virtual_allocation.heap_preferences 0 = heap_type then
      { st with
        total_virtual_memory_requested := wrap64 (st.total_virtual_memory_requested + size_in_bytes)
        max_virtual_allocation_size := RMT_MAXIMUM st.max_virtual_allocation_size size_in_bytes
        min_virtual_allocation_size := RMT_MINIMUM st.min_virtual_allocation_size size_in_bytes
        allocation_count := st.allocation_count + 1 }
    else
      st
  { st1 with
    out_segment_status :=
      current_virtual_allocation.resources.foldl
        (segmentStatusResourceStep api snapshot heap_type current_virtual_allocation)
        st1.out_segment_status }

/-- The function `RmtDataSnapshotGetSegmentStatus`: the error code it returns
and the output structure as it stands after the call. -/
def RmtDataSnapshotGetSegmentStatus (api : RmtResourceApi) (snapshot : Option RmtDataSnapshot)
    (heap_type : RmtHeapType) (out_segment_status : Option RmtSegmentStatus) :
    RmtErrorCode × Option RmtSegmentStatus :=
  match snapshot with
  | none => (.RMT_ERROR_INVALID_POINTER, out_segment_status)
  | some snapshot =>
    match out_segment_status with
    | none => (.RMT_ERROR_INVALID_POINTER, none)
    | some out =>
      let out : RmtSegmentStatus := { out with heap_type := heap_type }
      let out : RmtSegmentStatus := { out with flags := segmentStatusSetFlags heap_type out.flags }
      let out : RmtSegmentStatus :=
        { out with
          total_physical_size := (snapshot.data_set.segment_info heap_type).size
          total_bound_virtual_memory := 0 }
      let total_physical_mapped_by_process := snapshot.page_table.mapped_per_heap heap_type
      let out : RmtSegmentStatus :=
        { out with
          physical_bytes_per_resource_usage :=
            segmentStatusClearUsage api.kRmtResourceUsageTypeCount
              out.physical_bytes_per_resource_usage }
      let st : SegmentStatusLocals :=
        snapshot.virtual_allocation_list.allocation_details.foldl
          (segmentStatusAllocationStep api snapshot heap_type)
          { max_virtual_allocation_size := 0
            min_virtual_allocation_size := UINT64_MAX
            total_virtual_memory_requested := 0
            allocation_count := 0
            out_segment_status := out }
      let min_virtual_allocation_size :=
        if st.min_virtual_allocation_size = UINT64_MAX then 0 else st.min_virtual_allocation_size
      (.RMT_OK, some
        { st.out_segment_status with
          total_virtual_memory_requested := st.total_virtual_memory_requested
          total_physical_mapped_by_process := total_physical_mapped_by_process
          total_physical_mapped_by_other_processes := 0
          max_allocation_size := st.max_virtual_allocation_size
          min_allocation_size := min_virtual_allocation_size
          mean_allocation_size :=
            if st.allocation_count > 0 then
              st.total_virtual_memory_requested / st.allocation_count
            else 0 })

/-! ## `RmtSegmentStatusGetOversubscribed`

The close limit is computed in `double`: `(uint64_t)((double)size * 0.8)`. A
`double` is an IEEE 754 binary64 number, 53 significant bits, rounded to nearest
with ties to even. Every value that occurs here is a non-negative integer
multiple of `2 ^ (-53)` below `2 ^ 64`, so the computation is carried out on
integers: a value `v` is held as the integer `v * 2 ^ 53` where a scale is
needed. -/

/-- The number of low bits that `p` has beyond 53 significant bits. The fuel
bounds the bit length of `p`; 128 is enough for every product of two 64 bit
numbers. -/
def doubleExcessBits : Nat → Nat → Nat
  | 0, _ => 0
  | fuel + 1, p => if p < 2 ^ 53 then 0 else doubleExcessBits fuel (p / 2) + 1

/-- Rounding of the integer `p` to 53 significant bits, to nearest, ties to
even. -/
def roundToDouble (p : Nat) : Nat :=
  let s := doubleExcessBits 128 p
  if s = 0 then
    p
  else
    let q := p / 2 ^ s
    let r := p % 2 ^ s
    let half := 2 ^ (s - 1)
    if r > half ∨ (r = half ∧ q % 2 = 1) then (q + 1) * 2 ^ s else q * 2 ^ s

/-- The `double` constant `0.8` is `0x1.999999999999ap-1`, that is this
integer times `2 ^ (-53)`. -/
def kDoubleZeroPointEight : Nat := 0x1999999999999A

/-- The expression `(uint64_t)((double)total_physical_size * 0.8)`: conversion to
`double`, one rounded multiplication, truncation towards zero. -/
def segmentCloseLimit (total_physical_size : Nat) : Nat :=
  roundToDouble (roundToDouble total_physical_size * kDoubleZeroPointEight) / 2 ^ 53

/-- The function `RmtSegmentStatusGetOversubscribed`. -/
def RmtSegmentStatusGetOversubscribed (segment_status : RmtSegmentStatus) :
    RmtSegmentSubscriptionStatus :=
  let close_limit := segmentCloseLimit segment_status.total_physical_size
  if segment_status.total_virtual_memory_requested > segment_status.total_physical_size then
    .kRmtSegmentSubscriptionStatusOverLimit
  else if segment_status.total_virtual_memory_requested > close_limit then
    .kRmtSegmentSubscriptionStatusCloseToLimit
  else
    .kRmtSegmentSubscriptionStatusUnderLimit

/-! ## `RmtDataSnapshotGetSegmentForAddress` -/

/-- The loop of `RmtDataSnapshotGetSegmentForAddress` from the segment index
`current_segment_index` on, with `remaining` iterations left before the index
reaches `segment_info_count`. The start address is read through
`segment_info->base_address`, the first element of the array, in every
iteration. -/
def segmentForAddressLoop (data_set : RmtDataSet) (gpu_address : RmtGpuAddress) :
    Nat → Int → RmtHeapType
  | 0, _ => kRmtHeapTypeUnknown
  | remaining + 1, current_segment_index =>
    let start_address := (data_set.segment_info 0).base_address
    let end_address :=
      wrap64 ((data_set.segment_info current_segment_index).base_address
        + (data_set.segment_info current_segment_index).size)
    if start_address ≤ gpu_address ∧ gpu_address < end_address then
      (data_set.segment_info current_segment_index).heap_type
    else
      segmentForAddressLoop data_set gpu_address remaining (current_segment_index + 1)

/-- The function `RmtDataSnapshotGetSegmentForAddress`. -/
def RmtDataSnapshotGetSegmentForAddress (snapshot : Option RmtDataSnapshot)
    (gpu_address : RmtGpuAddress) : RmtHeapType :=
  match snapshot with
  | none => kRmtHeapTypeUnknown
  | some snapshot =>
    if gpu_address = 0 then
      kRmtHeapTypeSystem
    else
      segmentForAddressLoop snapshot.data_set gpu_address
        snapshot.data_set.segment_info_count.toNat 0

/-! ## The stream merger -/

/-- Modelled from the spec: the merge step of the stream merger, whose
implementation is not among the sources. Among the first tokens of the streams
that still hold one, the next token is one of least timestamp, the stream of
lowest index winning a tie; the result is that token and the streams without
it, or nothing when every stream is exhausted. -/
def streamMergerTake : List (List RmtToken) → Option (RmtToken × List (List RmtToken))
  | [] => none
  | [] :: rest =>
    match streamMergerTake rest with
    | none => none
    | some (candidate, rest_after) => some (candidate, [] :: rest_after)
  | (token :: tokens) :: rest =>
    match streamMergerTake rest with
    | none => some (token, tokens :: rest)
    | some (candidate, rest_after) =>
      if token.common.timestamp ≤ candidate.common.timestamp then
        some (token, tokens :: rest)
      else
        some (candidate, (token :: tokens) :: rest_after)

/-- Modelled from the spec: `RmtStreamMergerReset` rewinds all input streams to
their start. -/
def RmtStreamMergerReset (stream_merger : RmtStreamMerger) : RmtStreamMerger :=
  { stream_merger with remaining := stream_merger.streams }

/-- Modelled from the spec: `RmtStreamMergerIsEmpty` reports whether every
stream is exhausted. -/
def RmtStreamMergerIsEmpty (stream_merger : RmtStreamMerger) : Bool :=
  stream_merger.remaining.all (fun stream => stream.isEmpty)

/-- Modelled from the spec: `RmtStreamMergerAdvance` returns the globally next
token in timestamp order and removes it from its stream; it fails, here with no
result, when the merger is empty. -/
def RmtStreamMergerAdvance (stream_merger : RmtStreamMerger) :
    Option (RmtToken × RmtStreamMerger) :=
  match streamMergerTake stream_merger.remaining with
  | none => none
  | some (token, remaining) => some (token, { stream_merger with remaining := remaining })

/-- The number of tokens that the merger still has to deliver. -/
def streamMergerPending (stream_merger : RmtStreamMerger) : Nat :=
  (stream_merger.remaining.map (fun stream => stream.length)).sum

/-- The tokens that at most `fuel` calls of `RmtStreamMergerAdvance` deliver, each
call made after `RmtStreamMergerIsEmpty` has answered no. -/
def streamMergerDelivered : Nat → RmtStreamMerger → List RmtToken
  | 0, _ => []
  | fuel + 1, stream_merger =>
    if RmtStreamMergerIsEmpty stream_merger then
      []
    else
      match RmtStreamMergerAdvance stream_merger with
      | none => []
      | some (token, advanced) => token :: streamMergerDelivered fuel advanced

/-- The merged stream of a trace: the tokens that the merger delivers from a
reset until it is empty. -/
def streamMergerMergedStream (stream_merger : RmtStreamMerger) : List RmtToken :=
  streamMergerDelivered (streamMergerPending (RmtStreamMergerReset stream_merger))
    (RmtStreamMergerReset stream_merger)

/-! ## Address ranges and the resource history -/

/-- Modelled from the spec: the primitive `overlaps(startA, endA, startB, endB)`
on half-open ranges, start inclusive and end exclusive; two ranges overlap when
they share an address, so that a range of size zero overlaps nothing. -/
def overlaps (startA endA startB endB : Nat) : Bool :=
  decide (max startA startB < min endA endB)

/-- Modelled from the spec: `RmtAllocationsOverlap`, whose implementation is not
among the sources; the half-open test `[a, a + size)` against `[b, b + size)`. -/
def RmtAllocationsOverlap (base_address1 size_in_bytes1 base_address2 size_in_bytes2 : Nat) :
    Bool :=
  overlaps base_address1 (base_address1 + size_in_bytes1)
    base_address2 (base_address2 + size_in_bytes2)

/-- Modelled from the spec: `RmtResourceOverlapsVirtualAddressRange`, whose
implementation is not among the sources. A resource without bound allocation
overlaps no range: allocation events require a bound allocation to be
evaluable. For a bound resource the range of the resource,
`[address, address + size_in_bytes)`, is tested against the addresses from
`address_start` to `address_end`, where `address_end` is the last address of
the range, as `ProcessTokensIntoResourceHistory` passes it
(`address_of_last_byte_allocation`): the half-open range
`[address_start, address_end + 1)`. -/
def RmtResourceOverlapsVirtualAddressRange (resource : RmtResource)
    (address_start address_end : RmtGpuAddress) : Bool :=
  match resource.bound_allocation with
  | none => false
  | some _ =>
    overlaps resource.address (resource.address + resource.size_in_bytes)
      address_start (address_end + 1)

/-- Modelled from the spec: `RmtResourceHistoryAddEvent`, whose implementation
is not among the sources; it stores the event, made of its kind, the thread
identifier, the timestamp and the physical flag, after the events of the
history and counts it. -/
def RmtResourceHistoryAddEvent (resource_history : RmtResourceHistory)
    (event_type : RmtResourceHistoryEventType) (thread_id timestamp : Nat)
    (physical : Bool) : RmtResourceHistory :=
  { resource_history with
    events :=
      Function.update resource_history.events resource_history.event_count
        { event_type := event_type, thread_id := thread_id
          timestamp := timestamp, physical := physical }
    event_count := resource_history.event_count + 1 }

/-- The events of a history in order: the first `event_count` entries of its
event array. -/
def resourceHistoryEvents (resource_history : RmtResourceHistory) :
    List RmtResourceHistoryEvent :=
  (List.range resource_history.event_count).map resource_history.events

/-- The body of the loop of `ProcessTokensIntoResourceHistory`: the `switch` on
the type of the token just taken from the merger. A subtraction of one from a
`uint64_t` is the addition of `2 ^ 64 - 1`. The page table case reads the
resource through the pointer that the history holds, which the caller has set. -/
def processTokenIntoResourceHistory (resource : RmtResource)
    (out_resource_history : RmtResourceHistory) (current_token : RmtToken) :
    RmtResourceHistory :=
  match current_token.type with
  | .kRmtTokenTypeResourceCreate =>
    if current_token.resource_create_token.resource_identifier ≠ resource.identifier then
      out_resource_history
    else
      RmtResourceHistoryAddEvent out_resource_history .kRmtResourceHistoryEventResourceCreated
        current_token.common.thread_id current_token.common.timestamp false
  | .kRmtTokenTypeResourceDestroy =>
    if current_token.resource_destroy_token.resource_identifier ≠ resource.identifier then
      out_resource_history
    else
      RmtResourceHistoryAddEvent out_resource_history .kRmtResourceHistoryEventResourceDestroyed
        current_token.common.thread_id current_token.common.timestamp false
  | .kRmtTokenTypeResourceBind =>
    if current_token.resource_bind_token.resource_identifier ≠ resource.identifier then
      out_resource_history
    else
      RmtResourceHistoryAddEvent out_resource_history .kRmtResourceHistoryEventResourceBound
        current_token.common.thread_id current_token.common.timestamp false
  | .kRmtTokenTypeVirtualAllocate =>
    let address_of_last_byte_allocation :=
      wrap64 (wrap64 (current_token.virtual_allocate_token.virtual_address
        + current_token.virtual_allocate_token.size_in_bytes) + (2 ^ 64 - 1))
    if ¬ RmtResourceOverlapsVirtualAddressRange resource
        current_token.virtual_allocate_token.virtual_address address_of_last_byte_allocation then
      out_resource_history
    else
      RmtResourceHistoryAddEvent out_resource_history
        .kRmtResourceHistoryEventVirtualMemoryAllocated
        current_token.common.thread_id current_token.common.timestamp false
  | .kRmtTokenTypeResourceReference =>
    match out_resource_history.base_allocation with
    | none => out_resource_history
    | some base_address =>
      if current_token.cpu_map_token.virtual_address ≠ base_address then
        out_resource_history
      else if current_token.resource_reference.residency_update_type
          = .kRmtResidencyUpdateTypeAdd then
        RmtResourceHistoryAddEvent out_resource_history
          .kRmtResourceHistoryEventVirtualMemoryMakeResident
          current_token.common.thread_id current_token.common.timestamp false
      else
        RmtResourceHistoryAddEvent out_resource_history
          .kRmtResourceHistoryEventVirtualMemoryEvict
          current_token.common.thread_id current_token.common.timestamp false
  | .kRmtTokenTypeCpuMap =>
    match out_resource_history.base_allocation with
    | none => out_resource_history
    | some base_address =>
      if current_token.cpu_map_token.virtual_address ≠ base_address then
        out_resource_history
      else if current_token.cpu_map_token.is_unmap then
        RmtResourceHistoryAddEvent out_resource_history
          .kRmtResourceHistoryEventVirtualMemoryUnmapped
          current_token.common.thread_id current_token.common.timestamp false
      else
        RmtResourceHistoryAddEvent out_resource_history
          .kRmtResourceHistoryEventVirtualMemoryMapped
          current_token.common.thread_id current_token.common.timestamp false
  | .kRmtTokenTypeVirtualFree =>
    match out_resource_history.base_allocation with
    | none => out_resource_history
    | some _ =>
      if ¬ RmtResourceOverlapsVirtualAddressRange resource
          current_token.virtual_free_token.virtual_address
          (wrap64 (current_token.virtual_free_token.virtual_address + 1)) then
        out_resource_history
      else
        RmtResourceHistoryAddEvent out_resource_history
          .kRmtResourceHistoryEventVirtualMemoryFree
          current_token.common.thread_id current_token.common.timestamp false
  | .kRmtTokenTypePageTableUpdate =>
    match out_resource_history.base_allocation with
    | none => out_resource_history
    | some _ =>
      match out_resource_history.resource with
      | none => out_resource_history
      | some history_resource =>
        let size_in_bytes :=
          RmtGetAllocationSizeInBytes current_token.page_table_update_token.size_in_pages
            current_token.page_table_update_token.page_size
        if ¬ RmtAllocationsOverlap current_token.page_table_update_token.virtual_address
            size_in_bytes history_resource.address history_resource.size_in_bytes then
          out_resource_history
        else if current_token.page_table_update_token.is_unmapping then
          RmtResourceHistoryAddEvent out_resource_history
            .kRmtResourceHistoryEventPhysicalUnmap
            current_token.common.thread_id current_token.common.timestamp true
        else if current_token.page_table_update_token.physical_address = 0 then
          RmtResourceHistoryAddEvent out_resource_history
            .kRmtResourceHistoryEventPhysicalMapToHost
            current_token.common.thread_id current_token.common.timestamp true
        else
          RmtResourceHistoryAddEvent out_resource_history
            .kRmtResourceHistoryEventPhysicalMapToLocal
            current_token.common.thread_id current_token.common.timestamp true
  | _ => out_resource_history

/-- The `while` loop of `ProcessTokensIntoResourceHistory`, for at most `fuel`
iterations. The assertion on the result of the advance holds in every iteration,
the merger being asked only when it is not empty. -/
def processTokensLoop (resource : RmtResource) :
    Nat → RmtStreamMerger → RmtResourceHistory → RmtStreamMerger × RmtResourceHistory
  | 0, stream_merger, out_resource_history => (stream_merger, out_resource_history)
  | fuel + 1, stream_merger, out_resource_history =>
    if RmtStreamMergerIsEmpty stream_merger then
      (stream_merger, out_resource_history)
    else
      match RmtStreamMergerAdvance stream_merger with
      | none => (stream_merger, out_resource_history)
      | some (current_token, advanced) =>
        processTokensLoop resource fuel advanced
          (processTokenIntoResourceHistory resource out_resource_history current_token)

/-- The function `ProcessTokensIntoResourceHistory`: the error code, the data
set with its merger as the replay leaves it, and the history. The loop runs
until the merger is empty; the number of pending tokens after the reset bounds
its iterations. -/
def ProcessTokensIntoResourceHistory (data_set : RmtDataSet) (resource : RmtResource)
    (out_resource_history : RmtResourceHistory) :
    RmtErrorCode × RmtDataSet × RmtResourceHistory :=
  let stream_merger := RmtStreamMergerReset data_set.stream_merger
  let result :=
    processTokensLoop resource (streamMergerPending stream_merger) stream_merger
      out_resource_history
  (.RMT_OK, { data_set with stream_merger := result.1 }, result.2)

/-- The function `RmtDataSnapshotGenerateResourceHistory`: the error code, the
snapshot (whose data set holds the merger) and the output history as they stand
after the call. `RMT_ASSERT` is a check of debug builds and has no effect
here. -/
def RmtDataSnapshotGenerateResourceHistory (snapshot : Option RmtDataSnapshot)
    (resource : Option RmtResource) (out_resource_history : Option RmtResourceHistory) :
    RmtErrorCode × Option RmtDataSnapshot × Option RmtResourceHistory :=
  match snapshot with
  | none => (.RMT_ERROR_INVALID_POINTER, none, out_resource_history)
  | some snapshot =>
    match resource with
    | none => (.RMT_ERROR_INVALID_POINTER, some snapshot, out_resource_history)
    | some resource =>
      match out_resource_history with
      | none => (.RMT_ERROR_INVALID_POINTER, some snapshot, none)
      | some out =>
        let out : RmtResourceHistory :=
          { out with
            resource := some resource
            base_allocation := resource.bound_allocation
            event_count := 0 }
        let result := ProcessTokensIntoResourceHistory snapshot.data_set resource out
        if result.1 = .RMT_OK then
          (.RMT_OK, some { snapshot with data_set := result.2.1 }, some result.2.2)
        else
          (result.1, some { snapshot with data_set := result.2.1 }, some result.2.2)

/-! ## `RmtDataSnapshotGetLargestResourceSize` and `RmtDataSnapshotGetSmallestResourceSize` -/

/-- The function `RmtDataSnapshotGetLargestResourceSize`. -/
def RmtDataSnapshotGetLargestResourceSize (snapshot : Option RmtDataSnapshot) : Nat :=
  match snapshot with
  | none => 0
  | some snapshot =>
    snapshot.resource_list.resources.foldl
      (fun latest_resource_size_in_bytes current_resource =>
        RMT_MAXIMUM latest_resource_size_in_bytes current_resource.size_in_bytes)
      0

/-- The function `RmtDataSnapshotGetSmallestResourceSize`. -/
def RmtDataSnapshotGetSmallestResourceSize (snapshot : Option RmtDataSnapshot) : Nat :=
  match snapshot with
  | none => 0
  | some snapshot =>
    let smallest_resource_size_in_bytes :=
      snapshot.resource_list.resources.foldl
        (fun smallest_resource_size_in_bytes current_resource =>
          RMT_MINIMUM smallest_resource_size_in_bytes current_resource.size_in_bytes)
        UINT64_MAX
    if smallest_resource_size_in_bytes = UINT64_MAX then
      0
    else
      smallest_resource_size_in_bytes

/-! ## `SnapshotDeltaModel::GetHeapDelta` -/

/-- Reduction of an arithmetic result to the range of `int64_t`. -/
def wrapInt64 (n : Int) : Int := (n + 2 ^ 63) % 2 ^ 64 - 2 ^ 63

/-- Modelled from the spec: the structure `HeapDeltaData`, declared in a header
that is not among the sources; six signed 64 bit quantities, which hold
differences between two snapshots as well. -/
structure HeapDeltaData where
  total_available_size : Int := 0
  total_allocated_and_bound : Int := 0
  total_allocated_and_unbound : Int := 0
  free_space : Int := 0
  resource_count : Int := 0
  allocation_count : Int := 0
  deriving DecidableEq, Repr

/-- The functions of the virtual allocation module that `GetHeapDelta` calls and
whose definitions are not among the sources. -/
structure RmtVirtualAllocationApi where
  RmtVirtualAllocationGetSizeInBytes : RmtVirtualAllocation → Nat
  RmtVirtualAllocationGetTotalResourceMemoryInBytes :
    RmtDataSnapshot → RmtVirtualAllocation → Nat
  RmtVirtualAllocationGetTotalUnboundSpaceInAllocation :
    RmtDataSnapshot → RmtVirtualAllocation → Nat

/-- One iteration of the loop of `GetHeapDelta` over the virtual allocations; the
state is the local `total_allocated` and the output `delta_data`. The two
counters grow by at most `2 ^ 31` each in each of at most `2 ^ 31` iterations,
the counts of the lists being `int32_t`, so they do not leave the range of
`int64_t`. -/
def heapDeltaAllocationStep (api : RmtVirtualAllocationApi) (snapshot : RmtDataSnapshot)
    (heap_type : RmtHeapType) (state : Nat × HeapDeltaData)
    (virtual_allocation : RmtVirtualAllocation) : Nat × HeapDeltaData :=
  if virtual_allocation.heap_preferences 0 = heap_type then
    (wrap64 (state.1 + api.RmtVirtualAllocationGetSizeInBytes virtual_allocation),
      { state.2 with
        allocation_count := state.2.allocation_count + 1
        resource_count := state.2.resource_count + virtual_allocation.resources.length
        total_allocated_and_bound :=
          wrapInt64 (state.2.total_allocated_and_bound
            + api.RmtVirtualAllocationGetTotalResourceMemoryInBytes snapshot virtual_allocation)
        total_allocated_and_unbound :=
          wrapInt64 (state.2.total_allocated_and_unbound
            + api.RmtVirtualAllocationGetTotalUnboundSpaceInAllocation snapshot
                virtual_allocation) })
  else
    state

/-- The function `SnapshotDeltaModel::GetHeapDelta`: the value it returns and
`delta_data` as it stands after the call. `data_set_valid` is the answer of
`TraceManager::Get().DataSetValid()`. -/
def GetHeapDelta (api : RmtVirtualAllocationApi) (data_set_valid : Bool)
    (snapshot : Option RmtDataSnapshot) (heap_type : RmtHeapType)
    (delta_data : HeapDeltaData) : Bool × HeapDeltaData :=
  if data_set_valid then
    match snapshot with
    | none => (false, delta_data)
    | some snapshot =>
      let state :=
        snapshot.virtual_allocation_list.allocation_details.foldl
          (heapDeltaAllocationStep api snapshot heap_type) (0, {})
      (true, { state.2 with total_available_size := 0, free_space := 0 })
  else
    (false, delta_data)

/-! ## Reference table and example data -/

/-- The static lookup table of capability flags by heap type, as the
specification words it: invisible is VRAM, GPU visible, GPU cached; local adds
CPU visible; system is host, GPU visible, GPU cached, CPU visible, CPU cached;
any other heap type has no flag. -/
def specCapabilityFlags (heap_type : RmtHeapType) : Nat :=
  if heap_type = kRmtHeapTypeInvisible then
    kRmtSegmentStatusFlagVram ||| kRmtSegmentStatusFlagGpuVisible
      ||| kRmtSegmentStatusFlagGpuCached
  else if heap_type = kRmtHeapTypeLocal then
    kRmtSegmentStatusFlagVram ||| kRmtSegmentStatusFlagGpuVisible
      ||| kRmtSegmentStatusFlagGpuCached ||| kRmtSegmentStatusFlagCpuVisible
  else if heap_type = kRmtHeapTypeSystem then
    kRmtSegmentStatusFlagHost ||| kRmtSegmentStatusFlagGpuVisible
      ||| kRmtSegmentStatusFlagGpuCached ||| kRmtSegmentStatusFlagCpuVisible
      ||| kRmtSegmentStatusFlagCpuCached
  else
    0

/-- An instance of the resource functions for the examples: four usage types,
the usage type of a resource is its resource type, and a resource is backed by
local memory for its whole size. -/
def exampleApi : RmtResourceApi where
  kRmtResourceUsageTypeCount := 4
  RmtResourceGetUsageType := fun r => r.resource_type
  RmtResourceGetBackingStorageHistogram := fun _ r heap_type =>
    if heap_type = kRmtHeapTypeLocal then r.size_in_bytes else 0

/-- A local allocation of one page (4096 bytes) holding a resource of 100 bytes. -/
def exampleLocalAllocation1 : RmtVirtualAllocation where
  base_address := 0x10000
  size_in_4kb_page := 1
  heap_preferences := fun _ => kRmtHeapTypeLocal
  resources := [{ identifier := 1, address := 0x10000, size_in_bytes := 100,
                  resource_type := 1, bound_allocation := some 0x10000 }]

/-- A local allocation of two pages (8192 bytes) without resources. -/
def exampleLocalAllocation2 : RmtVirtualAllocation where
  base_address := 0x20000
  size_in_4kb_page := 2
  heap_preferences := fun _ => kRmtHeapTypeLocal

/-- A system allocation of one page without resources. -/
def exampleSystemAllocation : RmtVirtualAllocation where
  base_address := 0x40000
  size_in_4kb_page := 1
  heap_preferences := fun _ => kRmtHeapTypeSystem

/-- The snapshot of the scenario: two local allocations of 4096 and 8192 bytes
and one system allocation. -/
def exampleSnapshot : RmtDataSnapshot where
  virtual_allocation_list :=
    { allocation_details :=
        [exampleLocalAllocation1, exampleLocalAllocation2, exampleSystemAllocation] }

/-- A data set whose second segment lies below its first one. -/
def exampleUnorderedDataSet : RmtDataSet where
  segment_info := fun i =>
    if i = 0 then { base_address := 0x2000, size := 0x1000, heap_type := kRmtHeapTypeLocal }
    else if i = 1 then
      { base_address := 0x1000, size := 0x1000, heap_type := kRmtHeapTypeInvisible }
    else {}
  segment_info_count := 2

/-- A data set with a gap between its two segments. -/
def exampleGapDataSet : RmtDataSet where
  segment_info := fun i =>
    if i = 0 then { base_address := 0x1000, size := 0x1000, heap_type := kRmtHeapTypeLocal }
    else if i = 1 then
      { base_address := 0x3000, size := 0x1000, heap_type := kRmtHeapTypeInvisible }
    else {}
  segment_info_count := 2

/-- A snapshot whose trace has the given token streams. -/
def exampleTraceSnapshot (streams : List (List RmtToken)) : RmtDataSnapshot where
  data_set := { stream_merger := { streams := streams } }

/-- A resource of 256 bytes bound at the base of the allocation at `0x10000`. -/
def exampleBoundResource : RmtResource where
  identifier := 7
  address := 0x10000
  size_in_bytes := 0x100
  bound_allocation := some 0x10000

/-- The trace of the ordering scenario: one stream creates the resource at 10
and binds it at 20, the other maps its allocation at 15 and unmaps it at 25. -/
def exampleOrderingStreams : List (List RmtToken) :=
  [[{ type := .kRmtTokenTypeResourceCreate, common := { thread_id := 1, timestamp := 10 }
      resource_create_token := { resource_identifier := 7 } },
    { type := .kRmtTokenTypeResourceBind, common := { thread_id := 1, timestamp := 20 }
      resource_bind_token := { resource_identifier := 7 } }],
   [{ type := .kRmtTokenTypeCpuMap, common := { thread_id := 2, timestamp := 15 }
      cpu_map_token := { virtual_address := 0x10000, is_unmap := false } },
    { type := .kRmtTokenTypeCpuMap, common := { thread_id := 2, timestamp := 25 }
      cpu_map_token := { virtual_address := 0x10000, is_unmap := true } }]]

/-- A resource whose allocation has been freed: it keeps its address range and
has no bound allocation. -/
def exampleOrphanedResource : RmtResource where
  identifier := 7
  address := 0x10000
  size_in_bytes := 0x100
  bound_allocation := none

/-- A trace with the one token that allocates `[0x10000, 0x11000)` at time 5. -/
def exampleAllocateStreams : List (List RmtToken) :=
  [[{ type := .kRmtTokenTypeVirtualAllocate, common := { thread_id := 1, timestamp := 5 }
      virtual_allocate_token := { virtual_address := 0x10000, size_in_bytes := 0x1000 } }]]

/-- A trace around the allocation `[0x10000, 0x11000)`: the resource 7 is
created at time 1, the allocation is made at 5, mapped by the CPU at 6, made
resident at 7, its first page gets a page table update at 8, it is freed at 9,
and the resource 7 is destroyed at 10. -/
def exampleOrphanStreams : List (List RmtToken) :=
  [[{ type := .kRmtTokenTypeResourceCreate, common := { thread_id := 1, timestamp := 1 }
      resource_create_token := { resource_identifier := 7 } },
    { type := .kRmtTokenTypeVirtualAllocate, common := { thread_id := 1, timestamp := 5 }
      virtual_allocate_token := { virtual_address := 0x10000, size_in_bytes := 0x1000 } },
    { type := .kRmtTokenTypeCpuMap, common := { thread_id := 1, timestamp := 6 }
      cpu_map_token := { virtual_address := 0x10000, is_unmap := false } },
    { type := .kRmtTokenTypeResourceReference, common := { thread_id := 1, timestamp := 7 }
      resource_reference :=
        { residency_update_type := .kRmtResidencyUpdateTypeAdd, virtual_address := 0x10000 }
      cpu_map_token := { virtual_address := 0x10000, is_unmap := false } },
    { type := .kRmtTokenTypePageTableUpdate, common := { thread_id := 1, timestamp := 8 }
      page_table_update_token :=
        { virtual_address := 0x10000, physical_address := 0x5000, size_in_pages := 1
          page_size := .kRmtPageSize4Kb, is_unmapping := false } },
    { type := .kRmtTokenTypeVirtualFree, common := { thread_id := 1, timestamp := 9 }
      virtual_free_token := { virtual_address := 0x10000 } },
    { type := .kRmtTokenTypeResourceDestroy, common := { thread_id := 1, timestamp := 10 }
      resource_destroy_token := { resource_identifier := 7 } }]]

/-- A resource of 256 bytes at offset `0x100` of the allocation at `0x10000`. -/
def exampleInnerResource : RmtResource where
  identifier := 7
  address := 0x10100
  size_in_bytes := 0x100
  bound_allocation := some 0x10000

/-- A trace with the one token that frees the allocation at `0x10000` at time 30. -/
def exampleFreeStreams : List (List RmtToken) :=
  [[{ type := .kRmtTokenTypeVirtualFree, common := { thread_id := 1, timestamp := 30 }
      virtual_free_token := { virtual_address := 0x10000 } }]]

/-- A resource of one byte, the last byte of the allocation `[0x10000, 0x11000)`. -/
def exampleLastByteResource : RmtResource where
  identifier := 7
  address := 0x10FFF
  size_in_bytes := 1
  bound_allocation := some 0x10000

/-- A trace with one residency token that makes the allocation at `0x10000`
resident at time 40. The token is a resource reference; its `cpu_map_token`
member is not the member that holds its virtual address. -/
def exampleResidencyStreams : List (List RmtToken) :=
  [[{ type := .kRmtTokenTypeResourceReference, common := { thread_id := 1, timestamp := 40 }
      resource_reference :=
        { residency_update_type := .kRmtResidencyUpdateTypeAdd, virtual_address := 0x10000 }
      cpu_map_token := { virtual_address := 0, is_unmap := false } }]]

/-- An instance of the virtual allocation functions for the examples: the size
of an allocation is its page count times 4096, and no byte of it counts as
bound. -/
def exampleAllocationApi : RmtVirtualAllocationApi where
  RmtVirtualAllocationGetSizeInBytes := fun a => a.size_in_4kb_page * 4096
  RmtVirtualAllocationGetTotalResourceMemoryInBytes := fun _ _ => 0
  RmtVirtualAllocationGetTotalUnboundSpaceInAllocation := fun _ a => a.size_in_4kb_page * 4096

/-- A snapshot with three resources of 256, 64 and 1024 bytes. -/
def exampleResourceSnapshot : RmtDataSnapshot where
  resource_list :=
    { resources :=
        [{ identifier := 1, size_in_bytes := 256 }, { identifier := 2, size_in_bytes := 64 },
         { identifier := 3, size_in_bytes := 1024 }] }

/-- A snapshot with one resource whose size is `UINT64_MAX`. -/
def exampleHugeResourceSnapshot : RmtDataSnapshot where
  resource_list := { resources := [{ identifier := 1, size_in_bytes := UINT64_MAX }] }

/-- A trace of two streams whose timestamps interleave: 10, 20, 30 and 15, 20. -/
def exampleMergeStreams : List (List RmtToken) :=
  [[{ common := { thread_id := 1, timestamp := 10 } },
    { common := { thread_id := 1, timestamp := 20 } },
    { common := { thread_id := 1, timestamp := 30 } }],
   [{ common := { thread_id := 2, timestamp := 15 } },
    { common := { thread_id := 2, timestamp := 20 } }]]

/-! ## Arithmetic of the `double` model -/

theorem doubleExcessBits_of_lt (fuel p : Nat) (h : p < 2 ^ 53) : doubleExcessBits fuel p = 0 := by
  cases fuel with
  | zero => rfl
  | succ n => rw [doubleExcessBits, if_pos h]

theorem doubleExcessBits_le (fuel : Nat) :
    ∀ p : Nat, doubleExcessBits fuel p = 0 ∨ 2 ^ 52 * 2 ^ doubleExcessBits fuel p ≤ p := by
  induction fuel with
  | zero => intro p; left; rfl
  | succ n ih =>
    intro p
    by_cases hp : p < 2 ^ 53
    · left; rw [doubleExcessBits, if_pos hp]
    · right
      have hs : doubleExcessBits (n + 1) p = doubleExcessBits n (p / 2) + 1 := by
        rw [doubleExcessBits, if_neg hp]
      rw [hs, pow_succ]
      rcases ih (p / 2) with h0 | h1
      · rw [h0]; omega
      · have h2 : 2 * (p / 2) ≤ p := Nat.mul_div_le p 2
        calc 2 ^ 52 * (2 ^ doubleExcessBits n (p / 2) * 2)
            = 2 * (2 ^ 52 * 2 ^ doubleExcessBits n (p / 2)) := by ring
          _ ≤ 2 * (p / 2) := Nat.mul_le_mul_left 2 h1
          _ ≤ p := h2

theorem roundToDouble_of_lt (p : Nat) (h : p < 2 ^ 53) : roundToDouble p = p := by
  simp [roundToDouble, doubleExcessBits_of_lt 128 p h]

/-- Below `2 ^ 50` the close limit is the integer part of four fifths of the size. -/
theorem segmentCloseLimit_eq (x : Nat) (hx : x < 2 ^ 50) : segmentCloseLimit x = 4 * x / 5 := by
  unfold segmentCloseLimit
  rw [roundToDouble_of_lt x (by omega)]
  have hp : x * kDoubleZeroPointEight < 2 ^ 103 := by
    unfold kDoubleZeroPointEight; omega
  have hlow : 4 * x / 5 * 2 ^ 53 ≤ x * kDoubleZeroPointEight := by
    unfold kDoubleZeroPointEight; omega
  generalize hpd : x * kDoubleZeroPointEight = p at hp hlow
  have hup : 5 * p + 5 * 2 ^ 49 < (4 * x / 5 + 1) * 2 ^ 53 * 5 := by
    subst hpd; unfold kDoubleZeroPointEight; omega
  generalize 4 * x / 5 = Q at hlow hup ⊢
  unfold roundToDouble
  have hsle := doubleExcessBits_le 128 p
  generalize doubleExcessBits 128 p = s at hsle
  by_cases hs0 : s = 0
  · simp only [hs0, if_true]
    omega
  · simp only [hs0, if_false]
    have hs50 : s ≤ 50 := by
      by_contra hc
      have h51 : 51 ≤ s := by omega
      have h1 : 2 ^ 51 ≤ 2 ^ s := Nat.pow_le_pow_right (by norm_num) h51
      rcases hsle with h | h
      · exact hs0 h
      · have : 2 ^ 52 * 2 ^ 51 ≤ 2 ^ 52 * 2 ^ s := Nat.mul_le_mul_left _ h1
        omega
    obtain ⟨k, hk⟩ : ∃ k, s = k + 1 := ⟨s - 1, by omega⟩
    subst hk
    have hhalf : 2 ^ k ≤ 2 ^ 49 := Nat.pow_le_pow_right (by norm_num) (by omega)
    have hE : 2 ^ (k + 1) = 2 * 2 ^ k := by rw [pow_succ]; ring
    have hdvd : 2 ^ (k + 1) ∣ Q * 2 ^ 53 := by
      apply Dvd.dvd.mul_left
      exact pow_dvd_pow 2 (by omega)
    have hA : Q * 2 ^ 53 ≤ p / 2 ^ (k + 1) * 2 ^ (k + 1) := by
      calc Q * 2 ^ 53 = Q * 2 ^ 53 / 2 ^ (k + 1) * 2 ^ (k + 1) := (Nat.div_mul_cancel hdvd).symm
        _ ≤ p / 2 ^ (k + 1) * 2 ^ (k + 1) :=
          Nat.mul_le_mul_right _ (Nat.div_le_div_right hlow)
    have hdm : p / 2 ^ (k + 1) * 2 ^ (k + 1) + p % 2 ^ (k + 1) = p := by
      rw [Nat.mul_comm]; exact Nat.div_add_mod p _
    have hr : p % 2 ^ (k + 1) < 2 ^ (k + 1) := Nat.mod_lt _ (by positivity)
    have hq1 : (p / 2 ^ (k + 1) + 1) * 2 ^ (k + 1)
        = p / 2 ^ (k + 1) * 2 ^ (k + 1) + 2 ^ (k + 1) := by
      rw [Nat.add_mul, Nat.one_mul]
    simp only [Nat.add_sub_cancel]
    rw [hq1]
    generalize p / 2 ^ (k + 1) * 2 ^ (k + 1) = A at hA hdm ⊢
    generalize p % 2 ^ (k + 1) = r at hdm hr ⊢
    generalize p / 2 ^ (k + 1) = q
    generalize 2 ^ (k + 1) = E at hE hr ⊢
    generalize 2 ^ k = hf at hE hhalf ⊢
    split_ifs with hc
    · have hrh : hf ≤ r := by
        rcases hc with h | h
        · omega
        · omega
      omega
    · omega


/-! ## Oversubscription classification -/

/-- C2: `RmtSegmentStatusGetOversubscribed` returns over-limit exactly when the
requested virtual memory is strictly greater than the physical size, for all
values of the two fields; requested equal to physical is not over-limit. -/
theorem oversubscribed_over_limit_iff (segment_status : RmtSegmentStatus) :
    RmtSegmentStatusGetOversubscribed segment_status
        = .kRmtSegmentSubscriptionStatusOverLimit
      ↔ segment_status.total_virtual_memory_requested > segment_status.total_physical_size := by
  unfold RmtSegmentStatusGetOversubscribed
  constructor
  · intro h
    by_contra hc
    simp only [hc, if_false] at h
    split_ifs at h
  · intro h
    simp only [h, if_true]

/-- The comparison with eight tenths of the physical size, over the integers. -/
theorem eight_tenths_lt_iff (physical requested : Nat) :
    (8 / 10 : ℚ) * (physical : ℚ) < (requested : ℚ) ↔ 4 * physical < 5 * requested := by
  constructor
  · intro h
    have h2 : (4 : ℚ) * (physical : ℚ) < 5 * (requested : ℚ) := by linarith
    exact_mod_cast h2
  · intro h
    have h2 : (4 : ℚ) * (physical : ℚ) < 5 * (requested : ℚ) := by exact_mod_cast h
    linarith

/-- C3, as the code has it: for a physical size below `2 ^ 50` bytes and a
request that does not exceed it, the status is close-to-limit when the request is
greater than 0.8 times the physical size and under-limit otherwise. -/
theorem oversubscribed_close_to_limit (segment_status : RmtSegmentStatus)
    (hsize : segment_status.total_physical_size < 2 ^ 50)
    (hle : segment_status.total_virtual_memory_requested ≤ segment_status.total_physical_size) :
    RmtSegmentStatusGetOversubscribed segment_status
      = if (8 / 10 : ℚ) * (segment_status.total_physical_size : ℚ)
            < (segment_status.total_virtual_memory_requested : ℚ) then
          .kRmtSegmentSubscriptionStatusCloseToLimit
        else
          .kRmtSegmentSubscriptionStatusUnderLimit := by
  unfold RmtSegmentStatusGetOversubscribed
  have hnot : ¬ segment_status.total_virtual_memory_requested
      > segment_status.total_physical_size := by omega
  simp only [hnot, if_false, segmentCloseLimit_eq _ hsize, eight_tenths_lt_iff]
  by_cases h : 4 * segment_status.total_physical_size
      < 5 * segment_status.total_virtual_memory_requested
  · have h2 : segment_status.total_virtual_memory_requested
        > 4 * segment_status.total_physical_size / 5 := by omega
    simp only [h, h2, if_true]
  · have h2 : ¬ segment_status.total_virtual_memory_requested
        > 4 * segment_status.total_physical_size / 5 := by omega
    simp only [h, h2, if_false]

/-- The boundary cases of the specification: with a physical size of 1000 a
request of 801 is close to the limit and a request of 800 is under it. -/
theorem oversubscribed_close_to_limit_witness :
    ((1000 : Nat) < 2 ^ 50 ∧ (801 : Nat) ≤ 1000 ∧ (800 : Nat) ≤ 1000)
      ∧ RmtSegmentStatusGetOversubscribed
          { total_physical_size := 1000, total_virtual_memory_requested := 801 }
        = .kRmtSegmentSubscriptionStatusCloseToLimit
      ∧ RmtSegmentStatusGetOversubscribed
          { total_physical_size := 1000, total_virtual_memory_requested := 800 }
        = .kRmtSegmentSubscriptionStatusUnderLimit := by
  refine ⟨by decide, ?_, ?_⟩
  · rw [oversubscribed_close_to_limit
      { total_physical_size := 1000, total_virtual_memory_requested := 801 }
      (by decide) (by decide)]
    norm_num
  · rw [oversubscribed_close_to_limit
      { total_physical_size := 1000, total_virtual_memory_requested := 800 }
      (by decide) (by decide)]
    norm_num

/-- C3 as stated fails for a large physical size: with 1688849860263936 bytes
(1.5 PiB) the request 1351079888211149 does not exceed the physical size and is
greater than 0.8 times it (1351079888211148.8), yet the status is under-limit,
because the rounded `double` product is 1351079888211149. -/
theorem oversubscribed_close_to_limit_counterexample :
    (1351079888211149 : Nat) ≤ 1688849860263936
      ∧ (8 / 10 : ℚ) * ((1688849860263936 : Nat) : ℚ) < ((1351079888211149 : Nat) : ℚ)
      ∧ segmentCloseLimit 1688849860263936 = 1351079888211149
      ∧ RmtSegmentStatusGetOversubscribed
          { total_physical_size := 1688849860263936
            total_virtual_memory_requested := 1351079888211149 }
        = .kRmtSegmentSubscriptionStatusUnderLimit := by
  refine ⟨by decide, by norm_num, by decide, by decide⟩

/-! ## The loops of `RmtDataSnapshotGetSegmentStatus` -/

theorem wrap64_add_wrap64_left (a b : Nat) : wrap64 (wrap64 a + b) = wrap64 (a + b) := by
  unfold wrap64; exact Nat.mod_add_mod a _ b

theorem wrap64_add_wrap64_right (a b : Nat) : wrap64 (a + wrap64 b) = wrap64 (a + b) := by
  unfold wrap64; exact Nat.add_mod_mod a b _

theorem wrap64_lt (a : Nat) : wrap64 a < 2 ^ 64 := Nat.mod_lt _ (by norm_num)

theorem wrap64_wrap64 (a : Nat) : wrap64 (wrap64 a) = wrap64 a := by
  unfold wrap64; exact Nat.mod_mod a _

/-- The clearing loop zeroes the buckets `0 .. count - 1` and leaves the others. -/
theorem segmentStatusClearUsage_apply (count : Nat) (bytes : Int → Nat) (u : Int) :
    segmentStatusClearUsage count bytes u = if 0 ≤ u ∧ u < count then 0 else bytes u := by
  unfold segmentStatusClearUsage
  induction count with
  | zero =>
    have : ¬ (0 ≤ u ∧ u < ((0 : Nat) : Int)) := by omega
    simp only [List.range_zero, List.foldl_nil, this, if_false]
  | succ n ih =>
    rw [List.range_succ, List.foldl_append]
    simp only [List.foldl_cons, List.foldl_nil]
    by_cases hu : u = (n : Int)
    · subst hu
      simp
    · rw [Function.update_noteq hu, ih]
      by_cases h1 : 0 ≤ u ∧ u < (n : Int)
      · have h2 : 0 ≤ u ∧ u < ((n + 1 : Nat) : Int) := ⟨h1.1, by push_cast; omega⟩
        simp only [h1, h2, and_self, if_true]
      · have h2 : ¬ (0 ≤ u ∧ u < ((n + 1 : Nat) : Int)) := by
          push_cast; intro h; apply h1; exact ⟨h.1, by omega⟩
        simp only [h1, h2, if_false]

/-- The loop over the resources writes neither the heap type, nor the flags,
nor the physical size. -/
theorem resource_fold_fixed (api : RmtResourceApi) (snapshot : RmtDataSnapshot)
    (heap_type : RmtHeapType) (a : RmtVirtualAllocation) (rs : List RmtResource) :
    ∀ out : RmtSegmentStatus,
      (rs.foldl (segmentStatusResourceStep api snapshot heap_type a) out).heap_type
          = out.heap_type
        ∧ (rs.foldl (segmentStatusResourceStep api snapshot heap_type a) out).flags = out.flags
        ∧ (rs.foldl (segmentStatusResourceStep api snapshot heap_type a) out).total_physical_size
          = out.total_physical_size := by
  induction rs with
  | nil => intro out; exact ⟨rfl, rfl, rfl⟩
  | cons r rs ih =>
    intro out
    rw [List.foldl_cons]
    obtain ⟨h1, h2, h3⟩ := ih (segmentStatusResourceStep api snapshot heap_type a out r)
    rw [h1, h2, h3]
    unfold segmentStatusResourceStep
    split_ifs <;> exact ⟨rfl, rfl, rfl⟩

/-- The bound virtual memory after the loop over the resources of an allocation. -/
theorem resource_fold_bound (api : RmtResourceApi) (snapshot : RmtDataSnapshot)
    (heap_type : RmtHeapType) (a : RmtVirtualAllocation) (rs : List RmtResource) :
    ∀ (out : RmtSegmentStatus) (t : Nat), out.total_bound_virtual_memory = wrap64 t →
      (rs.foldl (segmentStatusResourceStep api snapshot heap_type a)
          out).total_bound_virtual_memory
        = wrap64 (t + if a.heap_preferences 0 = heap_type then
            ((rs.filter (fun r => r.resource_type ≠ kRmtResourceTypeHeap)).map
              (fun r => r.size_in_bytes)).sum
          else 0) := by
  induction rs with
  | nil => intro out t h; simpa using h
  | cons r rs ih =>
    intro out t h
    rw [List.foldl_cons]
    by_cases hheap : r.resource_type = kRmtResourceTypeHeap
    · have hstep : segmentStatusResourceStep api snapshot heap_type a out r = out := by
        unfold segmentStatusResourceStep; rw [if_pos hheap]
      rw [hstep, ih out t h]
      simp [List.filter_cons, hheap]
    · by_cases hpref : a.heap_preferences 0 = heap_type
      · have hstep : (segmentStatusResourceStep api snapshot heap_type a out
            r).total_bound_virtual_memory = wrap64 (t + r.size_in_bytes) := by
          unfold segmentStatusResourceStep
          simp only [if_neg hheap, if_pos hpref, h, wrap64_add_wrap64_left]
        rw [ih _ _ hstep]
        simp [List.filter_cons, hheap, hpref, Nat.add_assoc]
      · have hstep : (segmentStatusResourceStep api snapshot heap_type a out
            r).total_bound_virtual_memory = wrap64 t := by
          unfold segmentStatusResourceStep
          simp only [if_neg hheap, if_neg hpref, h]
        rw [ih _ _ hstep]
        simp [hpref]

/-- One bucket of the usage histogram after the loop over the resources of an
allocation. -/
theorem resource_fold_usage (api : RmtResourceApi) (snapshot : RmtDataSnapshot)
    (heap_type : RmtHeapType) (a : RmtVirtualAllocation) (u : RmtResourceUsageType)
    (rs : List RmtResource) :
    ∀ (out : RmtSegmentStatus) (t : Nat), out.physical_bytes_per_resource_usage u = wrap64 t →
      (rs.foldl (segmentStatusResourceStep api snapshot heap_type a)
          out).physical_bytes_per_resource_usage u
        = wrap64 (t + ((rs.filter (fun r => r.resource_type ≠ kRmtResourceTypeHeap
              ∧ api.RmtResourceGetUsageType r = u)).map
            (fun r => api.RmtResourceGetBackingStorageHistogram snapshot r heap_type)).sum) := by
  induction rs with
  | nil => intro out t h; simpa using h
  | cons r rs ih =>
    intro out t h
    rw [List.foldl_cons]
    by_cases hheap : r.resource_type = kRmtResourceTypeHeap
    · have hstep : segmentStatusResourceStep api snapshot heap_type a out r = out := by
        unfold segmentStatusResourceStep; rw [if_pos hheap]
      rw [hstep, ih out t h]
      simp [List.filter_cons, hheap]
    · by_cases hu : api.RmtResourceGetUsageType r = u
      · have hstep : (segmentStatusResourceStep api snapshot heap_type a out
            r).physical_bytes_per_resource_usage u
            = wrap64 (t + api.RmtResourceGetBackingStorageHistogram snapshot r heap_type) := by
          unfold segmentStatusResourceStep
          simp only [if_neg hheap]
          subst hu
          split_ifs <;> simp [Function.update_same, h, wrap64_add_wrap64_left]
        rw [ih _ _ hstep]
        simp [List.filter_cons, hheap, hu, Nat.add_assoc]
      · have hstep : (segmentStatusResourceStep api snapshot heap_type a out
            r).physical_bytes_per_resource_usage u = wrap64 t := by
          unfold segmentStatusResourceStep
          simp only [if_neg hheap]
          have hne : u ≠ api.RmtResourceGetUsageType r := fun e => hu e.symm
          split_ifs <;> simp [Function.update_noteq hne, h]
        rw [ih _ _ hstep]
        simp [List.filter_cons, hheap, hu]

theorem RMT_MAXIMUM_eq_max (a b : Nat) : RMT_MAXIMUM a b = max a b := by
  unfold RMT_MAXIMUM; split_ifs <;> omega

theorem RMT_MINIMUM_eq_min (a b : Nat) : RMT_MINIMUM a b = min a b := by
  unfold RMT_MINIMUM; split_ifs <;> omega

/-- The byte size of an allocation is a multiple of 4096 below `2 ^ 64`, so it
is never the sentinel `UINT64_MAX`. -/
theorem allocation_size_lt_max (pages : Nat) :
    RmtGetAllocationSizeInBytes pages .kRmtPageSize4Kb < UINT64_MAX := by
  simp only [RmtGetAllocationSizeInBytes, wrap64, UINT64_MAX, RmtGetPageSize]
  omega

/-- The output structure after one iteration of the loop over the allocations. -/
theorem allocation_step_out (api : RmtResourceApi) (snapshot : RmtDataSnapshot)
    (heap_type : RmtHeapType) (st : SegmentStatusLocals) (a : RmtVirtualAllocation) :
    (segmentStatusAllocationStep api snapshot heap_type st a).out_segment_status
      = a.resources.foldl (segmentStatusResourceStep api snapshot heap_type a)
          st.out_segment_status := by
  unfold segmentStatusAllocationStep
  split_ifs <;> rfl

/-- The loop over the allocations writes neither the heap type, nor the flags,
nor the physical size of the output structure. -/
theorem allocation_fold_fixed (api : RmtResourceApi) (snapshot : RmtDataSnapshot)
    (heap_type : RmtHeapType) (l : List RmtVirtualAllocation) :
    ∀ st : SegmentStatusLocals,
      (l.foldl (segmentStatusAllocationStep api snapshot heap_type)
          st).out_segment_status.heap_type = st.out_segment_status.heap_type
        ∧ (l.foldl (segmentStatusAllocationStep api snapshot heap_type)
          st).out_segment_status.flags = st.out_segment_status.flags
        ∧ (l.foldl (segmentStatusAllocationStep api snapshot heap_type)
          st).out_segment_status.total_physical_size
          = st.out_segment_status.total_physical_size := by
  induction l with
  | nil => intro st; exact ⟨rfl, rfl, rfl⟩
  | cons a l ih =>
    intro st
    rw [List.foldl_cons]
    obtain ⟨h1, h2, h3⟩ := ih (segmentStatusAllocationStep api snapshot heap_type st a)
    rw [h1, h2, h3, allocation_step_out]
    exact resource_fold_fixed api snapshot heap_type a a.resources _

/-- The requested virtual memory after the loop over the allocations. -/
theorem allocation_fold_total (api : RmtResourceApi) (snapshot : RmtDataSnapshot)
    (heap_type : RmtHeapType) (l : List RmtVirtualAllocation) :
    ∀ (st : SegmentStatusLocals) (t : Nat), st.total_virtual_memory_requested = wrap64 t →
      (l.foldl (segmentStatusAllocationStep api snapshot heap_type)
          st).total_virtual_memory_requested
        = wrap64 (t + ((l.filter (fun a => a.heap_preferences 0 = heap_type)).map
            (fun a => a.size_in_4kb_page * 4096)).sum) := by
  induction l with
  | nil => intro st t h; simpa using h
  | cons a l ih =>
    intro st t h
    rw [List.foldl_cons]
    by_cases hpref : a.heap_preferences 0 = heap_type
    · have hstep : (segmentStatusAllocationStep api snapshot heap_type st
          a).total_virtual_memory_requested = wrap64 (t + a.size_in_4kb_page * 4096) := by
        unfold segmentStatusAllocationStep
        simp only [if_pos hpref, h, RmtGetAllocationSizeInBytes, RmtGetPageSize,
          wrap64_add_wrap64_left, wrap64_add_wrap64_right]
      rw [ih _ _ hstep]
      simp [List.filter_cons, hpref, Nat.add_assoc]
    · have hstep : (segmentStatusAllocationStep api snapshot heap_type st
          a).total_virtual_memory_requested = wrap64 t := by
        unfold segmentStatusAllocationStep
        simp only [if_neg hpref, h]
      rw [ih _ _ hstep]
      simp [List.filter_cons, hpref]

/-- The allocation counter after the loop over the allocations. -/
theorem allocation_fold_count (api : RmtResourceApi) (snapshot : RmtDataSnapshot)
    (heap_type : RmtHeapType) (l : List RmtVirtualAllocation) :
    ∀ st : SegmentStatusLocals,
      (l.foldl (segmentStatusAllocationStep api snapshot heap_type) st).allocation_count
        = st.allocation_count
          + (l.filter (fun a => a.heap_preferences 0 = heap_type)).length := by
  induction l with
  | nil => intro st; simp
  | cons a l ih =>
    intro st
    rw [List.foldl_cons, ih]
    by_cases hpref : a.heap_preferences 0 = heap_type
    · simp [segmentStatusAllocationStep, List.filter_cons, hpref]; omega
    · simp [segmentStatusAllocationStep, List.filter_cons, hpref]

/-- The running maximum and minimum after the loop over the allocations. -/
theorem allocation_fold_max_min (api : RmtResourceApi) (snapshot : RmtDataSnapshot)
    (heap_type : RmtHeapType) (l : List RmtVirtualAllocation) :
    ∀ st : SegmentStatusLocals,
      (l.foldl (segmentStatusAllocationStep api snapshot heap_type)
          st).max_virtual_allocation_size
        = ((l.filter (fun a => a.heap_preferences 0 = heap_type)).map
            (fun a => RmtGetAllocationSizeInBytes a.size_in_4kb_page .kRmtPageSize4Kb)).foldl
              max st.max_virtual_allocation_size
      ∧ (l.foldl (segmentStatusAllocationStep api snapshot heap_type)
          st).min_virtual_allocation_size
        = ((l.filter (fun a => a.heap_preferences 0 = heap_type)).map
            (fun a => RmtGetAllocationSizeInBytes a.size_in_4kb_page .kRmtPageSize4Kb)).foldl
              min st.min_virtual_allocation_size := by
  induction l with
  | nil => intro st; simp
  | cons a l ih =>
    intro st
    rw [List.foldl_cons]
    obtain ⟨h1, h2⟩ := ih (segmentStatusAllocationStep api snapshot heap_type st a)
    rw [h1, h2]
    by_cases hpref : a.heap_preferences 0 = heap_type
    · simp [segmentStatusAllocationStep, List.filter_cons, hpref, RMT_MAXIMUM_eq_max,
        RMT_MINIMUM_eq_min]
    · simp [segmentStatusAllocationStep, List.filter_cons, hpref]

/-- The bound virtual memory after the loop over the allocations. -/
theorem allocation_fold_bound (api : RmtResourceApi) (snapshot : RmtDataSnapshot)
    (heap_type : RmtHeapType) (l : List RmtVirtualAllocation) :
    ∀ (st : SegmentStatusLocals) (t : Nat),
      st.out_segment_status.total_bound_virtual_memory = wrap64 t →
      (l.foldl (segmentStatusAllocationStep api snapshot heap_type)
          st).out_segment_status.total_bound_virtual_memory
        = wrap64 (t + ((l.filter (fun a => a.heap_preferences 0 = heap_type)).map
            (fun a => ((a.resources.filter
              (fun r => r.resource_type ≠ kRmtResourceTypeHeap)).map
                (fun r => r.size_in_bytes)).sum)).sum) := by
  induction l with
  | nil => intro st t h; simpa using h
  | cons a l ih =>
    intro st t h
    rw [List.foldl_cons]
    have hstep : (segmentStatusAllocationStep api snapshot heap_type st
        a).out_segment_status.total_bound_virtual_memory
        = wrap64 (t + if a.heap_preferences 0 = heap_type then
            ((a.resources.filter (fun r => r.resource_type ≠ kRmtResourceTypeHeap)).map
              (fun r => r.size_in_bytes)).sum
          else 0) := by
      rw [allocation_step_out]
      exact resource_fold_bound api snapshot heap_type a a.resources _ t h
    rw [ih _ _ hstep]
    by_cases hpref : a.heap_preferences 0 = heap_type
    · simp [List.filter_cons, hpref, Nat.add_assoc]
    · simp [List.filter_cons, hpref]

/-- One bucket of the usage histogram after the loop over the allocations. -/
theorem allocation_fold_usage (api : RmtResourceApi) (snapshot : RmtDataSnapshot)
    (heap_type : RmtHeapType) (u : RmtResourceUsageType) (l : List RmtVirtualAllocation) :
    ∀ (st : SegmentStatusLocals) (t : Nat),
      st.out_segment_status.physical_bytes_per_resource_usage u = wrap64 t →
      (l.foldl (segmentStatusAllocationStep api snapshot heap_type)
          st).out_segment_status.physical_bytes_per_resource_usage u
        = wrap64 (t + (l.map (fun a => ((a.resources.filter
              (fun r => r.resource_type ≠ kRmtResourceTypeHeap
                ∧ api.RmtResourceGetUsageType r = u)).map
                (fun r => api.RmtResourceGetBackingStorageHistogram snapshot r
                  heap_type)).sum)).sum) := by
  induction l with
  | nil => intro st t h; simpa using h
  | cons a l ih =>
    intro st t h
    rw [List.foldl_cons]
    have hstep : (segmentStatusAllocationStep api snapshot heap_type st
        a).out_segment_status.physical_bytes_per_resource_usage u
        = wrap64 (t + ((a.resources.filter
              (fun r => r.resource_type ≠ kRmtResourceTypeHeap
                ∧ api.RmtResourceGetUsageType r = u)).map
                (fun r => api.RmtResourceGetBackingStorageHistogram snapshot r
                  heap_type)).sum) := by
      rw [allocation_step_out]
      exact resource_fold_usage api snapshot heap_type a u a.resources _ t h
    rw [ih _ _ hstep]
    simp [Nat.add_assoc]

/-! ## Segment status: the claims -/

/-- C1: for every snapshot and heap type, `RmtDataSnapshotGetSegmentStatus`
returns OK and sets `total_virtual_memory_requested` to the sum, in 64 bit
arithmetic, of the byte sizes (4 KiB page count times 4096) of exactly those
allocations whose `heap_preferences[0]` is the heap type. -/
theorem segment_status_total_virtual_memory_requested (api : RmtResourceApi)
    (snapshot : RmtDataSnapshot) (heap_type : RmtHeapType) (out : RmtSegmentStatus) :
    ∃ st : RmtSegmentStatus,
      RmtDataSnapshotGetSegmentStatus api (some snapshot) heap_type (some out)
          = (.RMT_OK, some st)
        ∧ st.total_virtual_memory_requested
          = wrap64 (((snapshot.virtual_allocation_list.allocation_details.filter
              (fun a => a.heap_preferences 0 = heap_type)).map
                (fun a => a.size_in_4kb_page * 4096)).sum) := by
  refine ⟨_, rfl, ?_⟩
  have h := allocation_fold_total api snapshot heap_type
    snapshot.virtual_allocation_list.allocation_details
  simp only [Nat.zero_add] at h ⊢
  exact (h _ 0 rfl).trans (by simp)

/-- The running maximum from zero is the largest element, or zero for no
element. -/
theorem foldl_max_zero (sizes : List Nat) : sizes.foldl max 0 = sizes.max?.getD 0 := by
  cases sizes with
  | nil => rfl
  | cons x xs => simp [List.max?, Nat.zero_max]

/-- The running minimum from `UINT64_MAX`, with the sentinel turned into zero,
is the smallest element, or zero for no element. -/
theorem foldl_min_sentinel (sizes : List Nat) (hlt : ∀ x ∈ sizes, x < UINT64_MAX) :
    (if sizes.foldl min UINT64_MAX = UINT64_MAX then 0 else sizes.foldl min UINT64_MAX)
      = sizes.min?.getD 0 := by
  cases sizes with
  | nil => simp
  | cons x xs =>
    have hx : x < UINT64_MAX := hlt x (List.mem_cons_self x xs)
    have hmin : min UINT64_MAX x = x := Nat.min_eq_right (Nat.le_of_lt hx)
    have hsome : (x :: xs).min? = some (xs.foldl min x) := rfl
    have hmem : xs.foldl min x ∈ x :: xs := (List.min?_eq_some_iff'.1 hsome).1
    have hne : xs.foldl min x ≠ UINT64_MAX := Nat.ne_of_lt (hlt _ hmem)
    simp only [List.foldl_cons, hmin, hsome, Option.getD_some, if_neg hne]

/-- C4: for every snapshot and heap type, `RmtDataSnapshotGetSegmentStatus`
sets `min_allocation_size` and `max_allocation_size` to the smallest and the
largest byte size among the allocations whose `heap_preferences[0]` is the heap
type, and sets both to 0 when there is no such allocation. -/
theorem segment_status_min_max_allocation_size (api : RmtResourceApi)
    (snapshot : RmtDataSnapshot) (heap_type : RmtHeapType) (out : RmtSegmentStatus) :
    ∃ st : RmtSegmentStatus,
      RmtDataSnapshotGetSegmentStatus api (some snapshot) heap_type (some out)
          = (.RMT_OK, some st)
        ∧ st.min_allocation_size
          = (((snapshot.virtual_allocation_list.allocation_details.filter
              (fun a => a.heap_preferences 0 = heap_type)).map
                (fun a => RmtGetAllocationSizeInBytes a.size_in_4kb_page
                  .kRmtPageSize4Kb)).min?).getD 0
        ∧ st.max_allocation_size
          = (((snapshot.virtual_allocation_list.allocation_details.filter
              (fun a => a.heap_preferences 0 = heap_type)).map
                (fun a => RmtGetAllocationSizeInBytes a.size_in_4kb_page
                  .kRmtPageSize4Kb)).max?).getD 0 := by
  refine ⟨_, rfl, ?_, ?_⟩
  · have h := (allocation_fold_max_min api snapshot heap_type
      snapshot.virtual_allocation_list.allocation_details
      { max_virtual_allocation_size := 0
        min_virtual_allocation_size := UINT64_MAX
        total_virtual_memory_requested := 0
        allocation_count := 0
        out_segment_status :=
          { out with
            heap_type := heap_type
            flags := segmentStatusSetFlags heap_type out.flags
            total_physical_size := (snapshot.data_set.segment_info heap_type).size
            total_bound_virtual_memory := 0
            physical_bytes_per_resource_usage :=
              segmentStatusClearUsage api.kRmtResourceUsageTypeCount
                out.physical_bytes_per_resource_usage } }).2
    have hs := foldl_min_sentinel
      ((snapshot.virtual_allocation_list.allocation_details.filter
        (fun a => a.heap_preferences 0 = heap_type)).map
          (fun a => RmtGetAllocationSizeInBytes a.size_in_4kb_page .kRmtPageSize4Kb))
      (by
        intro x hx
        obtain ⟨a, -, rfl⟩ := List.mem_map.1 hx
        exact allocation_size_lt_max _)
    rw [← h] at hs
    exact hs
  · have h := (allocation_fold_max_min api snapshot heap_type
      snapshot.virtual_allocation_list.allocation_details
      { max_virtual_allocation_size := 0
        min_virtual_allocation_size := UINT64_MAX
        total_virtual_memory_requested := 0
        allocation_count := 0
        out_segment_status :=
          { out with
            heap_type := heap_type
            flags := segmentStatusSetFlags heap_type out.flags
            total_physical_size := (snapshot.data_set.segment_info heap_type).size
            total_bound_virtual_memory := 0
            physical_bytes_per_resource_usage :=
              segmentStatusClearUsage api.kRmtResourceUsageTypeCount
                out.physical_bytes_per_resource_usage } }).1
    exact h.trans (foldl_max_zero _)

/-- C5: for every snapshot and heap type, `RmtDataSnapshotGetSegmentStatus`
sets `mean_allocation_size` to `total_virtual_memory_requested` divided, by
integer division, by the number of allocations whose primary heap is the heap
type when that number is positive, and to 0 when it is 0. -/
theorem segment_status_mean_allocation_size (api : RmtResourceApi)
    (snapshot : RmtDataSnapshot) (heap_type : RmtHeapType) (out : RmtSegmentStatus) :
    ∃ st : RmtSegmentStatus,
      RmtDataSnapshotGetSegmentStatus api (some snapshot) heap_type (some out)
          = (.RMT_OK, some st)
        ∧ st.mean_allocation_size
          = if 0 < (snapshot.virtual_allocation_list.allocation_details.filter
                (fun a => a.heap_preferences 0 = heap_type)).length then
              st.total_virtual_memory_requested
                / (snapshot.virtual_allocation_list.allocation_details.filter
                    (fun a => a.heap_preferences 0 = heap_type)).length
            else 0 := by
  refine ⟨_, rfl, ?_⟩
  have h := allocation_fold_count api snapshot heap_type
    snapshot.virtual_allocation_list.allocation_details
    { max_virtual_allocation_size := 0
      min_virtual_allocation_size := UINT64_MAX
      total_virtual_memory_requested := 0
      allocation_count := 0
      out_segment_status :=
        { out with
          heap_type := heap_type
          flags := segmentStatusSetFlags heap_type out.flags
          total_physical_size := (snapshot.data_set.segment_info heap_type).size
          total_bound_virtual_memory := 0
          physical_bytes_per_resource_usage :=
            segmentStatusClearUsage api.kRmtResourceUsageTypeCount
              out.physical_bytes_per_resource_usage } }
  simp only [Nat.zero_add] at h
  simp only [gt_iff_lt, h]

/-- C6: for every snapshot and heap type, `RmtDataSnapshotGetSegmentStatus`
sets `total_bound_virtual_memory` to the sum, in 64 bit arithmetic, of
`size_in_bytes` over the resources bound in the allocations whose
`heap_preferences[0]` is the heap type, leaving out every resource of the heap
sentinel type. -/
theorem segment_status_total_bound_virtual_memory (api : RmtResourceApi)
    (snapshot : RmtDataSnapshot) (heap_type : RmtHeapType) (out : RmtSegmentStatus) :
    ∃ st : RmtSegmentStatus,
      RmtDataSnapshotGetSegmentStatus api (some snapshot) heap_type (some out)
          = (.RMT_OK, some st)
        ∧ st.total_bound_virtual_memory
          = wrap64 (((snapshot.virtual_allocation_list.allocation_details.filter
              (fun a => a.heap_preferences 0 = heap_type)).map
                (fun a => ((a.resources.filter
                  (fun r => r.resource_type ≠ kRmtResourceTypeHeap)).map
                    (fun r => r.size_in_bytes)).sum)).sum) := by
  refine ⟨_, rfl, ?_⟩
  have h := allocation_fold_bound api snapshot heap_type
    snapshot.virtual_allocation_list.allocation_details
    { max_virtual_allocation_size := 0
      min_virtual_allocation_size := UINT64_MAX
      total_virtual_memory_requested := 0
      allocation_count := 0
      out_segment_status :=
        { out with
          heap_type := heap_type
          flags := segmentStatusSetFlags heap_type out.flags
          total_physical_size := (snapshot.data_set.segment_info heap_type).size
          total_bound_virtual_memory := 0
          physical_bytes_per_resource_usage :=
            segmentStatusClearUsage api.kRmtResourceUsageTypeCount
              out.physical_bytes_per_resource_usage } } 0 rfl
  rw [Nat.zero_add] at h
  exact h

/-- C7: for every snapshot, heap type and resource usage type `u` (an index
below `kRmtResourceUsageTypeCount`), `RmtDataSnapshotGetSegmentStatus` sets
`physical_bytes_per_resource_usage[u]` to the sum, in 64 bit arithmetic, over
every allocation of the snapshot and over each of its resources that is not of
the heap type and whose usage type is `u`, of the backing storage histogram entry
of that resource for the heap type. The value does not involve the former
content of the output structure. -/
theorem segment_status_physical_bytes_per_resource_usage (api : RmtResourceApi)
    (snapshot : RmtDataSnapshot) (heap_type : RmtHeapType) (out : RmtSegmentStatus)
    (u : RmtResourceUsageType) (hu0 : 0 ≤ u) (hu1 : u < api.kRmtResourceUsageTypeCount) :
    ∃ st : RmtSegmentStatus,
      RmtDataSnapshotGetSegmentStatus api (some snapshot) heap_type (some out)
          = (.RMT_OK, some st)
        ∧ st.physical_bytes_per_resource_usage u
          = wrap64 ((snapshot.virtual_allocation_list.allocation_details.map
              (fun a => ((a.resources.filter
                (fun r => r.resource_type ≠ kRmtResourceTypeHeap
                  ∧ api.RmtResourceGetUsageType r = u)).map
                  (fun r => api.RmtResourceGetBackingStorageHistogram snapshot r
                    heap_type)).sum)).sum) := by
  refine ⟨_, rfl, ?_⟩
  have h := allocation_fold_usage api snapshot heap_type u
    snapshot.virtual_allocation_list.allocation_details
    { max_virtual_allocation_size := 0
      min_virtual_allocation_size := UINT64_MAX
      total_virtual_memory_requested := 0
      allocation_count := 0
      out_segment_status :=
        { out with
          heap_type := heap_type
          flags := segmentStatusSetFlags heap_type out.flags
          total_physical_size := (snapshot.data_set.segment_info heap_type).size
          total_bound_virtual_memory := 0
          physical_bytes_per_resource_usage :=
            segmentStatusClearUsage api.kRmtResourceUsageTypeCount
              out.physical_bytes_per_resource_usage } } 0
    (by
      show segmentStatusClearUsage _ _ u = wrap64 0
      rw [segmentStatusClearUsage_apply, if_pos ⟨hu0, hu1⟩]
      rfl)
  rw [Nat.zero_add] at h
  exact h

/-- The usage bucket 1 of the example snapshot, for the local heap and an output
structure with stale buckets. -/
theorem segment_status_physical_bytes_per_resource_usage_witness :
    ((0 : Int) ≤ 1 ∧ (1 : Int) < exampleApi.kRmtResourceUsageTypeCount)
      ∧ ∃ st : RmtSegmentStatus,
        RmtDataSnapshotGetSegmentStatus exampleApi (some exampleSnapshot) kRmtHeapTypeLocal
            (some { physical_bytes_per_resource_usage := fun _ => 77 })
          = (.RMT_OK, some st)
        ∧ st.physical_bytes_per_resource_usage 1
          = wrap64 ((exampleSnapshot.virtual_allocation_list.allocation_details.map
              (fun a => ((a.resources.filter
                (fun r => r.resource_type ≠ kRmtResourceTypeHeap
                  ∧ exampleApi.RmtResourceGetUsageType r = 1)).map
                  (fun r => exampleApi.RmtResourceGetBackingStorageHistogram exampleSnapshot r
                    kRmtHeapTypeLocal)).sum)).sum) :=
  ⟨by decide,
    segment_status_physical_bytes_per_resource_usage exampleApi exampleSnapshot
      kRmtHeapTypeLocal { physical_bytes_per_resource_usage := fun _ => 77 } 1
      (by decide) (by decide)⟩

theorem segmentStatusSetFlags_eq (heap_type : RmtHeapType) (flags : Nat) :
    segmentStatusSetFlags heap_type flags = flags ||| specCapabilityFlags heap_type := by
  unfold segmentStatusSetFlags specCapabilityFlags
  split_ifs <;> simp [Nat.lor_assoc]

/-- C8, as the code has it: the capability flags that
`RmtDataSnapshotGetSegmentStatus` leaves in the output are the flags that the
output structure held before the call, or-ed with the table entry of the heap
type. -/
theorem segment_status_flags (api : RmtResourceApi) (snapshot : RmtDataSnapshot)
    (heap_type : RmtHeapType) (out : RmtSegmentStatus) :
    ∃ st : RmtSegmentStatus,
      RmtDataSnapshotGetSegmentStatus api (some snapshot) heap_type (some out)
          = (.RMT_OK, some st)
        ∧ st.flags = out.flags ||| specCapabilityFlags heap_type := by
  refine ⟨_, rfl, ?_⟩
  have h := (allocation_fold_fixed api snapshot heap_type
    snapshot.virtual_allocation_list.allocation_details
    { max_virtual_allocation_size := 0
      min_virtual_allocation_size := UINT64_MAX
      total_virtual_memory_requested := 0
      allocation_count := 0
      out_segment_status :=
        { out with
          heap_type := heap_type
          flags := segmentStatusSetFlags heap_type out.flags
          total_physical_size := (snapshot.data_set.segment_info heap_type).size
          total_bound_virtual_memory := 0
          physical_bytes_per_resource_usage :=
            segmentStatusClearUsage api.kRmtResourceUsageTypeCount
              out.physical_bytes_per_resource_usage } }).2.1
  exact h.trans (segmentStatusSetFlags_eq heap_type out.flags)

/-- C8 as stated fails: for the invisible heap, an output structure whose flags
field holds the CPU cached flag before the call keeps it, so the flags after
the call differ from those obtained from a cleared flags field, which are VRAM,
GPU visible, GPU cached. -/
theorem segment_status_flags_counterexample :
    (RmtDataSnapshotGetSegmentStatus exampleApi (some exampleSnapshot) kRmtHeapTypeInvisible
        (some { flags := kRmtSegmentStatusFlagCpuCached })).2.map (fun st => st.flags)
      = some (kRmtSegmentStatusFlagVram ||| kRmtSegmentStatusFlagGpuVisible
          ||| kRmtSegmentStatusFlagGpuCached ||| kRmtSegmentStatusFlagCpuCached)
    ∧ (RmtDataSnapshotGetSegmentStatus exampleApi (some exampleSnapshot) kRmtHeapTypeInvisible
        (some { flags := 0 })).2.map (fun st => st.flags)
      = some (kRmtSegmentStatusFlagVram ||| kRmtSegmentStatusFlagGpuVisible
          ||| kRmtSegmentStatusFlagGpuCached)
    ∧ (kRmtSegmentStatusFlagVram ||| kRmtSegmentStatusFlagGpuVisible
          ||| kRmtSegmentStatusFlagGpuCached ||| kRmtSegmentStatusFlagCpuCached)
      ≠ (kRmtSegmentStatusFlagVram ||| kRmtSegmentStatusFlagGpuVisible
          ||| kRmtSegmentStatusFlagGpuCached) := by
  refine ⟨by decide, by decide, by decide⟩

/-- An allocation of another primary heap that has no resources leaves the
loop state as it is. -/
theorem allocation_step_skip (api : RmtResourceApi) (snapshot : RmtDataSnapshot)
    (heap_type : RmtHeapType) (st : SegmentStatusLocals) (a : RmtVirtualAllocation)
    (hpref : a.heap_preferences 0 ≠ heap_type) (hres : a.resources = []) :
    segmentStatusAllocationStep api snapshot heap_type st a = st := by
  unfold segmentStatusAllocationStep
  simp only [if_neg hpref, hres, List.foldl_nil]

/-- C9: for every heap type, adding to a snapshot (at any place of its
allocation list) an allocation whose primary heap preference differs from the
heap type and that has no bound resources leaves the result of
`RmtDataSnapshotGetSegmentStatus` for that heap type unchanged in every field.
The backing storage histogram of a resource, which another module computes from
the page table, is taken not to change with the allocation list. -/
theorem segment_status_unaffected_by_other_heap (api : RmtResourceApi)
    (snapshot : RmtDataSnapshot) (heap_type : RmtHeapType) (out : RmtSegmentStatus)
    (before after : List RmtVirtualAllocation) (a : RmtVirtualAllocation)
    (hlist : snapshot.virtual_allocation_list.allocation_details = before ++ after)
    (hpref : a.heap_preferences 0 ≠ heap_type) (hres : a.resources = [])
    (hhist : ∀ r : RmtResource,
      api.RmtResourceGetBackingStorageHistogram
          { snapshot with
            virtual_allocation_list := { allocation_details := before ++ a :: after } }
          r heap_type
        = api.RmtResourceGetBackingStorageHistogram snapshot r heap_type) :
    RmtDataSnapshotGetSegmentStatus api
        (some { snapshot with
                virtual_allocation_list := { allocation_details := before ++ a :: after } })
        heap_type (some out)
      = RmtDataSnapshotGetSegmentStatus api (some snapshot) heap_type (some out) := by
  have hrstep : ∀ b : RmtVirtualAllocation,
      segmentStatusResourceStep api
          { snapshot with
            virtual_allocation_list := { allocation_details := before ++ a :: after } }
          heap_type b
        = segmentStatusResourceStep api snapshot heap_type b := by
    intro b
    funext o r
    unfold segmentStatusResourceStep
    simp only [hhist]
  have hstep : segmentStatusAllocationStep api
        { snapshot with
          virtual_allocation_list := { allocation_details := before ++ a :: after } }
        heap_type
      = segmentStatusAllocationStep api snapshot heap_type := by
    funext st b
    unfold segmentStatusAllocationStep
    simp only [hrstep]
  simp only [RmtDataSnapshotGetSegmentStatus, hstep, hlist, List.foldl_append,
    List.foldl_cons, allocation_step_skip api snapshot heap_type _ a hpref hres]

/-- The system status of the scenario is the same with and without a further
local allocation of three pages. -/
theorem segment_status_unaffected_by_other_heap_witness :
    (exampleSnapshot.virtual_allocation_list.allocation_details
        = [exampleLocalAllocation1]
          ++ [exampleLocalAllocation2, exampleSystemAllocation]
      ∧ ({ size_in_4kb_page := 3, heap_preferences := fun _ => kRmtHeapTypeLocal }
          : RmtVirtualAllocation).heap_preferences 0 ≠ kRmtHeapTypeSystem
      ∧ ({ size_in_4kb_page := 3, heap_preferences := fun _ => kRmtHeapTypeLocal }
          : RmtVirtualAllocation).resources = [])
    ∧ RmtDataSnapshotGetSegmentStatus exampleApi
        (some { exampleSnapshot with
                virtual_allocation_list :=
                  { allocation_details :=
                      [exampleLocalAllocation1]
                        ++ { size_in_4kb_page := 3
                             heap_preferences := fun _ => kRmtHeapTypeLocal }
                          :: [exampleLocalAllocation2, exampleSystemAllocation] } })
        kRmtHeapTypeSystem (some {})
      = RmtDataSnapshotGetSegmentStatus exampleApi (some exampleSnapshot)
          kRmtHeapTypeSystem (some {}) :=
  ⟨⟨rfl, by decide, rfl⟩,
    segment_status_unaffected_by_other_heap exampleApi exampleSnapshot kRmtHeapTypeSystem {}
      [exampleLocalAllocation1] [exampleLocalAllocation2, exampleSystemAllocation]
      { size_in_4kb_page := 3, heap_preferences := fun _ => kRmtHeapTypeLocal }
      rfl (by decide) rfl (fun _ => rfl)⟩

/-- The scenario of the specification on the code: two local allocations of
4096 and 8192 bytes and a system allocation give, for the local heap, a request
of 12288 bytes, minimum 4096, maximum 8192 and mean 6144; the system heap sees
its own allocation only. -/
theorem segment_status_scenario :
    (RmtDataSnapshotGetSegmentStatus exampleApi (some exampleSnapshot) kRmtHeapTypeLocal
        (some {})).2.map (fun st => (st.total_virtual_memory_requested,
          st.min_allocation_size, st.max_allocation_size, st.mean_allocation_size,
          st.total_bound_virtual_memory))
      = some (12288, 4096, 8192, 6144, 100)
    ∧ (RmtDataSnapshotGetSegmentStatus exampleApi (some exampleSnapshot)
        kRmtHeapTypeSystem (some {})).2.map (fun st => (st.total_virtual_memory_requested,
          st.min_allocation_size, st.max_allocation_size, st.mean_allocation_size,
          st.total_bound_virtual_memory))
      = some (4096, 4096, 4096, 4096, 0) := by
  refine ⟨by decide, by decide⟩

/-! ## Segment lookup by address -/

/-- C10 fails on the code: with the segments `[0x2000, 0x3000)` (local) and
`[0x1000, 0x2000)` (invisible) configured in this order, the address `0x1800`
lies in the second segment and not in the first, and
`RmtDataSnapshotGetSegmentForAddress` returns the unknown heap type instead of
invisible, because every iteration compares the address with the base address
of the first segment. -/
theorem segment_for_address_unordered_segments :
    ((exampleUnorderedDataSet.segment_info 1).base_address ≤ 0x1800
        ∧ 0x1800 < (exampleUnorderedDataSet.segment_info 1).base_address
            + (exampleUnorderedDataSet.segment_info 1).size)
      ∧ ¬ ((exampleUnorderedDataSet.segment_info 0).base_address ≤ 0x1800
        ∧ 0x1800 < (exampleUnorderedDataSet.segment_info 0).base_address
            + (exampleUnorderedDataSet.segment_info 0).size)
      ∧ (exampleUnorderedDataSet.segment_info 1).heap_type = kRmtHeapTypeInvisible
      ∧ RmtDataSnapshotGetSegmentForAddress (some { data_set := exampleUnorderedDataSet })
          0x1800 = kRmtHeapTypeUnknown := by
  refine ⟨by decide, by decide, by decide, by decide⟩

/-- C11 fails on the code: with the segments `[0x1000, 0x2000)` (local) and
`[0x3000, 0x4000)` (invisible), the address `0x2800` lies in the gap between
them, in neither range, and `RmtDataSnapshotGetSegmentForAddress` returns
invisible instead of the unknown heap type: in the second iteration the address
is compared with the base address of the first segment. -/
theorem segment_for_address_gap :
    ¬ ((exampleGapDataSet.segment_info 0).base_address ≤ 0x2800
        ∧ 0x2800 < (exampleGapDataSet.segment_info 0).base_address
            + (exampleGapDataSet.segment_info 0).size)
      ∧ ¬ ((exampleGapDataSet.segment_info 1).base_address ≤ 0x2800
        ∧ 0x2800 < (exampleGapDataSet.segment_info 1).base_address
            + (exampleGapDataSet.segment_info 1).size)
      ∧ RmtDataSnapshotGetSegmentForAddress (some { data_set := exampleGapDataSet }) 0x2800
          = kRmtHeapTypeInvisible
      ∧ kRmtHeapTypeInvisible ≠ kRmtHeapTypeUnknown := by
  refine ⟨by decide, by decide, by decide, by decide⟩

/-- C12: for every snapshot, `RmtDataSnapshotGetSegmentForAddress` returns the
system heap type for the address 0, whatever segments are configured. -/
theorem segment_for_address_zero (snapshot : RmtDataSnapshot) :
    RmtDataSnapshotGetSegmentForAddress (some snapshot) 0 = kRmtHeapTypeSystem := by
  simp [RmtDataSnapshotGetSegmentForAddress]

/-! ## The stream merger and the replay loop -/

theorem streamMergerTake_none (streams : List (List RmtToken)) :
    streamMergerTake streams = none ↔ (streams.map (fun stream => stream.length)).sum = 0 := by
  induction streams with
  | nil => simp [streamMergerTake]
  | cons stream rest ih =>
    cases stream with
    | nil =>
      cases h : streamMergerTake rest with
      | none => simp [streamMergerTake, h, ih.1 h]
      | some p =>
        have hne : ¬ (rest.map (fun stream => stream.length)).sum = 0 := by
          intro h0; rw [ih.2 h0] at h; cases h
        simp [streamMergerTake, h, hne]
    | cons token tokens =>
      cases h : streamMergerTake rest with
      | none => simp [streamMergerTake, h]
      | some p =>
        simp only [streamMergerTake, h]
        split_ifs <;> simp

theorem streamMergerTake_some (streams : List (List RmtToken)) :
    ∀ (token : RmtToken) (after : List (List RmtToken)),
      streamMergerTake streams = some (token, after) →
      (after.map (fun stream => stream.length)).sum + 1
        = (streams.map (fun stream => stream.length)).sum := by
  induction streams with
  | nil => intro token after h; simp [streamMergerTake] at h
  | cons stream rest ih =>
    intro token after h
    cases stream with
    | nil =>
      cases hr : streamMergerTake rest with
      | none => simp [streamMergerTake, hr] at h
      | some p =>
        obtain ⟨candidate, rest_after⟩ := p
        simp only [streamMergerTake, hr, Option.some.injEq, Prod.mk.injEq] at h
        obtain ⟨-, rfl⟩ := h
        have := ih candidate rest_after hr
        simpa using this
    | cons first tokens =>
      cases hr : streamMergerTake rest with
      | none =>
        simp only [streamMergerTake, hr, Option.some.injEq, Prod.mk.injEq] at h
        obtain ⟨-, rfl⟩ := h
        simp; omega
      | some p =>
        obtain ⟨candidate, rest_after⟩ := p
        simp only [streamMergerTake, hr] at h
        split_ifs at h
        · simp only [Option.some.injEq, Prod.mk.injEq] at h
          obtain ⟨-, rfl⟩ := h
          simp; omega
        · simp only [Option.some.injEq, Prod.mk.injEq] at h
          obtain ⟨-, rfl⟩ := h
          have := ih candidate rest_after hr
          simp at this ⊢; omega

theorem streamMergerIsEmpty_iff (stream_merger : RmtStreamMerger) :
    RmtStreamMergerIsEmpty stream_merger = true ↔ streamMergerPending stream_merger = 0 := by
  unfold RmtStreamMergerIsEmpty streamMergerPending
  induction stream_merger.remaining with
  | nil => simp
  | cons stream rest ih =>
    cases stream with
    | nil => simpa using ih
    | cons token tokens => simp

theorem streamMergerAdvance_some (stream_merger : RmtStreamMerger)
    (h : RmtStreamMergerIsEmpty stream_merger = false) :
    ∃ token advanced, RmtStreamMergerAdvance stream_merger = some (token, advanced)
      ∧ streamMergerPending advanced + 1 = streamMergerPending stream_merger
      ∧ advanced.streams = stream_merger.streams := by
  have hne : ¬ streamMergerPending stream_merger = 0 := by
    intro h0
    rw [(streamMergerIsEmpty_iff stream_merger).2 h0] at h
    cases h
  unfold RmtStreamMergerAdvance
  cases ht : streamMergerTake stream_merger.remaining with
  | none => exact absurd ((streamMergerTake_none _).1 ht) hne
  | some p =>
    obtain ⟨token, after⟩ := p
    exact ⟨token, _, rfl, streamMergerTake_some _ token after ht, rfl⟩

/-- The replay loop processes the tokens that the merger delivers, in order. -/
theorem processTokensLoop_history (resource : RmtResource) (fuel : Nat) :
    ∀ (stream_merger : RmtStreamMerger) (out : RmtResourceHistory),
      (processTokensLoop resource fuel stream_merger out).2
        = (streamMergerDelivered fuel stream_merger).foldl
            (processTokenIntoResourceHistory resource) out := by
  induction fuel with
  | zero => intro m out; rfl
  | succ n ih =>
    intro m out
    unfold processTokensLoop streamMergerDelivered
    by_cases he : RmtStreamMergerIsEmpty m = true
    · simp [he]
    · simp only [he, Bool.false_eq_true, if_false]
      cases RmtStreamMergerAdvance m with
      | none => rfl
      | some p =>
        obtain ⟨token, advanced⟩ := p
        simp only [List.foldl_cons]
        exact ih advanced _

/-- With as much fuel as there are pending tokens the replay loop stops on an
empty merger, and leaves the streams of the merger as they are. -/
theorem processTokensLoop_merger (resource : RmtResource) (fuel : Nat) :
    ∀ (stream_merger : RmtStreamMerger) (out : RmtResourceHistory),
      streamMergerPending stream_merger ≤ fuel →
      RmtStreamMergerIsEmpty (processTokensLoop resource fuel stream_merger out).1 = true
        ∧ (processTokensLoop resource fuel stream_merger out).1.streams
          = stream_merger.streams := by
  induction fuel with
  | zero =>
    intro m out h
    exact ⟨(streamMergerIsEmpty_iff m).2 (by omega), rfl⟩
  | succ n ih =>
    intro m out h
    unfold processTokensLoop
    by_cases he : RmtStreamMergerIsEmpty m = true
    · simp [he]
    · have he2 : RmtStreamMergerIsEmpty m = false := by simpa using he
      obtain ⟨token, advanced, hadv, hpend, hstreams⟩ := streamMergerAdvance_some m he2
      simp only [he, Bool.false_eq_true, if_false, hadv]
      have := ih advanced (processTokenIntoResourceHistory resource out token) (by omega)
      rw [hstreams] at this
      exact this

/-! ## Events of the history -/

/-- Adding an event puts it after the events of the history. -/
theorem resourceHistoryEvents_add (resource_history : RmtResourceHistory)
    (event_type : RmtResourceHistoryEventType) (thread_id timestamp : Nat) (physical : Bool) :
    resourceHistoryEvents
        (RmtResourceHistoryAddEvent resource_history event_type thread_id timestamp physical)
      = resourceHistoryEvents resource_history
          ++ [{ event_type := event_type, thread_id := thread_id
                timestamp := timestamp, physical := physical }] := by
  unfold resourceHistoryEvents RmtResourceHistoryAddEvent
  simp only [List.range_succ, List.map_append, List.map_cons, List.map_nil,
    Function.update_same]
  congr 1
  apply List.map_congr_left
  intro i hi
  have hlt : i < resource_history.event_count := List.mem_range.1 hi
  exact Function.update_noteq (Nat.ne_of_lt hlt) _ _

/-- One token leaves the history as it is or adds one event to it, which carries
the thread identifier and the timestamp of the token and whose physical flag is
set exactly for the three page table kinds. -/
theorem processToken_cases (resource : RmtResource) (out : RmtResourceHistory)
    (current_token : RmtToken) :
    processTokenIntoResourceHistory resource out current_token = out
      ∨ ∃ (event_type : RmtResourceHistoryEventType) (physical : Bool),
        processTokenIntoResourceHistory resource out current_token
            = RmtResourceHistoryAddEvent out event_type current_token.common.thread_id
                current_token.common.timestamp physical
          ∧ (physical = true ↔
              (event_type = .kRmtResourceHistoryEventPhysicalUnmap
                ∨ event_type = .kRmtResourceHistoryEventPhysicalMapToHost
                ∨ event_type = .kRmtResourceHistoryEventPhysicalMapToLocal)) := by
  unfold processTokenIntoResourceHistory
  dsimp only
  repeat' split
  all_goals first
    | exact Or.inl rfl
    | exact Or.inr ⟨_, _, rfl, by decide⟩

/-- The replay of a list of tokens adds to the history the events of a sublist of
the tokens, in their order, each with the thread identifier and the timestamp of
its token, and every added event has the physical flag set exactly for the three
page table kinds. -/
theorem processTokens_fold (resource : RmtResource) (tokens : List RmtToken) :
    ∀ out : RmtResourceHistory,
      ∃ (recorded : List RmtToken) (added : List RmtResourceHistoryEvent),
        recorded.Sublist tokens
          ∧ resourceHistoryEvents (tokens.foldl (processTokenIntoResourceHistory resource) out)
            = resourceHistoryEvents out ++ added
          ∧ added.map (fun event => (event.thread_id, event.timestamp))
            = recorded.map (fun token => (token.common.thread_id, token.common.timestamp))
          ∧ ∀ event ∈ added, (event.physical = true ↔
              (event.event_type = .kRmtResourceHistoryEventPhysicalUnmap
                ∨ event.event_type = .kRmtResourceHistoryEventPhysicalMapToHost
                ∨ event.event_type = .kRmtResourceHistoryEventPhysicalMapToLocal)) := by
  induction tokens with
  | nil => intro out; exact ⟨[], [], List.Sublist.refl _, by simp, rfl, by simp⟩
  | cons token tokens ih =>
    intro out
    rw [List.foldl_cons]
    obtain ⟨recorded, added, hsub, hev, hkey, hphys⟩ :=
      ih (processTokenIntoResourceHistory resource out token)
    rcases processToken_cases resource out token with h | ⟨event_type, physical, h, hflag⟩
    · have hstep := congrArg resourceHistoryEvents h
      rw [hstep] at hev
      exact ⟨recorded, added, hsub.cons _, hev, hkey, hphys⟩
    · have hstep := congrArg resourceHistoryEvents h
      rw [resourceHistoryEvents_add] at hstep
      rw [hstep] at hev
      refine ⟨token :: recorded,
        { event_type := event_type, thread_id := token.common.thread_id
          timestamp := token.common.timestamp, physical := physical } :: added,
        hsub.cons₂ _, ?_, ?_, ?_⟩
      · rw [hev, List.append_assoc]; rfl
      · simp only [List.map_cons, hkey]
      · intro event hmem
        rcases List.mem_cons.1 hmem with rfl | hmem
        · exact hflag
        · exact hphys event hmem

/-- The outcome of `RmtDataSnapshotGenerateResourceHistory` on arguments that
are not null: it returns OK, the merger of the resulting snapshot is empty, and
the events of the resulting history are those that the replay of the merged
stream adds to a history without events. -/
theorem generateResourceHistory_ok (snapshot : RmtDataSnapshot) (resource : RmtResource)
    (out : RmtResourceHistory) :
    ∃ (after : RmtDataSnapshot) (history : RmtResourceHistory),
      RmtDataSnapshotGenerateResourceHistory (some snapshot) (some resource) (some out)
          = (.RMT_OK, some after, some history)
        ∧ RmtStreamMergerIsEmpty after.data_set.stream_merger = true
        ∧ history
          = (streamMergerMergedStream snapshot.data_set.stream_merger).foldl
              (processTokenIntoResourceHistory resource)
              { out with
                resource := some resource
                base_allocation := resource.bound_allocation
                event_count := 0 } := by
  refine ⟨_, _, rfl, ?_, ?_⟩
  · exact (processTokensLoop_merger resource _ _ _ (Nat.le_refl _)).1
  · exact processTokensLoop_history resource _ _ _

/-- A history that has just been reset holds no event. -/
theorem resourceHistoryEvents_reset (out : RmtResourceHistory) (resource : RmtResource) :
    resourceHistoryEvents
        { out with
          resource := some resource
          base_allocation := resource.bound_allocation
          event_count := 0 } = [] := rfl

/-! ## Resource history: the claims -/

/-- C13: `RmtDataSnapshotGenerateResourceHistory` returns OK with the merger
drained, and the events it records are those of a subsequence of the merged
stream, in the order in which the merger delivered the tokens, each event with
the thread identifier and the timestamp of its token. Hence, when the timestamps
of the merged stream are non-decreasing, so are the timestamps of the history. -/
theorem resource_history_order (snapshot : RmtDataSnapshot) (resource : RmtResource)
    (out : RmtResourceHistory) :
    ∃ (after : RmtDataSnapshot) (history : RmtResourceHistory),
      RmtDataSnapshotGenerateResourceHistory (some snapshot) (some resource) (some out)
          = (.RMT_OK, some after, some history)
        ∧ RmtStreamMergerIsEmpty after.data_set.stream_merger = true
        ∧ (∃ recorded : List RmtToken,
            recorded.Sublist (streamMergerMergedStream snapshot.data_set.stream_merger)
              ∧ (resourceHistoryEvents history).map
                  (fun event => (event.thread_id, event.timestamp))
                = recorded.map
                  (fun token => (token.common.thread_id, token.common.timestamp)))
        ∧ ((streamMergerMergedStream snapshot.data_set.stream_merger).Pairwise
              (fun first second => first.common.timestamp ≤ second.common.timestamp) →
            (resourceHistoryEvents history).Pairwise
              (fun first second => first.timestamp ≤ second.timestamp)) := by
  obtain ⟨after, history, hcall, hempty, hhist⟩ :=
    generateResourceHistory_ok snapshot resource out
  obtain ⟨recorded, added, hsub, hev, hkey, -⟩ :=
    processTokens_fold resource (streamMergerMergedStream snapshot.data_set.stream_merger)
      { out with
        resource := some resource
        base_allocation := resource.bound_allocation
        event_count := 0 }
  rw [← hhist, resourceHistoryEvents_reset, List.nil_append] at hev
  refine ⟨after, history, hcall, hempty, ⟨recorded, hsub, by rw [hev]; exact hkey⟩, ?_⟩
  intro hsorted
  have hrec := hsorted.sublist hsub
  have htimes : (resourceHistoryEvents history).map (fun event => event.timestamp)
      = recorded.map (fun token => token.common.timestamp) := by
    have h2 := congrArg (List.map Prod.snd) hkey
    rw [hev]
    simpa [List.map_map] using h2
  have hpw : ((resourceHistoryEvents history).map (fun event => event.timestamp)).Pairwise
      (fun a b => a ≤ b) := by
    rw [htimes]
    exact List.pairwise_map.2 hrec
  exact List.pairwise_map.1 hpw

/-- The merged stream of the ordering scenario. -/
theorem exampleOrderingStreams_merged :
    streamMergerMergedStream
        (exampleTraceSnapshot exampleOrderingStreams).data_set.stream_merger
      = [{ type := .kRmtTokenTypeResourceCreate, common := { thread_id := 1, timestamp := 10 }
           resource_create_token := { resource_identifier := 7 } },
         { type := .kRmtTokenTypeCpuMap, common := { thread_id := 2, timestamp := 15 }
           cpu_map_token := { virtual_address := 0x10000, is_unmap := false } },
         { type := .kRmtTokenTypeResourceBind, common := { thread_id := 1, timestamp := 20 }
           resource_bind_token := { resource_identifier := 7 } },
         { type := .kRmtTokenTypeCpuMap, common := { thread_id := 2, timestamp := 25 }
           cpu_map_token := { virtual_address := 0x10000, is_unmap := true } }] := by
  decide

/-- The ordering scenario: the merged stream has the timestamps 10, 15, 20, 25,
and the history of the resource is in non-decreasing order of time. -/
theorem resource_history_order_witness :
    (streamMergerMergedStream
        (exampleTraceSnapshot exampleOrderingStreams).data_set.stream_merger).Pairwise
        (fun first second => first.common.timestamp ≤ second.common.timestamp)
      ∧ ∃ (after : RmtDataSnapshot) (history : RmtResourceHistory),
        RmtDataSnapshotGenerateResourceHistory
            (some (exampleTraceSnapshot exampleOrderingStreams))
            (some exampleBoundResource) (some {})
          = (.RMT_OK, some after, some history)
        ∧ (resourceHistoryEvents history).Pairwise
            (fun first second => first.timestamp ≤ second.timestamp) := by
  have hmerged : (streamMergerMergedStream
      (exampleTraceSnapshot exampleOrderingStreams).data_set.stream_merger).Pairwise
      (fun first second => first.common.timestamp ≤ second.common.timestamp) := by
    rw [exampleOrderingStreams_merged]
    simp
  obtain ⟨after, history, hcall, -, -, hsorted⟩ :=
    resource_history_order (exampleTraceSnapshot exampleOrderingStreams)
      exampleBoundResource {}
  exact ⟨hmerged, after, history, hcall, hsorted hmerged⟩

/-- The ordering scenario of the specification on the code: a resource created at
10 and bound at 20, whose allocation is mapped at 15 and unmapped at 25, has the
history created, mapped, bound, unmapped. -/
theorem resource_history_scenario :
    (RmtDataSnapshotGenerateResourceHistory
        (some (exampleTraceSnapshot exampleOrderingStreams))
        (some exampleBoundResource) (some {})).2.2.map resourceHistoryEvents
      = some
          [{ event_type := .kRmtResourceHistoryEventResourceCreated
             thread_id := 1, timestamp := 10, physical := false },
           { event_type := .kRmtResourceHistoryEventVirtualMemoryMapped
             thread_id := 2, timestamp := 15, physical := false },
           { event_type := .kRmtResourceHistoryEventResourceBound
             thread_id := 1, timestamp := 20, physical := false },
           { event_type := .kRmtResourceHistoryEventVirtualMemoryUnmapped
             thread_id := 2, timestamp := 25, physical := false }] := by
  decide

/-- One step of the replay for a resource without bound allocation: the history
keeps having no base allocation, and the step either leaves it as it is or adds
one event of the kinds created, destroyed, bound. -/
theorem processToken_unbound (resource : RmtResource) (out : RmtResourceHistory)
    (current_token : RmtToken) (hunbound : resource.bound_allocation = none)
    (hbase : out.base_allocation = none) :
    (processTokenIntoResourceHistory resource out current_token).base_allocation = none
      ∧ (processTokenIntoResourceHistory resource out current_token = out
        ∨ ∃ event_type : RmtResourceHistoryEventType,
            (event_type = .kRmtResourceHistoryEventResourceCreated
              ∨ event_type = .kRmtResourceHistoryEventResourceDestroyed
              ∨ event_type = .kRmtResourceHistoryEventResourceBound)
            ∧ processTokenIntoResourceHistory resource out current_token
              = RmtResourceHistoryAddEvent out event_type
                  current_token.common.thread_id current_token.common.timestamp false) := by
  unfold processTokenIntoResourceHistory
  simp only [RmtResourceOverlapsVirtualAddressRange, hunbound, hbase]
  repeat' split
  all_goals first
    | exact ⟨hbase, Or.inl rfl⟩
    | exact ⟨hbase, Or.inr ⟨_, Or.inl rfl, rfl⟩⟩
    | exact ⟨hbase, Or.inr ⟨_, Or.inr (Or.inl rfl), rfl⟩⟩
    | exact ⟨hbase, Or.inr ⟨_, Or.inr (Or.inr rfl), rfl⟩⟩
    | simp_all

/-- The replay of a list of tokens for a resource without bound allocation adds
only events of the kinds created, destroyed, bound. -/
theorem processTokens_unbound (resource : RmtResource) (tokens : List RmtToken)
    (hunbound : resource.bound_allocation = none) :
    ∀ out : RmtResourceHistory, out.base_allocation = none →
      (∀ event ∈ resourceHistoryEvents out,
        event.event_type = .kRmtResourceHistoryEventResourceCreated
          ∨ event.event_type = .kRmtResourceHistoryEventResourceDestroyed
          ∨ event.event_type = .kRmtResourceHistoryEventResourceBound) →
      ∀ event ∈ resourceHistoryEvents
          (tokens.foldl (processTokenIntoResourceHistory resource) out),
        event.event_type = .kRmtResourceHistoryEventResourceCreated
          ∨ event.event_type = .kRmtResourceHistoryEventResourceDestroyed
          ∨ event.event_type = .kRmtResourceHistoryEventResourceBound := by
  induction tokens with
  | nil => intro out _ hev; exact hev
  | cons token tokens ih =>
    intro out hbase hev
    rw [List.foldl_cons]
    obtain ⟨hbase2, hstep⟩ := processToken_unbound resource out token hunbound hbase
    apply ih _ hbase2
    rcases hstep with h | ⟨event_type, hkind, h⟩
    · rw [h]; exact hev
    · rw [h, resourceHistoryEvents_add]
      intro event hmem
      rcases List.mem_append.1 hmem with hmem | hmem
      · exact hev event hmem
      · rw [List.mem_singleton.1 hmem]
        exact hkind

/-- C14: for a resource that has no bound allocation,
`RmtDataSnapshotGenerateResourceHistory` returns OK with a history that holds
only resource created, resource bound and resource destroyed events, whatever
tokens the trace holds. -/
theorem resource_history_unbound_resource (snapshot : RmtDataSnapshot)
    (resource : RmtResource) (out : RmtResourceHistory)
    (hunbound : resource.bound_allocation = none) :
    ∃ (after : RmtDataSnapshot) (history : RmtResourceHistory),
      RmtDataSnapshotGenerateResourceHistory (some snapshot) (some resource) (some out)
          = (.RMT_OK, some after, some history)
        ∧ ∀ event ∈ resourceHistoryEvents history,
            event.event_type = .kRmtResourceHistoryEventResourceCreated
              ∨ event.event_type = .kRmtResourceHistoryEventResourceBound
              ∨ event.event_type = .kRmtResourceHistoryEventResourceDestroyed := by
  obtain ⟨after, history, hcall, -, hhist⟩ := generateResourceHistory_ok snapshot resource out
  refine ⟨after, history, hcall, ?_⟩
  intro event hmem
  rw [hhist] at hmem
  have h := processTokens_unbound resource
    (streamMergerMergedStream snapshot.data_set.stream_merger) hunbound
    { out with
      resource := some resource
      base_allocation := resource.bound_allocation
      event_count := 0 }
    hunbound
    (by
      intro event hmem
      rw [resourceHistoryEvents_reset] at hmem
      exact absurd hmem (List.not_mem_nil _))
    event hmem
  rcases h with h | h | h
  · exact Or.inl h
  · exact Or.inr (Or.inr h)
  · exact Or.inr (Or.inl h)

/-- The resource 7 has kept the range `[0x10000, 0x10100)` and has no bound
allocation; of the seven tokens around the allocation `[0x10000, 0x11000)` the
history holds the creation at time 1 and the destruction at time 10. -/
theorem resource_history_unbound_resource_witness :
    exampleOrphanedResource.bound_allocation = none
      ∧ (∃ (after : RmtDataSnapshot) (history : RmtResourceHistory),
          RmtDataSnapshotGenerateResourceHistory
              (some (exampleTraceSnapshot exampleOrphanStreams))
              (some exampleOrphanedResource) (some {})
            = (.RMT_OK, some after, some history)
          ∧ ∀ event ∈ resourceHistoryEvents history,
              event.event_type = .kRmtResourceHistoryEventResourceCreated
                ∨ event.event_type = .kRmtResourceHistoryEventResourceBound
                ∨ event.event_type = .kRmtResourceHistoryEventResourceDestroyed)
      ∧ (RmtDataSnapshotGenerateResourceHistory
          (some (exampleTraceSnapshot exampleOrphanStreams))
          (some exampleOrphanedResource) (some {})).2.2.map resourceHistoryEvents
        = some
            [{ event_type := .kRmtResourceHistoryEventResourceCreated
               thread_id := 1, timestamp := 1, physical := false },
             { event_type := .kRmtResourceHistoryEventResourceDestroyed
               thread_id := 1, timestamp := 10, physical := false }] :=
  ⟨rfl,
    resource_history_unbound_resource (exampleTraceSnapshot exampleOrphanStreams)
      exampleOrphanedResource {} rfl,
    by decide⟩

/-- C15 fails on the code: the resource at `[0x10100, 0x10200)` is bound to the
allocation at `0x10000`, and the token that frees the allocation at `0x10000`
adds no event to its history; a resource that starts at the base of the
allocation receives the event. -/
theorem resource_history_inner_resource_free :
    exampleInnerResource.bound_allocation = some 0x10000
      ∧ (RmtDataSnapshotGenerateResourceHistory
          (some (exampleTraceSnapshot exampleFreeStreams))
          (some exampleInnerResource) (some {})).2.2.map resourceHistoryEvents
        = some []
      ∧ (RmtDataSnapshotGenerateResourceHistory
          (some (exampleTraceSnapshot exampleFreeStreams))
          (some exampleBoundResource) (some {})).2.2.map resourceHistoryEvents
        = some
            [{ event_type := .kRmtResourceHistoryEventVirtualMemoryFree
               thread_id := 1, timestamp := 30, physical := false }] := by
  refine ⟨rfl, by decide, by decide⟩

/-- The test `overlaps` holds exactly when the two half-open ranges share an
address. -/
theorem overlaps_iff (startA endA startB endB : Nat) :
    overlaps startA endA startB endB = true
      ↔ ∃ x, startA ≤ x ∧ x < endA ∧ startB ≤ x ∧ x < endB := by
  unfold overlaps
  rw [decide_eq_true_iff]
  constructor
  · intro h
    refine ⟨max startA startB, ?_, ?_, ?_, ?_⟩ <;> omega
  · rintro ⟨x, h1, h2, h3, h4⟩
    omega

/-- C16: in the history replay, for a history that holds the resource, a page
table update token adds an event, flagged physical, if and only if the history
has a base allocation and the range of the token, from its virtual address over
its size in pages times the page size, shares an address with the range of the
resource, both half-open; otherwise the history is unchanged. In particular a
resource of size zero receives no event, and a token whose range ends exactly at
the start address of the resource adds none. -/
theorem page_table_update_event (resource : RmtResource) (out : RmtResourceHistory)
    (current_token : RmtToken)
    (htype : current_token.type = .kRmtTokenTypePageTableUpdate)
    (hres : out.resource = some resource) :
    (((out.base_allocation ≠ none
          ∧ ∃ x, current_token.page_table_update_token.virtual_address ≤ x
            ∧ x < current_token.page_table_update_token.virtual_address
                + RmtGetAllocationSizeInBytes
                    current_token.page_table_update_token.size_in_pages
                    current_token.page_table_update_token.page_size
            ∧ resource.address ≤ x
            ∧ x < resource.address + resource.size_in_bytes)
        ∧ ∃ event_type : RmtResourceHistoryEventType,
          resourceHistoryEvents
              (processTokenIntoResourceHistory resource out current_token)
            = resourceHistoryEvents out
                ++ [{ event_type := event_type
                      thread_id := current_token.common.thread_id
                      timestamp := current_token.common.timestamp, physical := true }])
      ∨ (¬ (out.base_allocation ≠ none
          ∧ ∃ x, current_token.page_table_update_token.virtual_address ≤ x
            ∧ x < current_token.page_table_update_token.virtual_address
                + RmtGetAllocationSizeInBytes
                    current_token.page_table_update_token.size_in_pages
                    current_token.page_table_update_token.page_size
            ∧ resource.address ≤ x
            ∧ x < resource.address + resource.size_in_bytes)
        ∧ processTokenIntoResourceHistory resource out current_token = out))
    ∧ (resource.size_in_bytes = 0 →
        processTokenIntoResourceHistory resource out current_token = out)
    ∧ (current_token.page_table_update_token.virtual_address
          + RmtGetAllocationSizeInBytes current_token.page_table_update_token.size_in_pages
              current_token.page_table_update_token.page_size = resource.address →
        processTokenIntoResourceHistory resource out current_token = out) := by
  have hov := overlaps_iff current_token.page_table_update_token.virtual_address
    (current_token.page_table_update_token.virtual_address
      + RmtGetAllocationSizeInBytes current_token.page_table_update_token.size_in_pages
          current_token.page_table_update_token.page_size)
    resource.address (resource.address + resource.size_in_bytes)
  have hstep : processTokenIntoResourceHistory resource out current_token
      = match out.base_allocation with
        | none => out
        | some _ =>
          if ¬ RmtAllocationsOverlap current_token.page_table_update_token.virtual_address
              (RmtGetAllocationSizeInBytes current_token.page_table_update_token.size_in_pages
                current_token.page_table_update_token.page_size)
              resource.address resource.size_in_bytes then
            out
          else if current_token.page_table_update_token.is_unmapping then
            RmtResourceHistoryAddEvent out .kRmtResourceHistoryEventPhysicalUnmap
              current_token.common.thread_id current_token.common.timestamp true
          else if current_token.page_table_update_token.physical_address = 0 then
            RmtResourceHistoryAddEvent out .kRmtResourceHistoryEventPhysicalMapToHost
              current_token.common.thread_id current_token.common.timestamp true
          else
            RmtResourceHistoryAddEvent out .kRmtResourceHistoryEventPhysicalMapToLocal
              current_token.common.thread_id current_token.common.timestamp true := by
    unfold processTokenIntoResourceHistory
    simp only [htype, hres]
  have hmain :
      ((out.base_allocation ≠ none
          ∧ ∃ x, current_token.page_table_update_token.virtual_address ≤ x
            ∧ x < current_token.page_table_update_token.virtual_address
                + RmtGetAllocationSizeInBytes
                    current_token.page_table_update_token.size_in_pages
                    current_token.page_table_update_token.page_size
            ∧ resource.address ≤ x
            ∧ x < resource.address + resource.size_in_bytes)
        ∧ ∃ event_type : RmtResourceHistoryEventType,
          resourceHistoryEvents
              (processTokenIntoResourceHistory resource out current_token)
            = resourceHistoryEvents out
                ++ [{ event_type := event_type
                      thread_id := current_token.common.thread_id
                      timestamp := current_token.common.timestamp, physical := true }])
      ∨ (¬ (out.base_allocation ≠ none
          ∧ ∃ x, current_token.page_table_update_token.virtual_address ≤ x
            ∧ x < current_token.page_table_update_token.virtual_address
                + RmtGetAllocationSizeInBytes
                    current_token.page_table_update_token.size_in_pages
                    current_token.page_table_update_token.page_size
            ∧ resource.address ≤ x
            ∧ x < resource.address + resource.size_in_bytes)
        ∧ processTokenIntoResourceHistory resource out current_token = out) := by
    rw [hstep]
    cases hbase : out.base_allocation with
    | none =>
      right
      exact ⟨fun h => h.1 rfl, rfl⟩
    | some base_address =>
      by_cases hover : RmtAllocationsOverlap
          current_token.page_table_update_token.virtual_address
          (RmtGetAllocationSizeInBytes current_token.page_table_update_token.size_in_pages
            current_token.page_table_update_token.page_size)
          resource.address resource.size_in_bytes = true
      · left
        refine ⟨⟨by simp, hov.1 hover⟩, ?_⟩
        simp only [hover, not_true_eq_false, if_false]
        split_ifs
        · exact ⟨_, resourceHistoryEvents_add _ _ _ _ _⟩
        · exact ⟨_, resourceHistoryEvents_add _ _ _ _ _⟩
        · exact ⟨_, resourceHistoryEvents_add _ _ _ _ _⟩
      · right
        refine ⟨fun h => hover (hov.2 h.2), ?_⟩
        simp [hover]
  refine ⟨hmain, ?_, ?_⟩
  · intro hzero
    rcases hmain with ⟨⟨_, x, _, _, h3, h4⟩, _⟩ | ⟨_, h⟩
    · rw [hzero, Nat.add_zero] at h4
      exact absurd (Nat.lt_of_lt_of_le h4 h3) (Nat.lt_irrefl _)
    · exact h
  · intro hend
    rcases hmain with ⟨⟨_, x, _, h2, h3, _⟩, _⟩ | ⟨_, h⟩
    · rw [hend] at h2
      exact absurd (Nat.lt_of_lt_of_le h2 h3) (Nat.lt_irrefl _)
    · exact h

/-- A page table update over the first page of the allocation at `0x10000`
adds a physical event to the history of the resource bound there. -/
theorem page_table_update_event_witness :
    (({ type := .kRmtTokenTypePageTableUpdate, common := { thread_id := 3, timestamp := 50 }
        page_table_update_token :=
          { virtual_address := 0x10000, physical_address := 0x5000, size_in_pages := 1
            page_size := .kRmtPageSize4Kb, is_unmapping := false } } : RmtToken).type
        = .kRmtTokenTypePageTableUpdate
      ∧ ({ resource := some exampleBoundResource, base_allocation := some 0x10000 }
          : RmtResourceHistory).resource = some exampleBoundResource)
    ∧ resourceHistoryEvents
        (processTokenIntoResourceHistory exampleBoundResource
          { resource := some exampleBoundResource, base_allocation := some 0x10000 }
          { type := .kRmtTokenTypePageTableUpdate, common := { thread_id := 3, timestamp := 50 }
            page_table_update_token :=
              { virtual_address := 0x10000, physical_address := 0x5000, size_in_pages := 1
                page_size := .kRmtPageSize4Kb, is_unmapping := false } })
      = [{ event_type := .kRmtResourceHistoryEventPhysicalMapToLocal
           thread_id := 3, timestamp := 50, physical := true }] := by
  refine ⟨⟨rfl, rfl⟩, ?_⟩
  rcases (page_table_update_event exampleBoundResource
      { resource := some exampleBoundResource, base_allocation := some 0x10000 }
      { type := .kRmtTokenTypePageTableUpdate, common := { thread_id := 3, timestamp := 50 }
        page_table_update_token :=
          { virtual_address := 0x10000, physical_address := 0x5000, size_in_pages := 1
            page_size := .kRmtPageSize4Kb, is_unmapping := false } }
      rfl rfl).1 with ⟨-, -, -⟩ | ⟨-, h⟩
  · decide
  · exact absurd h (by
      intro hc
      have := congrArg RmtResourceHistory.event_count hc
      revert this
      decide)

/-- The address after the last byte that the virtual allocate case computes is
the end of the range of the token, when that range is not the empty range at
address 0 and ends within the address space of 64 bits. -/
theorem last_byte_succ (virtual_address size_in_bytes : Nat)
    (hpos : 0 < virtual_address + size_in_bytes)
    (hend : virtual_address + size_in_bytes ≤ 2 ^ 64) :
    wrap64 (wrap64 (virtual_address + size_in_bytes) + (2 ^ 64 - 1)) + 1
      = virtual_address + size_in_bytes := by
  simp only [wrap64]
  omega

/-- C17 as stated fails: the virtual allocate token for `[0x10000, 0x11000)` and
the resource at `[0x10000, 0x10100)` share the address `0x10000`, the resource
has no bound allocation, and the token adds no event to its history. -/
theorem virtual_allocate_unbound_counterexample :
    ((0x10000 : Nat) ≤ 0x10000 ∧ (0x10000 : Nat) < 0x10000 + 0x1000
        ∧ exampleOrphanedResource.address ≤ 0x10000
        ∧ 0x10000 < exampleOrphanedResource.address + exampleOrphanedResource.size_in_bytes)
      ∧ exampleOrphanedResource.bound_allocation = none
      ∧ (RmtDataSnapshotGenerateResourceHistory
          (some (exampleTraceSnapshot exampleAllocateStreams))
          (some exampleOrphanedResource) (some {})).2.2.map resourceHistoryEvents
        = some [] := by
  refine ⟨by decide, rfl, by decide⟩

/-- C17, amended: in the history replay, a virtual allocate token whose range
`[virtual_address, virtual_address + size_in_bytes)` ends within the address
space of 64 bits, and is not the empty range at address 0, adds a virtual memory
allocated event if and only if the resource has a bound allocation and the
range of the token shares an address with the range of the resource, both
half-open; otherwise the history is unchanged. In particular such a token of
size zero adds none. -/
theorem virtual_allocate_event (resource : RmtResource) (out : RmtResourceHistory)
    (current_token : RmtToken)
    (htype : current_token.type = .kRmtTokenTypeVirtualAllocate)
    (hrange : 0 < current_token.virtual_allocate_token.virtual_address
          + current_token.virtual_allocate_token.size_in_bytes
      ∧ current_token.virtual_allocate_token.virtual_address
          + current_token.virtual_allocate_token.size_in_bytes ≤ 2 ^ 64) :
    (((resource.bound_allocation ≠ none
          ∧ ∃ x, current_token.virtual_allocate_token.virtual_address ≤ x
            ∧ x < current_token.virtual_allocate_token.virtual_address
                + current_token.virtual_allocate_token.size_in_bytes
            ∧ resource.address ≤ x
            ∧ x < resource.address + resource.size_in_bytes)
        ∧ resourceHistoryEvents
              (processTokenIntoResourceHistory resource out current_token)
            = resourceHistoryEvents out
                ++ [{ event_type := .kRmtResourceHistoryEventVirtualMemoryAllocated
                      thread_id := current_token.common.thread_id
                      timestamp := current_token.common.timestamp, physical := false }])
      ∨ (¬ (resource.bound_allocation ≠ none
          ∧ ∃ x, current_token.virtual_allocate_token.virtual_address ≤ x
            ∧ x < current_token.virtual_allocate_token.virtual_address
                + current_token.virtual_allocate_token.size_in_bytes
            ∧ resource.address ≤ x
            ∧ x < resource.address + resource.size_in_bytes)
        ∧ processTokenIntoResourceHistory resource out current_token = out))
    ∧ (current_token.virtual_allocate_token.size_in_bytes = 0 →
        processTokenIntoResourceHistory resource out current_token = out) := by
  have hov := overlaps_iff resource.address (resource.address + resource.size_in_bytes)
    current_token.virtual_allocate_token.virtual_address
    (current_token.virtual_allocate_token.virtual_address
      + current_token.virtual_allocate_token.size_in_bytes)
  have hlast := last_byte_succ current_token.virtual_allocate_token.virtual_address
    current_token.virtual_allocate_token.size_in_bytes hrange.1 hrange.2
  have hstep : processTokenIntoResourceHistory resource out current_token
      = if ¬ RmtResourceOverlapsVirtualAddressRange resource
            current_token.virtual_allocate_token.virtual_address
            (wrap64 (wrap64 (current_token.virtual_allocate_token.virtual_address
              + current_token.virtual_allocate_token.size_in_bytes) + (2 ^ 64 - 1))) then
          out
        else
          RmtResourceHistoryAddEvent out .kRmtResourceHistoryEventVirtualMemoryAllocated
            current_token.common.thread_id current_token.common.timestamp false := by
    unfold processTokenIntoResourceHistory
    simp only [htype]
  have hmain :
      ((resource.bound_allocation ≠ none
          ∧ ∃ x, current_token.virtual_allocate_token.virtual_address ≤ x
            ∧ x < current_token.virtual_allocate_token.virtual_address
                + current_token.virtual_allocate_token.size_in_bytes
            ∧ resource.address ≤ x
            ∧ x < resource.address + resource.size_in_bytes)
        ∧ resourceHistoryEvents
              (processTokenIntoResourceHistory resource out current_token)
            = resourceHistoryEvents out
                ++ [{ event_type := .kRmtResourceHistoryEventVirtualMemoryAllocated
                      thread_id := current_token.common.thread_id
                      timestamp := current_token.common.timestamp, physical := false }])
      ∨ (¬ (resource.bound_allocation ≠ none
          ∧ ∃ x, current_token.virtual_allocate_token.virtual_address ≤ x
            ∧ x < current_token.virtual_allocate_token.virtual_address
                + current_token.virtual_allocate_token.size_in_bytes
            ∧ resource.address ≤ x
            ∧ x < resource.address + resource.size_in_bytes)
        ∧ processTokenIntoResourceHistory resource out current_token = out) := by
    rw [hstep]
    cases hbound : resource.bound_allocation with
    | none =>
      right
      refine ⟨fun h => h.1 rfl, ?_⟩
      simp [RmtResourceOverlapsVirtualAddressRange, hbound]
    | some base_address =>
      have hhelper : RmtResourceOverlapsVirtualAddressRange resource
          current_token.virtual_allocate_token.virtual_address
          (wrap64 (wrap64 (current_token.virtual_allocate_token.virtual_address
            + current_token.virtual_allocate_token.size_in_bytes) + (2 ^ 64 - 1)))
          = overlaps resource.address (resource.address + resource.size_in_bytes)
              current_token.virtual_allocate_token.virtual_address
              (current_token.virtual_allocate_token.virtual_address
                + current_token.virtual_allocate_token.size_in_bytes) := by
        simp only [RmtResourceOverlapsVirtualAddressRange, hbound]
        rw [hlast]
      rw [hhelper]
      by_cases hover : overlaps resource.address (resource.address + resource.size_in_bytes)
          current_token.virtual_allocate_token.virtual_address
          (current_token.virtual_allocate_token.virtual_address
            + current_token.virtual_allocate_token.size_in_bytes) = true
      · left
        obtain ⟨x, h1, h2, h3, h4⟩ := hov.1 hover
        refine ⟨⟨by simp, x, h3, h4, h1, h2⟩, ?_⟩
        simp only [hover, not_true_eq_false, if_false]
        exact resourceHistoryEvents_add _ _ _ _ _
      · right
        refine ⟨?_, by simp [hover]⟩
        rintro ⟨-, x, h1, h2, h3, h4⟩
        exact hover (hov.2 ⟨x, h3, h4, h1, h2⟩)
  refine ⟨hmain, ?_⟩
  intro hzero
  rcases hmain with ⟨⟨_, x, h1, h2, _, _⟩, _⟩ | ⟨_, h⟩
  · rw [hzero, Nat.add_zero] at h2
    exact absurd (Nat.lt_of_lt_of_le h2 h1) (Nat.lt_irrefl _)
  · exact h

/-- The virtual allocate token for `[0x10000, 0x11000)` adds an event to the
history of the bound resource of one byte at `0x10FFF`, the last byte of the
allocation. -/
theorem virtual_allocate_event_witness :
    (({ type := .kRmtTokenTypeVirtualAllocate, common := { thread_id := 1, timestamp := 5 }
        virtual_allocate_token := { virtual_address := 0x10000, size_in_bytes := 0x1000 } }
          : RmtToken).type = .kRmtTokenTypeVirtualAllocate
      ∧ (0 < (0x10000 : Nat) + 0x1000 ∧ (0x10000 : Nat) + 0x1000 ≤ 2 ^ 64))
    ∧ resourceHistoryEvents
        (processTokenIntoResourceHistory exampleLastByteResource {}
          { type := .kRmtTokenTypeVirtualAllocate, common := { thread_id := 1, timestamp := 5 }
            virtual_allocate_token := { virtual_address := 0x10000, size_in_bytes := 0x1000 } })
      = [{ event_type := .kRmtResourceHistoryEventVirtualMemoryAllocated
           thread_id := 1, timestamp := 5, physical := false }] := by
  refine ⟨⟨rfl, by decide⟩, ?_⟩
  rcases (virtual_allocate_event exampleLastByteResource {}
      { type := .kRmtTokenTypeVirtualAllocate, common := { thread_id := 1, timestamp := 5 }
        virtual_allocate_token := { virtual_address := 0x10000, size_in_bytes := 0x1000 } }
      rfl (by decide)).1 with ⟨-, h⟩ | ⟨hneg, -⟩
  · rw [h]
    rfl
  · exact absurd ⟨by decide, 0x10FFF, by decide, by decide, by decide, by decide⟩ hneg

/-- C18: in the history replay, a resource create, resource destroy or resource
bind token adds exactly one event (created, destroyed, bound), with the thread
identifier and the timestamp of the token, when its resource identifier is the
identifier of the requested resource, and adds no event when the identifiers
differ. -/
theorem resource_token_event (resource : RmtResource) (out : RmtResourceHistory)
    (current_token : RmtToken) :
    resourceHistoryEvents
        (processTokenIntoResourceHistory resource out
          { current_token with type := .kRmtTokenTypeResourceCreate })
      = (if current_token.resource_create_token.resource_identifier = resource.identifier then
          resourceHistoryEvents out
            ++ [{ event_type := .kRmtResourceHistoryEventResourceCreated
                  thread_id := current_token.common.thread_id
                  timestamp := current_token.common.timestamp, physical := false }]
        else resourceHistoryEvents out)
    ∧ resourceHistoryEvents
        (processTokenIntoResourceHistory resource out
          { current_token with type := .kRmtTokenTypeResourceDestroy })
      = (if current_token.resource_destroy_token.resource_identifier = resource.identifier then
          resourceHistoryEvents out
            ++ [{ event_type := .kRmtResourceHistoryEventResourceDestroyed
                  thread_id := current_token.common.thread_id
                  timestamp := current_token.common.timestamp, physical := false }]
        else resourceHistoryEvents out)
    ∧ resourceHistoryEvents
        (processTokenIntoResourceHistory resource out
          { current_token with type := .kRmtTokenTypeResourceBind })
      = (if current_token.resource_bind_token.resource_identifier = resource.identifier then
          resourceHistoryEvents out
            ++ [{ event_type := .kRmtResourceHistoryEventResourceBound
                  thread_id := current_token.common.thread_id
                  timestamp := current_token.common.timestamp, physical := false }]
        else resourceHistoryEvents out) := by
  refine ⟨?_, ?_, ?_⟩
  · by_cases h : current_token.resource_create_token.resource_identifier = resource.identifier
    · simp [processTokenIntoResourceHistory, h, resourceHistoryEvents_add]
    · simp [processTokenIntoResourceHistory, h]
  · by_cases h : current_token.resource_destroy_token.resource_identifier = resource.identifier
    · simp [processTokenIntoResourceHistory, h, resourceHistoryEvents_add]
    · simp [processTokenIntoResourceHistory, h]
  · by_cases h : current_token.resource_bind_token.resource_identifier = resource.identifier
    · simp [processTokenIntoResourceHistory, h, resourceHistoryEvents_add]
    · simp [processTokenIntoResourceHistory, h]

/-- What the replay does with a CPU map token and with a residency token: both
are recorded exactly when the history has a base allocation whose base address
is the virtual address read through the `cpu_map_token` member of the token. -/
theorem cpu_map_and_residency_event (resource : RmtResource) (out : RmtResourceHistory)
    (current_token : RmtToken) :
    resourceHistoryEvents
        (processTokenIntoResourceHistory resource out
          { current_token with type := .kRmtTokenTypeCpuMap })
      = (if out.base_allocation = some current_token.cpu_map_token.virtual_address then
          resourceHistoryEvents out
            ++ [{ event_type :=
                    if current_token.cpu_map_token.is_unmap then
                      .kRmtResourceHistoryEventVirtualMemoryUnmapped
                    else .kRmtResourceHistoryEventVirtualMemoryMapped
                  thread_id := current_token.common.thread_id
                  timestamp := current_token.common.timestamp, physical := false }]
        else resourceHistoryEvents out)
    ∧ resourceHistoryEvents
        (processTokenIntoResourceHistory resource out
          { current_token with type := .kRmtTokenTypeResourceReference })
      = (if out.base_allocation = some current_token.cpu_map_token.virtual_address then
          resourceHistoryEvents out
            ++ [{ event_type :=
                    if current_token.resource_reference.residency_update_type
                        = .kRmtResidencyUpdateTypeAdd then
                      .kRmtResourceHistoryEventVirtualMemoryMakeResident
                    else .kRmtResourceHistoryEventVirtualMemoryEvict
                  thread_id := current_token.common.thread_id
                  timestamp := current_token.common.timestamp, physical := false }]
        else resourceHistoryEvents out) := by
  refine ⟨?_, ?_⟩
  · cases hbase : out.base_allocation with
    | none => simp [processTokenIntoResourceHistory, hbase]
    | some base_address =>
      by_cases h : current_token.cpu_map_token.virtual_address = base_address
      · have h2 : base_address = current_token.cpu_map_token.virtual_address := h.symm
        by_cases hu : current_token.cpu_map_token.is_unmap = true
        · simp [processTokenIntoResourceHistory, hbase, h, hu, resourceHistoryEvents_add]
        · simp [processTokenIntoResourceHistory, hbase, h, hu, resourceHistoryEvents_add]
      · have h2 : ¬ base_address = current_token.cpu_map_token.virtual_address :=
          fun e => h e.symm
        simp [processTokenIntoResourceHistory, hbase, h, h2]
  · cases hbase : out.base_allocation with
    | none => simp [processTokenIntoResourceHistory, hbase]
    | some base_address =>
      by_cases h : current_token.cpu_map_token.virtual_address = base_address
      · have h2 : base_address = current_token.cpu_map_token.virtual_address := h.symm
        by_cases hu : current_token.resource_reference.residency_update_type
            = .kRmtResidencyUpdateTypeAdd
        · simp [processTokenIntoResourceHistory, hbase, h, hu, resourceHistoryEvents_add]
        · simp [processTokenIntoResourceHistory, hbase, h, hu, resourceHistoryEvents_add]
      · have h2 : ¬ base_address = current_token.cpu_map_token.virtual_address :=
          fun e => h e.symm
        simp [processTokenIntoResourceHistory, hbase, h, h2]

/-- C19 fails on the code for the residency token: the resource is bound to the
allocation at `0x10000` and the residency token carries the virtual address
`0x10000` in its `resource_reference` member, yet it adds no event; the replay
compares the `cpu_map_token` member of the token with the base address. -/
theorem resource_history_residency_token :
    exampleBoundResource.bound_allocation = some 0x10000
      ∧ exampleResidencyStreams.map
          (fun stream => stream.map (fun token =>
            (token.type, token.resource_reference.virtual_address,
              token.resource_reference.residency_update_type)))
        = [[(.kRmtTokenTypeResourceReference, 0x10000, .kRmtResidencyUpdateTypeAdd)]]
      ∧ (RmtDataSnapshotGenerateResourceHistory
          (some (exampleTraceSnapshot exampleResidencyStreams))
          (some exampleBoundResource) (some {})).2.2.map resourceHistoryEvents
        = some [] := by
  refine ⟨rfl, by decide, by decide⟩

/-- C20: every event of a history built by
`RmtDataSnapshotGenerateResourceHistory` has its physical flag set if and only
if its kind is one of the page table kinds: physical unmap, physical map to
host, physical map to local. -/
theorem resource_history_physical_flag (snapshot : RmtDataSnapshot) (resource : RmtResource)
    (out : RmtResourceHistory) :
    ∃ (after : RmtDataSnapshot) (history : RmtResourceHistory),
      RmtDataSnapshotGenerateResourceHistory (some snapshot) (some resource) (some out)
          = (.RMT_OK, some after, some history)
        ∧ RmtStreamMergerIsEmpty after.data_set.stream_merger = true
        ∧ ∀ event ∈ resourceHistoryEvents history,
            (event.physical = true ↔
              (event.event_type = .kRmtResourceHistoryEventPhysicalUnmap
                ∨ event.event_type = .kRmtResourceHistoryEventPhysicalMapToHost
                ∨ event.event_type = .kRmtResourceHistoryEventPhysicalMapToLocal)) := by
  obtain ⟨after, history, hcall, hempty, hhist⟩ :=
    generateResourceHistory_ok snapshot resource out
  obtain ⟨recorded, added, -, hev, -, hphys⟩ :=
    processTokens_fold resource (streamMergerMergedStream snapshot.data_set.stream_merger)
      { out with
        resource := some resource
        base_allocation := resource.bound_allocation
        event_count := 0 }
  rw [← hhist, resourceHistoryEvents_reset, List.nil_append] at hev
  refine ⟨after, history, hcall, hempty, ?_⟩
  rw [hev]
  exact hphys

/-! ## Resource history: replay of the whole trace -/

/-- The events of a history stay in it, in place, when further tokens are
replayed. -/
theorem processTokens_fold_prefix (resource : RmtResource) (tokens : List RmtToken)
    (out : RmtResourceHistory) :
    ∃ added : List RmtResourceHistoryEvent,
      resourceHistoryEvents (tokens.foldl (processTokenIntoResourceHistory resource) out)
        = resourceHistoryEvents out ++ added := by
  obtain ⟨-, added, -, hev, -, -⟩ := processTokens_fold resource tokens out
  exact ⟨added, hev⟩

/-- A resource create token of the replayed list whose identifier is that of the
resource has its event in the resulting history. -/
theorem processTokens_fold_create (resource : RmtResource) (tokens : List RmtToken)
    (out : RmtResourceHistory) (token : RmtToken) (hmem : token ∈ tokens)
    (htype : token.type = .kRmtTokenTypeResourceCreate)
    (hid : token.resource_create_token.resource_identifier = resource.identifier) :
    ({ event_type := .kRmtResourceHistoryEventResourceCreated
       thread_id := token.common.thread_id
       timestamp := token.common.timestamp, physical := false } : RmtResourceHistoryEvent)
      ∈ resourceHistoryEvents (tokens.foldl (processTokenIntoResourceHistory resource) out) := by
  obtain ⟨before, after, rfl⟩ := List.append_of_mem hmem
  rw [List.foldl_append, List.foldl_cons]
  obtain ⟨added, hev⟩ := processTokens_fold_prefix resource after
    (processTokenIntoResourceHistory resource
      (before.foldl (processTokenIntoResourceHistory resource) out) token)
  rw [hev]
  apply List.mem_append_left
  have hstep : processTokenIntoResourceHistory resource
      (before.foldl (processTokenIntoResourceHistory resource) out) token
      = RmtResourceHistoryAddEvent
          (before.foldl (processTokenIntoResourceHistory resource) out)
          .kRmtResourceHistoryEventResourceCreated
          token.common.thread_id token.common.timestamp false := by
    unfold processTokenIntoResourceHistory
    simp only [htype, hid, ne_eq, not_true_eq_false, if_false]
  rw [hstep, resourceHistoryEvents_add]
  simp

/-- C21: `RmtDataSnapshotGenerateResourceHistory` replays every token of the
merged stream from its start until the merger is empty. The result of the call
is the same for every cutoff timestamp of the snapshot, and every resource create
token of the merged stream with the identifier of the resource has its event in
the history, whatever its timestamp. -/
theorem resource_history_whole_trace (snapshot : RmtDataSnapshot) (resource : RmtResource)
    (out : RmtResourceHistory) (cutoff : Nat) :
    ∃ (after : RmtDataSnapshot) (history : RmtResourceHistory),
      RmtDataSnapshotGenerateResourceHistory (some snapshot) (some resource) (some out)
          = (.RMT_OK, some after, some history)
        ∧ RmtStreamMergerIsEmpty after.data_set.stream_merger = true
        ∧ history
          = (streamMergerMergedStream snapshot.data_set.stream_merger).foldl
              (processTokenIntoResourceHistory resource)
              { out with
                resource := some resource
                base_allocation := resource.bound_allocation
                event_count := 0 }
        ∧ (RmtDataSnapshotGenerateResourceHistory
              (some { snapshot with timestamp := cutoff }) (some resource) (some out)).2.2
            = some history
        ∧ ∀ token ∈ streamMergerMergedStream snapshot.data_set.stream_merger,
            token.type = .kRmtTokenTypeResourceCreate →
            token.resource_create_token.resource_identifier = resource.identifier →
            ({ event_type := .kRmtResourceHistoryEventResourceCreated
               thread_id := token.common.thread_id
               timestamp := token.common.timestamp, physical := false }
              : RmtResourceHistoryEvent) ∈ resourceHistoryEvents history := by
  obtain ⟨after, history, hcall, hempty, hhist⟩ :=
    generateResourceHistory_ok snapshot resource out
  refine ⟨after, history, hcall, hempty, hhist, ?_, ?_⟩
  · have h2 := congrArg (fun result => result.2.2) hcall
    exact h2
  · intro token hmem htype hid
    rw [hhist]
    exact processTokens_fold_create resource _ _ token hmem htype hid

/-- The ordering scenario with a snapshot taken at time 12: the resource bind
token of time 20 is later than the snapshot and its event is in the history. -/
theorem resource_history_whole_trace_witness :
    (12 : Nat) < 20
      ∧ (RmtDataSnapshotGenerateResourceHistory
          (some { exampleTraceSnapshot exampleOrderingStreams with timestamp := 12 })
          (some exampleBoundResource) (some {})).2.2
        = (RmtDataSnapshotGenerateResourceHistory
            (some (exampleTraceSnapshot exampleOrderingStreams))
            (some exampleBoundResource) (some {})).2.2
      ∧ ((RmtDataSnapshotGenerateResourceHistory
          (some { exampleTraceSnapshot exampleOrderingStreams with timestamp := 12 })
          (some exampleBoundResource) (some {})).2.2.map resourceHistoryEvents).map
            (fun events => decide
              (({ event_type := .kRmtResourceHistoryEventResourceBound
                  thread_id := 1, timestamp := 20, physical := false }
                : RmtResourceHistoryEvent) ∈ events))
        = some true := by
  obtain ⟨after, history, hcall, -, -, hcut, -⟩ :=
    resource_history_whole_trace (exampleTraceSnapshot exampleOrderingStreams)
      exampleBoundResource {} 12
  refine ⟨by decide, ?_, by decide⟩
  rw [hcut, hcall]

/-- C22 as stated fails: for a resource whose identifier is unset (zero) the call
returns OK. -/
theorem resource_history_unset_identifier_counterexample :
    ({ identifier := 0 } : RmtResource).identifier = 0
      ∧ (RmtDataSnapshotGenerateResourceHistory (some (exampleTraceSnapshot exampleOrderingStreams))
          (some { identifier := 0 }) (some {})).1 = .RMT_OK := by
  refine ⟨rfl, by decide⟩

/-- C22, as the code has it: `RmtDataSnapshotGenerateResourceHistory` returns OK
for every snapshot, resource and output history that are not null, whatever the
identifier of the resource is. -/
theorem resource_history_returns_ok (snapshot : RmtDataSnapshot) (resource : RmtResource)
    (out : RmtResourceHistory) :
    (RmtDataSnapshotGenerateResourceHistory (some snapshot) (some resource) (some out)).1
      = .RMT_OK := by
  obtain ⟨after, history, hcall, -, -⟩ := generateResourceHistory_ok snapshot resource out
  rw [hcall]

/-- C23: when the snapshot, the resource or the output history is null,
`RmtDataSnapshotGenerateResourceHistory` returns the invalid pointer error and
leaves the snapshot, with the merger of its data set, and the output history as
they are. -/
theorem resource_history_null_argument (snapshot : Option RmtDataSnapshot)
    (resource : Option RmtResource) (out_resource_history : Option RmtResourceHistory)
    (hnull : snapshot = none ∨ resource = none ∨ out_resource_history = none) :
    RmtDataSnapshotGenerateResourceHistory snapshot resource out_resource_history
      = (.RMT_ERROR_INVALID_POINTER, snapshot, out_resource_history) := by
  cases snapshot with
  | none => rfl
  | some s =>
    cases resource with
    | none => rfl
    | some r =>
      cases out_resource_history with
      | none => rfl
      | some o => simp at hnull

/-- A call without resource leaves the merger, which stands in the middle of the
trace, and the history, which holds one event, as they are. -/
theorem resource_history_null_argument_witness :
    ((some { data_set := { stream_merger :=
              { streams := exampleOrderingStreams, remaining := [[], []] } } }
        : Option RmtDataSnapshot) = none
      ∨ (none : Option RmtResource) = none
      ∨ (some (RmtResourceHistoryAddEvent {} .kRmtResourceHistoryEventResourceCreated 1 10 false)
          : Option RmtResourceHistory) = none)
    ∧ RmtDataSnapshotGenerateResourceHistory
        (some { data_set := { stream_merger :=
              { streams := exampleOrderingStreams, remaining := [[], []] } } })
        none
        (some (RmtResourceHistoryAddEvent {} .kRmtResourceHistoryEventResourceCreated 1 10 false))
      = (.RMT_ERROR_INVALID_POINTER,
          some { data_set := { stream_merger :=
              { streams := exampleOrderingStreams, remaining := [[], []] } } },
          some (RmtResourceHistoryAddEvent {} .kRmtResourceHistoryEventResourceCreated 1 10
            false)) :=
  ⟨Or.inr (Or.inl rfl),
    resource_history_null_argument _ _ _ (Or.inr (Or.inl rfl))⟩

/-- C24: when the snapshot or the output structure is null,
`RmtDataSnapshotGetSegmentStatus` returns the invalid pointer error and leaves
the output structure as it is. -/
theorem segment_status_null_argument (api : RmtResourceApi)
    (snapshot : Option RmtDataSnapshot) (heap_type : RmtHeapType)
    (out_segment_status : Option RmtSegmentStatus)
    (hnull : snapshot = none ∨ out_segment_status = none) :
    RmtDataSnapshotGetSegmentStatus api snapshot heap_type out_segment_status
      = (.RMT_ERROR_INVALID_POINTER, out_segment_status) := by
  cases snapshot with
  | none => rfl
  | some s =>
    cases out_segment_status with
    | none => rfl
    | some o => simp at hnull

/-- A call without snapshot leaves an output structure that holds values as it
is. -/
theorem segment_status_null_argument_witness :
    ((none : Option RmtDataSnapshot) = none
      ∨ (some { flags := 5, total_physical_size := 1000 } : Option RmtSegmentStatus) = none)
    ∧ RmtDataSnapshotGetSegmentStatus exampleApi none kRmtHeapTypeLocal
        (some { flags := 5, total_physical_size := 1000 })
      = (.RMT_ERROR_INVALID_POINTER, some { flags := 5, total_physical_size := 1000 }) :=
  ⟨Or.inl rfl, segment_status_null_argument exampleApi none kRmtHeapTypeLocal _ (Or.inl rfl)⟩

/-! ## Resource history: page table updates and repeated calls -/

/-- C26: in the history replay, a page table update token that is recorded
yields a physical unmap event when its `is_unmapping` flag is set; otherwise it
yields a map to host event when its physical address is zero and a map to local
event when its physical address is not zero. -/
theorem page_table_update_kind (resource : RmtResource) (out : RmtResourceHistory)
    (current_token : RmtToken)
    (htype : current_token.type = .kRmtTokenTypePageTableUpdate)
    (hrecorded : processTokenIntoResourceHistory resource out current_token ≠ out) :
    resourceHistoryEvents (processTokenIntoResourceHistory resource out current_token)
      = resourceHistoryEvents out
          ++ [{ event_type :=
                  if current_token.page_table_update_token.is_unmapping then
                    .kRmtResourceHistoryEventPhysicalUnmap
                  else if current_token.page_table_update_token.physical_address = 0 then
                    .kRmtResourceHistoryEventPhysicalMapToHost
                  else
                    .kRmtResourceHistoryEventPhysicalMapToLocal
                thread_id := current_token.common.thread_id
                timestamp := current_token.common.timestamp, physical := true }] := by
  unfold processTokenIntoResourceHistory at hrecorded ⊢
  simp only [htype] at hrecorded ⊢
  cases hbase : out.base_allocation with
  | none => simp [hbase] at hrecorded
  | some base_address =>
    cases hres : out.resource with
    | none => simp [hbase, hres] at hrecorded
    | some history_resource =>
      simp only [hbase, hres] at hrecorded ⊢
      by_cases hover : RmtAllocationsOverlap
          current_token.page_table_update_token.virtual_address
          (RmtGetAllocationSizeInBytes current_token.page_table_update_token.size_in_pages
            current_token.page_table_update_token.page_size)
          history_resource.address history_resource.size_in_bytes = true
      · by_cases hun : current_token.page_table_update_token.is_unmapping = true
        · simp [hover, hun, resourceHistoryEvents_add]
        · by_cases hpa : current_token.page_table_update_token.physical_address = 0
          · simp [hover, hun, hpa, resourceHistoryEvents_add]
          · simp [hover, hun, hpa, resourceHistoryEvents_add]
      · simp [hover] at hrecorded

/-- Three page table updates over the resource at `0x10000`: an unmapping, a
mapping with physical address zero and a mapping with a physical address. -/
theorem page_table_update_kind_witness :
    (({ type := .kRmtTokenTypePageTableUpdate, common := { thread_id := 3, timestamp := 50 }
        page_table_update_token :=
          { virtual_address := 0x10000, physical_address := 0, size_in_pages := 1
            page_size := .kRmtPageSize4Kb, is_unmapping := false } } : RmtToken).type
        = .kRmtTokenTypePageTableUpdate
      ∧ processTokenIntoResourceHistory exampleBoundResource
          { resource := some exampleBoundResource, base_allocation := some 0x10000 }
          { type := .kRmtTokenTypePageTableUpdate, common := { thread_id := 3, timestamp := 50 }
            page_table_update_token :=
              { virtual_address := 0x10000, physical_address := 0, size_in_pages := 1
                page_size := .kRmtPageSize4Kb, is_unmapping := false } }
        ≠ { resource := some exampleBoundResource, base_allocation := some 0x10000 })
    ∧ resourceHistoryEvents
        (processTokenIntoResourceHistory exampleBoundResource
          { resource := some exampleBoundResource, base_allocation := some 0x10000 }
          { type := .kRmtTokenTypePageTableUpdate, common := { thread_id := 3, timestamp := 50 }
            page_table_update_token :=
              { virtual_address := 0x10000, physical_address := 0, size_in_pages := 1
                page_size := .kRmtPageSize4Kb, is_unmapping := false } })
      = [{ event_type := .kRmtResourceHistoryEventPhysicalMapToHost
           thread_id := 3, timestamp := 50, physical := true }] := by
  have hne : processTokenIntoResourceHistory exampleBoundResource
      { resource := some exampleBoundResource, base_allocation := some 0x10000 }
      { type := .kRmtTokenTypePageTableUpdate, common := { thread_id := 3, timestamp := 50 }
        page_table_update_token :=
          { virtual_address := 0x10000, physical_address := 0, size_in_pages := 1
            page_size := .kRmtPageSize4Kb, is_unmapping := false } }
      ≠ { resource := some exampleBoundResource, base_allocation := some 0x10000 } := by
    intro hc
    have := congrArg RmtResourceHistory.event_count hc
    revert this
    decide
  refine ⟨⟨rfl, hne⟩, ?_⟩
  rw [page_table_update_kind exampleBoundResource _ _ rfl hne]
  decide

/-- The page table scenario on the code: an unmapping, a mapping with physical
address zero and a mapping with a physical address give the events physical
unmap, map to host and map to local. -/
theorem page_table_update_scenario :
    (RmtDataSnapshotGenerateResourceHistory
        (some (exampleTraceSnapshot
          [[{ type := .kRmtTokenTypePageTableUpdate
              common := { thread_id := 3, timestamp := 50 }
              page_table_update_token :=
                { virtual_address := 0x10000, physical_address := 0x5000, size_in_pages := 1
                  page_size := .kRmtPageSize4Kb, is_unmapping := true } },
            { type := .kRmtTokenTypePageTableUpdate
              common := { thread_id := 3, timestamp := 60 }
              page_table_update_token :=
                { virtual_address := 0x10000, physical_address := 0, size_in_pages := 1
                  page_size := .kRmtPageSize4Kb, is_unmapping := false } },
            { type := .kRmtTokenTypePageTableUpdate
              common := { thread_id := 3, timestamp := 70 }
              page_table_update_token :=
                { virtual_address := 0x10000, physical_address := 0x5000, size_in_pages := 1
                  page_size := .kRmtPageSize4Kb, is_unmapping := false } }]]))
        (some exampleBoundResource) (some {})).2.2.map resourceHistoryEvents
      = some
          [{ event_type := .kRmtResourceHistoryEventPhysicalUnmap
             thread_id := 3, timestamp := 50, physical := true },
           { event_type := .kRmtResourceHistoryEventPhysicalMapToHost
             thread_id := 3, timestamp := 60, physical := true },
           { event_type := .kRmtResourceHistoryEventPhysicalMapToLocal
             thread_id := 3, timestamp := 70, physical := true }] := by
  decide

/-- The replay of one token decides on the resource, on the base allocation and
on the token, not on the events that the history holds: two histories with the
same resource, base allocation and events have the same after the token. -/
theorem processToken_agree (resource : RmtResource) (first second : RmtResourceHistory)
    (current_token : RmtToken)
    (hres : first.resource = second.resource)
    (hbase : first.base_allocation = second.base_allocation)
    (hev : resourceHistoryEvents first = resourceHistoryEvents second) :
    (processTokenIntoResourceHistory resource first current_token).resource
        = (processTokenIntoResourceHistory resource second current_token).resource
      ∧ (processTokenIntoResourceHistory resource first current_token).base_allocation
        = (processTokenIntoResourceHistory resource second current_token).base_allocation
      ∧ resourceHistoryEvents (processTokenIntoResourceHistory resource first current_token)
        = resourceHistoryEvents (processTokenIntoResourceHistory resource second current_token) := by
  unfold processTokenIntoResourceHistory
  dsimp only
  rw [hres, hbase]
  repeat' split
  all_goals first
    | exact ⟨hres, hbase, hev⟩
    | exact ⟨hres, hbase, by rw [resourceHistoryEvents_add, resourceHistoryEvents_add, hev]⟩

theorem processTokens_agree (resource : RmtResource) (tokens : List RmtToken) :
    ∀ (first second : RmtResourceHistory),
      first.resource = second.resource →
      first.base_allocation = second.base_allocation →
      resourceHistoryEvents first = resourceHistoryEvents second →
      resourceHistoryEvents (tokens.foldl (processTokenIntoResourceHistory resource) first)
        = resourceHistoryEvents (tokens.foldl (processTokenIntoResourceHistory resource) second) := by
  induction tokens with
  | nil => intro first second _ _ hev; exact hev
  | cons token tokens ih =>
    intro first second hres hbase hev
    rw [List.foldl_cons, List.foldl_cons]
    obtain ⟨h1, h2, h3⟩ := processToken_agree resource first second token hres hbase hev
    exact ih _ _ h1 h2 h3

/-- The call leaves the streams of the merger as they are. -/
theorem generateResourceHistory_streams (snapshot : RmtDataSnapshot) (resource : RmtResource)
    (out : RmtResourceHistory) (after : RmtDataSnapshot) (history : RmtResourceHistory)
    (hcall : RmtDataSnapshotGenerateResourceHistory (some snapshot) (some resource) (some out)
      = (.RMT_OK, some after, some history)) :
    after.data_set.stream_merger.streams = snapshot.data_set.stream_merger.streams := by
  have key : ∃ (a : RmtDataSnapshot) (h : RmtResourceHistory),
      RmtDataSnapshotGenerateResourceHistory (some snapshot) (some resource) (some out)
          = (.RMT_OK, some a, some h)
        ∧ a.data_set.stream_merger.streams = snapshot.data_set.stream_merger.streams :=
    ⟨_, _, rfl, (processTokensLoop_merger resource _ _ _ (Nat.le_refl _)).2⟩
  obtain ⟨a, h, h1, h2⟩ := key
  rw [hcall] at h1
  simp only [Prod.mk.injEq, Option.some.injEq, true_and] at h1
  obtain ⟨rfl, -⟩ := h1
  exact h2

/-- C27: `RmtDataSnapshotGenerateResourceHistory` builds the history afresh: for
the same trace and resource the sequence of events is the same whatever events
and event count the output history held before the call and wherever the cursor
of the merger stood, and a second call on the results of the first gives the same
sequence of events again. -/
theorem resource_history_deterministic (snapshot : RmtDataSnapshot) (resource : RmtResource)
    (out other_out : RmtResourceHistory) (cursor : List (List RmtToken)) :
    ∃ (after : RmtDataSnapshot) (history : RmtResourceHistory),
      RmtDataSnapshotGenerateResourceHistory (some snapshot) (some resource) (some out)
          = (.RMT_OK, some after, some history)
        ∧ (∃ (other_after : RmtDataSnapshot) (other_history : RmtResourceHistory),
            RmtDataSnapshotGenerateResourceHistory
                (some { snapshot with
                        data_set :=
                          { snapshot.data_set with
                            stream_merger :=
                              { snapshot.data_set.stream_merger with remaining := cursor } } })
                (some resource) (some other_out)
              = (.RMT_OK, some other_after, some other_history)
            ∧ resourceHistoryEvents other_history = resourceHistoryEvents history)
        ∧ ∃ (second_after : RmtDataSnapshot) (second_history : RmtResourceHistory),
            RmtDataSnapshotGenerateResourceHistory (some after) (some resource) (some history)
              = (.RMT_OK, some second_after, some second_history)
            ∧ resourceHistoryEvents second_history = resourceHistoryEvents history := by
  obtain ⟨after, history, hcall, hempty, hhist⟩ :=
    generateResourceHistory_ok snapshot resource out
  refine ⟨after, history, hcall, ?_, ?_⟩
  · obtain ⟨other_after, other_history, hcall2, -, hhist2⟩ :=
      generateResourceHistory_ok
        { snapshot with
          data_set :=
            { snapshot.data_set with
              stream_merger :=
                { snapshot.data_set.stream_merger with remaining := cursor } } }
        resource other_out
    refine ⟨other_after, other_history, hcall2, ?_⟩
    rw [hhist2, hhist]
    exact processTokens_agree resource _ _ _ rfl rfl rfl
  · obtain ⟨second_after, second_history, hcall2, -, hhist2⟩ :=
      generateResourceHistory_ok after resource history
    refine ⟨second_after, second_history, hcall2, ?_⟩
    have hstreams : after.data_set.stream_merger.streams
        = snapshot.data_set.stream_merger.streams :=
      generateResourceHistory_streams snapshot resource out after history hcall
    have hmerged : streamMergerMergedStream after.data_set.stream_merger
        = streamMergerMergedStream snapshot.data_set.stream_merger := by
      unfold streamMergerMergedStream RmtStreamMergerReset
      simp only [hstreams]
    rw [hhist2, hmerged]
    conv_rhs => rw [hhist]
    exact processTokens_agree resource _ _ _ rfl rfl rfl

/-! ## The stream merger: length and order of the merged stream -/

/-- With as much fuel as there are pending tokens, the merger delivers all of
them. -/
theorem streamMergerDelivered_length (fuel : Nat) :
    ∀ stream_merger : RmtStreamMerger, streamMergerPending stream_merger ≤ fuel →
      (streamMergerDelivered fuel stream_merger).length = streamMergerPending stream_merger := by
  induction fuel with
  | zero =>
    intro m h
    have h0 : streamMergerPending m = 0 := by omega
    simp [streamMergerDelivered, h0]
  | succ n ih =>
    intro m h
    unfold streamMergerDelivered
    by_cases he : RmtStreamMergerIsEmpty m = true
    · simp [he, (streamMergerIsEmpty_iff m).1 he]
    · have he2 : RmtStreamMergerIsEmpty m = false := by simpa using he
      obtain ⟨token, advanced, hadv, hpend, -⟩ := streamMergerAdvance_some m he2
      simp only [he, Bool.false_eq_true, if_false, hadv, List.length_cons]
      rw [ih advanced (by omega)]
      exact hpend

theorem streamMergerTake_none_empty (streams : List (List RmtToken))
    (h : streamMergerTake streams = none) : ∀ stream ∈ streams, stream = [] := by
  have hsum := (streamMergerTake_none streams).1 h
  intro stream hmem
  have hle : stream.length ≤ (streams.map (fun stream => stream.length)).sum :=
    List.single_le_sum (fun _ _ => Nat.zero_le _) _
      (List.mem_map.2 ⟨stream, hmem, rfl⟩)
  exact List.length_eq_zero.1 (by omega)

/-- The token that the merge step takes comes from one of the streams, and every
token left in the streams was in them before. -/
theorem streamMergerTake_mem (streams : List (List RmtToken)) :
    ∀ (token : RmtToken) (after : List (List RmtToken)),
      streamMergerTake streams = some (token, after) →
      (∃ stream ∈ streams, token ∈ stream)
        ∧ ∀ x, (∃ stream ∈ after, x ∈ stream) → ∃ stream ∈ streams, x ∈ stream := by
  induction streams with
  | nil => intro token after h; simp [streamMergerTake] at h
  | cons stream rest ih =>
    intro token after h
    cases stream with
    | nil =>
      cases hr : streamMergerTake rest with
      | none => simp [streamMergerTake, hr] at h
      | some p =>
        obtain ⟨candidate, rest_after⟩ := p
        simp only [streamMergerTake, hr, Option.some.injEq, Prod.mk.injEq] at h
        obtain ⟨rfl, rfl⟩ := h
        obtain ⟨⟨s, hs, hts⟩, hsub⟩ := ih candidate rest_after hr
        refine ⟨⟨s, List.mem_cons_of_mem _ hs, hts⟩, ?_⟩
        rintro x ⟨s2, hs2, hx⟩
        rcases List.mem_cons.1 hs2 with rfl | hs2
        · simp at hx
        · obtain ⟨s3, hs3, hx3⟩ := hsub x ⟨s2, hs2, hx⟩
          exact ⟨s3, List.mem_cons_of_mem _ hs3, hx3⟩
    | cons first tokens =>
      cases hr : streamMergerTake rest with
      | none =>
        simp only [streamMergerTake, hr, Option.some.injEq, Prod.mk.injEq] at h
        obtain ⟨rfl, rfl⟩ := h
        refine ⟨⟨_, List.mem_cons_self _ _, List.mem_cons_self _ _⟩, ?_⟩
        rintro x ⟨s2, hs2, hx⟩
        rcases List.mem_cons.1 hs2 with rfl | hs2
        · exact ⟨_, List.mem_cons_self _ _, List.mem_cons_of_mem _ hx⟩
        · exact ⟨s2, List.mem_cons_of_mem _ hs2, hx⟩
      | some p =>
        obtain ⟨candidate, rest_after⟩ := p
        simp only [streamMergerTake, hr] at h
        obtain ⟨⟨s, hs, hts⟩, hsub⟩ := ih candidate rest_after hr
        split_ifs at h
        · simp only [Option.some.injEq, Prod.mk.injEq] at h
          obtain ⟨rfl, rfl⟩ := h
          refine ⟨⟨_, List.mem_cons_self _ _, List.mem_cons_self _ _⟩, ?_⟩
          rintro x ⟨s2, hs2, hx⟩
          rcases List.mem_cons.1 hs2 with rfl | hs2
          · exact ⟨_, List.mem_cons_self _ _, List.mem_cons_of_mem _ hx⟩
          · exact ⟨s2, List.mem_cons_of_mem _ hs2, hx⟩
        · simp only [Option.some.injEq, Prod.mk.injEq] at h
          obtain ⟨rfl, rfl⟩ := h
          refine ⟨⟨s, List.mem_cons_of_mem _ hs, hts⟩, ?_⟩
          rintro x ⟨s2, hs2, hx⟩
          rcases List.mem_cons.1 hs2 with rfl | hs2
          · exact ⟨_, List.mem_cons_self _ _, hx⟩
          · obtain ⟨s3, hs3, hx3⟩ := hsub x ⟨s2, hs2, hx⟩
            exact ⟨s3, List.mem_cons_of_mem _ hs3, hx3⟩

/-- When every stream is in order of time, the token that the merge step takes is
not later than any token of the streams, and the streams stay in order. -/
theorem streamMergerTake_least (streams : List (List RmtToken)) :
    ∀ (token : RmtToken) (after : List (List RmtToken)),
      (∀ stream ∈ streams, stream.Pairwise
        (fun first second => first.common.timestamp ≤ second.common.timestamp)) →
      streamMergerTake streams = some (token, after) →
      (∀ stream ∈ after, stream.Pairwise
          (fun first second => first.common.timestamp ≤ second.common.timestamp))
        ∧ ∀ x, (∃ stream ∈ streams, x ∈ stream) →
            token.common.timestamp ≤ x.common.timestamp := by
  induction streams with
  | nil => intro token after _ h; simp [streamMergerTake] at h
  | cons stream rest ih =>
    intro token after hsorted h
    have hrest : ∀ s ∈ rest, s.Pairwise
        (fun first second => first.common.timestamp ≤ second.common.timestamp) :=
      fun s hs => hsorted s (List.mem_cons_of_mem _ hs)
    have hhead := hsorted stream (List.mem_cons_self _ _)
    cases stream with
    | nil =>
      cases hr : streamMergerTake rest with
      | none => simp [streamMergerTake, hr] at h
      | some p =>
        obtain ⟨candidate, rest_after⟩ := p
        simp only [streamMergerTake, hr, Option.some.injEq, Prod.mk.injEq] at h
        obtain ⟨rfl, rfl⟩ := h
        obtain ⟨hs1, hle⟩ := ih candidate rest_after hrest hr
        refine ⟨?_, ?_⟩
        · intro s hs
          rcases List.mem_cons.1 hs with rfl | hs
          · exact List.Pairwise.nil
          · exact hs1 s hs
        · rintro x ⟨s2, hs2, hx⟩
          rcases List.mem_cons.1 hs2 with rfl | hs2
          · simp at hx
          · exact hle x ⟨s2, hs2, hx⟩
    | cons first tokens =>
      have hfirst : ∀ x ∈ tokens, first.common.timestamp ≤ x.common.timestamp :=
        (List.pairwise_cons.1 hhead).1
      have htail := (List.pairwise_cons.1 hhead).2
      cases hr : streamMergerTake rest with
      | none =>
        simp only [streamMergerTake, hr, Option.some.injEq, Prod.mk.injEq] at h
        obtain ⟨rfl, rfl⟩ := h
        have hempty := streamMergerTake_none_empty rest hr
        refine ⟨?_, ?_⟩
        · intro s hs
          rcases List.mem_cons.1 hs with rfl | hs
          · exact htail
          · exact hrest s hs
        · rintro x ⟨s2, hs2, hx⟩
          rcases List.mem_cons.1 hs2 with rfl | hs2
          · rcases List.mem_cons.1 hx with rfl | hx
            · exact Nat.le_refl _
            · exact hfirst x hx
          · rw [hempty s2 hs2] at hx
            simp at hx
      | some p =>
        obtain ⟨candidate, rest_after⟩ := p
        simp only [streamMergerTake, hr] at h
        obtain ⟨hs1, hle⟩ := ih candidate rest_after hrest hr
        split_ifs at h with hcmp
        · simp only [Option.some.injEq, Prod.mk.injEq] at h
          obtain ⟨rfl, rfl⟩ := h
          refine ⟨?_, ?_⟩
          · intro s hs
            rcases List.mem_cons.1 hs with rfl | hs
            · exact htail
            · exact hrest s hs
          · rintro x ⟨s2, hs2, hx⟩
            rcases List.mem_cons.1 hs2 with rfl | hs2
            · rcases List.mem_cons.1 hx with rfl | hx
              · exact Nat.le_refl _
              · exact hfirst x hx
            · exact Nat.le_trans hcmp (hle x ⟨s2, hs2, hx⟩)
        · simp only [Option.some.injEq, Prod.mk.injEq] at h
          obtain ⟨rfl, rfl⟩ := h
          have hlt : candidate.common.timestamp ≤ first.common.timestamp := by omega
          refine ⟨?_, ?_⟩
          · intro s hs
            rcases List.mem_cons.1 hs with rfl | hs
            · exact hhead
            · exact hs1 s hs
          · rintro x ⟨s2, hs2, hx⟩
            rcases List.mem_cons.1 hs2 with rfl | hs2
            · rcases List.mem_cons.1 hx with rfl | hx
              · exact hlt
              · exact Nat.le_trans hlt (hfirst x hx)
            · exact hle x ⟨s2, hs2, hx⟩

/-- When every stream is in order of time, the tokens that the merger delivers
are in order of time, and each of them comes from one of the streams. -/
theorem streamMergerDelivered_sorted (fuel : Nat) :
    ∀ stream_merger : RmtStreamMerger,
      (∀ stream ∈ stream_merger.remaining, stream.Pairwise
        (fun first second => first.common.timestamp ≤ second.common.timestamp)) →
      (streamMergerDelivered fuel stream_merger).Pairwise
          (fun first second => first.common.timestamp ≤ second.common.timestamp)
        ∧ ∀ x ∈ streamMergerDelivered fuel stream_merger,
            ∃ stream ∈ stream_merger.remaining, x ∈ stream := by
  induction fuel with
  | zero => intro m _; simp [streamMergerDelivered]
  | succ n ih =>
    intro m hsorted
    unfold streamMergerDelivered
    by_cases he : RmtStreamMergerIsEmpty m = true
    · simp [he]
    · simp only [he, Bool.false_eq_true, if_false]
      unfold RmtStreamMergerAdvance
      cases ht : streamMergerTake m.remaining with
      | none => simp
      | some p =>
        obtain ⟨token, after⟩ := p
        obtain ⟨hafter, hleast⟩ := streamMergerTake_least _ token after hsorted ht
        obtain ⟨htoken, hsub⟩ := streamMergerTake_mem _ token after ht
        obtain ⟨hpw, hmem⟩ := ih { m with remaining := after } hafter
        refine ⟨List.pairwise_cons.2 ⟨?_, hpw⟩, ?_⟩
        · intro x hx
          exact hleast x (hsub x (hmem x hx))
        · intro x hx
          rcases List.mem_cons.1 hx with rfl | hx
          · exact htoken
          · exact hsub x (hmem x hx)

/-- C25: for every set of token streams, the sequence that the stream merger
delivers from a reset until it is empty has as many tokens as the streams have
together; and when each stream is in non-decreasing order of time, as a token
stream is, the timestamps of the sequence are non-decreasing. -/
theorem stream_merger_drain (stream_merger : RmtStreamMerger) :
    (streamMergerMergedStream stream_merger).length
        = (stream_merger.streams.map (fun stream => stream.length)).sum
      ∧ ((∀ stream ∈ stream_merger.streams, stream.Pairwise
            (fun first second => first.common.timestamp ≤ second.common.timestamp)) →
          (streamMergerMergedStream stream_merger).Pairwise
            (fun first second => first.common.timestamp ≤ second.common.timestamp)) := by
  refine ⟨?_, ?_⟩
  · unfold streamMergerMergedStream
    rw [streamMergerDelivered_length _ _ (Nat.le_refl _)]
    rfl
  · intro hsorted
    exact (streamMergerDelivered_sorted _ (RmtStreamMergerReset stream_merger) hsorted).1

/-- The merge of the streams with the timestamps 10, 20, 30 and 15, 20 has five
tokens in order of time. -/
theorem stream_merger_drain_witness :
    (∀ stream ∈ ({ streams := exampleMergeStreams } : RmtStreamMerger).streams,
        stream.Pairwise
          (fun first second => first.common.timestamp ≤ second.common.timestamp))
      ∧ (streamMergerMergedStream { streams := exampleMergeStreams }).length = 5
      ∧ (streamMergerMergedStream { streams := exampleMergeStreams }).Pairwise
          (fun first second => first.common.timestamp ≤ second.common.timestamp)
      ∧ (streamMergerMergedStream { streams := exampleMergeStreams }).map
          (fun token => (token.common.thread_id, token.common.timestamp))
        = [(1, 10), (2, 15), (1, 20), (2, 20), (1, 30)] := by
  have hsorted : ∀ stream ∈ ({ streams := exampleMergeStreams } : RmtStreamMerger).streams,
      stream.Pairwise
        (fun first second => first.common.timestamp ≤ second.common.timestamp) := by
    decide
  have h := stream_merger_drain { streams := exampleMergeStreams }
  exact ⟨hsorted, h.1.trans (by decide), h.2 hsorted, by decide⟩

/-! ## `SnapshotDeltaModel::GetHeapDelta`: the two counters -/

/-- The two counters of `delta_data` after the loop over the allocations. -/
theorem heapDelta_fold_counts (api : RmtVirtualAllocationApi) (snapshot : RmtDataSnapshot)
    (heap_type : RmtHeapType) (l : List RmtVirtualAllocation) :
    ∀ state : Nat × HeapDeltaData,
      (l.foldl (heapDeltaAllocationStep api snapshot heap_type) state).2.allocation_count
          = state.2.allocation_count
            + ((l.filter (fun a => a.heap_preferences 0 = heap_type)).length : Nat)
        ∧ (l.foldl (heapDeltaAllocationStep api snapshot heap_type) state).2.resource_count
          = state.2.resource_count
            + (((l.filter (fun a => a.heap_preferences 0 = heap_type)).map
                (fun a => a.resources.length)).sum : Nat) := by
  induction l with
  | nil => intro state; simp
  | cons a l ih =>
    intro state
    rw [List.foldl_cons]
    obtain ⟨h1, h2⟩ := ih (heapDeltaAllocationStep api snapshot heap_type state a)
    rw [h1, h2]
    by_cases hpref : a.heap_preferences 0 = heap_type
    · simp only [heapDeltaAllocationStep, if_pos hpref, List.filter_cons, hpref, decide_True,
        if_true, List.length_cons, List.map_cons, List.sum_cons]
      constructor <;> push_cast <;> ring
    · simp [heapDeltaAllocationStep, List.filter_cons, hpref]

/-- C28: for a non-null snapshot of a valid data set and a heap type,
`SnapshotDeltaModel::GetHeapDelta` returns true, sets `allocation_count` to the
number of allocations whose `heap_preferences[0]` is the heap type and
`resource_count` to the sum of the resource counts of these allocations, and
sets `total_available_size` and `free_space` to 0. -/
theorem heap_delta_counts (api : RmtVirtualAllocationApi) (snapshot : RmtDataSnapshot)
    (heap_type : RmtHeapType) (delta_data : HeapDeltaData) :
    ∃ out : HeapDeltaData,
      GetHeapDelta api true (some snapshot) heap_type delta_data = (true, out)
        ∧ out.allocation_count
          = ((snapshot.virtual_allocation_list.allocation_details.filter
              (fun a => a.heap_preferences 0 = heap_type)).length : Nat)
        ∧ out.resource_count
          = (((snapshot.virtual_allocation_list.allocation_details.filter
              (fun a => a.heap_preferences 0 = heap_type)).map
                (fun a => a.resources.length)).sum : Nat)
        ∧ out.total_available_size = 0
        ∧ out.free_space = 0 := by
  refine ⟨_, rfl, ?_, ?_, rfl, rfl⟩
  · have h := (heapDelta_fold_counts api snapshot heap_type
      snapshot.virtual_allocation_list.allocation_details (0, {})).1
    exact h.trans (by simp)
  · have h := (heapDelta_fold_counts api snapshot heap_type
      snapshot.virtual_allocation_list.allocation_details (0, {})).2
    exact h.trans (by simp)

/-- The scenario of two local allocations and one system allocation: the heap
delta of the local heap counts two allocations and one resource, the heap delta
of the system heap counts one allocation and no resource, whatever `delta_data`
held before. -/
theorem heap_delta_scenario :
    (GetHeapDelta exampleAllocationApi true (some exampleSnapshot) kRmtHeapTypeLocal
        { allocation_count := 9, free_space := 5 }).2
        = { allocation_count := 2, resource_count := 1, total_allocated_and_unbound := 12288 }
      ∧ (GetHeapDelta exampleAllocationApi true (some exampleSnapshot) kRmtHeapTypeSystem
        { allocation_count := 9, free_space := 5 }).2
        = { allocation_count := 1, resource_count := 0, total_allocated_and_unbound := 4096 } := by
  decide

/-! ## Segment status: the order of the allocation sizes -/

/-- The four allocation size fields of the segment status in closed form. -/
theorem segment_status_allocation_sizes (api : RmtResourceApi)
    (snapshot : RmtDataSnapshot) (heap_type : RmtHeapType) (out : RmtSegmentStatus) :
    ∃ st : RmtSegmentStatus,
      RmtDataSnapshotGetSegmentStatus api (some snapshot) heap_type (some out)
          = (.RMT_OK, some st)
        ∧ st.total_virtual_memory_requested
          = wrap64 (((snapshot.virtual_allocation_list.allocation_details.filter
              (fun a => a.heap_preferences 0 = heap_type)).map
                (fun a => a.size_in_4kb_page * 4096)).sum)
        ∧ st.min_allocation_size
          = (((snapshot.virtual_allocation_list.allocation_details.filter
              (fun a => a.heap_preferences 0 = heap_type)).map
                (fun a => RmtGetAllocationSizeInBytes a.size_in_4kb_page
                  .kRmtPageSize4Kb)).min?).getD 0
        ∧ st.max_allocation_size
          = (((snapshot.virtual_allocation_list.allocation_details.filter
              (fun a => a.heap_preferences 0 = heap_type)).map
                (fun a => RmtGetAllocationSizeInBytes a.size_in_4kb_page
                  .kRmtPageSize4Kb)).max?).getD 0
        ∧ st.mean_allocation_size
          = if 0 < (snapshot.virtual_allocation_list.allocation_details.filter
                (fun a => a.heap_preferences 0 = heap_type)).length then
              st.total_virtual_memory_requested
                / (snapshot.virtual_allocation_list.allocation_details.filter
                    (fun a => a.heap_preferences 0 = heap_type)).length
            else 0 := by
  refine ⟨_, rfl, ?_, ?_, ?_, ?_⟩
  · have h := allocation_fold_total api snapshot heap_type
      snapshot.virtual_allocation_list.allocation_details
    simp only [Nat.zero_add] at h ⊢
    exact (h _ 0 rfl).trans (by simp)
  · have h := (allocation_fold_max_min api snapshot heap_type
      snapshot.virtual_allocation_list.allocation_details
      { max_virtual_allocation_size := 0
        min_virtual_allocation_size := UINT64_MAX
        total_virtual_memory_requested := 0
        allocation_count := 0
        out_segment_status :=
          { out with
            heap_type := heap_type
            flags := segmentStatusSetFlags heap_type out.flags
            total_physical_size := (snapshot.data_set.segment_info heap_type).size
            total_bound_virtual_memory := 0
            physical_bytes_per_resource_usage :=
              segmentStatusClearUsage api.kRmtResourceUsageTypeCount
                out.physical_bytes_per_resource_usage } }).2
    have hs := foldl_min_sentinel
      ((snapshot.virtual_allocation_list.allocation_details.filter
        (fun a => a.heap_preferences 0 = heap_type)).map
          (fun a => RmtGetAllocationSizeInBytes a.size_in_4kb_page .kRmtPageSize4Kb))
      (by
        intro x hx
        obtain ⟨a, -, rfl⟩ := List.mem_map.1 hx
        exact allocation_size_lt_max _)
    rw [← h] at hs
    exact hs
  · have h := (allocation_fold_max_min api snapshot heap_type
      snapshot.virtual_allocation_list.allocation_details
      { max_virtual_allocation_size := 0
        min_virtual_allocation_size := UINT64_MAX
        total_virtual_memory_requested := 0
        allocation_count := 0
        out_segment_status :=
          { out with
            heap_type := heap_type
            flags := segmentStatusSetFlags heap_type out.flags
            total_physical_size := (snapshot.data_set.segment_info heap_type).size
            total_bound_virtual_memory := 0
            physical_bytes_per_resource_usage :=
              segmentStatusClearUsage api.kRmtResourceUsageTypeCount
                out.physical_bytes_per_resource_usage } }).1
    exact h.trans (foldl_max_zero _)
  · have h := allocation_fold_count api snapshot heap_type
      snapshot.virtual_allocation_list.allocation_details
      { max_virtual_allocation_size := 0
        min_virtual_allocation_size := UINT64_MAX
        total_virtual_memory_requested := 0
        allocation_count := 0
        out_segment_status :=
          { out with
            heap_type := heap_type
            flags := segmentStatusSetFlags heap_type out.flags
            total_physical_size := (snapshot.data_set.segment_info heap_type).size
            total_bound_virtual_memory := 0
            physical_bytes_per_resource_usage :=
              segmentStatusClearUsage api.kRmtResourceUsageTypeCount
                out.physical_bytes_per_resource_usage } }
    simp only [Nat.zero_add] at h
    simp only [gt_iff_lt, h]

/-- The smallest element of a list of numbers is at most their mean by integer
division, the mean at most the largest element, and the largest element at most
the sum. -/
theorem list_min_mean_max_sum (sizes : List Nat) (hlen : 0 < sizes.length) :
    sizes.min?.getD 0 ≤ sizes.sum / sizes.length
      ∧ sizes.sum / sizes.length ≤ sizes.max?.getD 0
      ∧ sizes.max?.getD 0 ≤ sizes.sum := by
  cases hmin : sizes.min? with
  | none =>
    rw [List.min?_eq_none_iff] at hmin
    simp [hmin] at hlen
  | some m =>
    cases hmax : sizes.max? with
    | none =>
      rw [List.max?_eq_none_iff] at hmax
      simp [hmax] at hlen
    | some M =>
      obtain ⟨-, hm⟩ := List.min?_eq_some_iff'.1 hmin
      obtain ⟨hMmem, hM⟩ := List.max?_eq_some_iff'.1 hmax
      simp only [Option.getD_some]
      refine ⟨?_, ?_, ?_⟩
      · rw [Nat.le_div_iff_mul_le hlen]
        have h := List.card_nsmul_le_sum sizes m hm
        simpa [Nat.mul_comm] using h
      · apply Nat.div_le_of_le_mul
        have h := List.sum_le_card_nsmul sizes M hM
        simpa using h
      · exact List.single_le_sum (fun _ _ => Nat.zero_le _) _ hMmem

/-- C29: for every snapshot and heap type with at least one allocation whose
primary heap is the heap type, and provided the sum of the sizes of these
allocations does not overflow 64 bits, the segment status that
`RmtDataSnapshotGetSegmentStatus` computes has `min_allocation_size` at most
`mean_allocation_size`, that at most `max_allocation_size`, and that at most
`total_virtual_memory_requested`. -/
theorem segment_status_size_order (api : RmtResourceApi)
    (snapshot : RmtDataSnapshot) (heap_type : RmtHeapType) (out : RmtSegmentStatus)
    (hsome : 0 < (snapshot.virtual_allocation_list.allocation_details.filter
        (fun a => a.heap_preferences 0 = heap_type)).length)
    (hsum : ((snapshot.virtual_allocation_list.allocation_details.filter
        (fun a => a.heap_preferences 0 = heap_type)).map
          (fun a => a.size_in_4kb_page * 4096)).sum < 2 ^ 64) :
    ∃ st : RmtSegmentStatus,
      RmtDataSnapshotGetSegmentStatus api (some snapshot) heap_type (some out)
          = (.RMT_OK, some st)
        ∧ st.min_allocation_size ≤ st.mean_allocation_size
        ∧ st.mean_allocation_size ≤ st.max_allocation_size
        ∧ st.max_allocation_size ≤ st.total_virtual_memory_requested := by
  obtain ⟨st, hcall, htotal, hmin, hmax, hmean⟩ :=
    segment_status_allocation_sizes api snapshot heap_type out
  refine ⟨st, hcall, ?_⟩
  have hsizes : (snapshot.virtual_allocation_list.allocation_details.filter
        (fun a => a.heap_preferences 0 = heap_type)).map
          (fun a => RmtGetAllocationSizeInBytes a.size_in_4kb_page .kRmtPageSize4Kb)
      = (snapshot.virtual_allocation_list.allocation_details.filter
        (fun a => a.heap_preferences 0 = heap_type)).map
          (fun a => a.size_in_4kb_page * 4096) := by
    apply List.map_congr_left
    intro a ha
    have hle : a.size_in_4kb_page * 4096
        ≤ ((snapshot.virtual_allocation_list.allocation_details.filter
            (fun a => a.heap_preferences 0 = heap_type)).map
              (fun a => a.size_in_4kb_page * 4096)).sum :=
      List.single_le_sum (fun _ _ => Nat.zero_le _) _ (List.mem_map.2 ⟨a, ha, rfl⟩)
    simp only [RmtGetAllocationSizeInBytes, RmtGetPageSize, wrap64]
    exact Nat.mod_eq_of_lt (Nat.lt_of_le_of_lt hle hsum)
  rw [hsizes] at hmin hmax
  have htotal2 : st.total_virtual_memory_requested
      = ((snapshot.virtual_allocation_list.allocation_details.filter
          (fun a => a.heap_preferences 0 = heap_type)).map
            (fun a => a.size_in_4kb_page * 4096)).sum :=
    htotal.trans (Nat.mod_eq_of_lt hsum)
  rw [if_pos hsome, htotal2] at hmean
  have hlen : 0 < ((snapshot.virtual_allocation_list.allocation_details.filter
      (fun a => a.heap_preferences 0 = heap_type)).map
        (fun a => a.size_in_4kb_page * 4096)).length := by
    rw [List.length_map]; exact hsome
  have h := list_min_mean_max_sum _ hlen
  rw [List.length_map] at h
  rw [hmin, hmax, hmean, htotal2]
  exact h

/-- The scenario of two local allocations of 4096 and 8192 bytes: the minimum
4096, the mean 6144, the maximum 8192 and the total 12288 are in order. -/
theorem segment_status_size_order_witness :
    0 < (exampleSnapshot.virtual_allocation_list.allocation_details.filter
        (fun a => a.heap_preferences 0 = kRmtHeapTypeLocal)).length
      ∧ ((exampleSnapshot.virtual_allocation_list.allocation_details.filter
        (fun a => a.heap_preferences 0 = kRmtHeapTypeLocal)).map
          (fun a => a.size_in_4kb_page * 4096)).sum < 2 ^ 64
      ∧ ∃ st : RmtSegmentStatus,
          RmtDataSnapshotGetSegmentStatus exampleApi (some exampleSnapshot) kRmtHeapTypeLocal
              (some {}) = (.RMT_OK, some st)
            ∧ st.min_allocation_size ≤ st.mean_allocation_size
            ∧ st.mean_allocation_size ≤ st.max_allocation_size
            ∧ st.max_allocation_size ≤ st.total_virtual_memory_requested :=
  ⟨by decide, by decide,
    segment_status_size_order exampleApi exampleSnapshot kRmtHeapTypeLocal {}
      (by decide) (by decide)⟩

/-! ## The largest and the smallest resource size -/

/-- The running minimum from `UINT64_MAX` over values of 64 bits is the smallest
element, or `UINT64_MAX` for no element. -/
theorem foldl_min_max64 (sizes : List Nat) (hle : ∀ x ∈ sizes, x ≤ UINT64_MAX) :
    sizes.foldl min UINT64_MAX = sizes.min?.getD UINT64_MAX := by
  cases sizes with
  | nil => rfl
  | cons x xs =>
    have hx : x ≤ UINT64_MAX := hle x (List.mem_cons_self x xs)
    have hmin : min UINT64_MAX x = x := Nat.min_eq_right hx
    have hsome : (x :: xs).min? = some (xs.foldl min x) := rfl
    simp only [List.foldl_cons, hmin, hsome, Option.getD_some]

/-- C30, counterexample: the resource list holds one resource, whose size is
`UINT64_MAX`; the minimum of the sizes is `UINT64_MAX`, and
`RmtDataSnapshotGetSmallestResourceSize` returns 0, while
`RmtDataSnapshotGetLargestResourceSize` returns `UINT64_MAX`. -/
theorem resource_size_smallest_counterexample :
    0 < exampleHugeResourceSnapshot.resource_list.resources.length
      ∧ (exampleHugeResourceSnapshot.resource_list.resources.map
          (fun r => r.size_in_bytes)).min? = some UINT64_MAX
      ∧ RmtDataSnapshotGetSmallestResourceSize (some exampleHugeResourceSnapshot) = 0
      ∧ RmtDataSnapshotGetLargestResourceSize (some exampleHugeResourceSnapshot)
          = UINT64_MAX := by
  decide

/-- C30, amended: for every snapshot whose resource sizes are values of 64 bits,
`RmtDataSnapshotGetLargestResourceSize` returns the maximum of `size_in_bytes`
over the resources, and `RmtDataSnapshotGetSmallestResourceSize` returns the
minimum unless that minimum is `UINT64_MAX`, in which case it returns 0; the
smallest is at most the largest; for an empty resource list both return 0, and
for a null snapshot both return 0. -/
theorem resource_size_extremes (snapshot : RmtDataSnapshot)
    (hsize : ∀ r ∈ snapshot.resource_list.resources, r.size_in_bytes ≤ UINT64_MAX) :
    RmtDataSnapshotGetLargestResourceSize (some snapshot)
        = ((snapshot.resource_list.resources.map (fun r => r.size_in_bytes)).max?).getD 0
      ∧ RmtDataSnapshotGetSmallestResourceSize (some snapshot)
        = (if (snapshot.resource_list.resources.map (fun r => r.size_in_bytes)).min?
              = some UINT64_MAX then 0
           else ((snapshot.resource_list.resources.map (fun r => r.size_in_bytes)).min?).getD 0)
      ∧ RmtDataSnapshotGetSmallestResourceSize (some snapshot)
        ≤ RmtDataSnapshotGetLargestResourceSize (some snapshot)
      ∧ (snapshot.resource_list.resources = [] →
          RmtDataSnapshotGetLargestResourceSize (some snapshot) = 0
            ∧ RmtDataSnapshotGetSmallestResourceSize (some snapshot) = 0)
      ∧ RmtDataSnapshotGetLargestResourceSize none = 0
      ∧ RmtDataSnapshotGetSmallestResourceSize none = 0 := by
  have hlargest : RmtDataSnapshotGetLargestResourceSize (some snapshot)
      = ((snapshot.resource_list.resources.map (fun r => r.size_in_bytes)).max?).getD 0 := by
    rw [← foldl_max_zero, List.foldl_map]
    simp only [RmtDataSnapshotGetLargestResourceSize, RMT_MAXIMUM_eq_max]
  have hfold : snapshot.resource_list.resources.foldl
      (fun smallest_resource_size_in_bytes current_resource =>
        RMT_MINIMUM smallest_resource_size_in_bytes current_resource.size_in_bytes) UINT64_MAX
      = ((snapshot.resource_list.resources.map (fun r => r.size_in_bytes)).min?).getD
          UINT64_MAX := by
    rw [← foldl_min_max64 _ (by
      intro x hx
      obtain ⟨r, hr, rfl⟩ := List.mem_map.1 hx
      exact hsize r hr), List.foldl_map]
    simp only [RMT_MINIMUM_eq_min]
  have hsmallest : RmtDataSnapshotGetSmallestResourceSize (some snapshot)
      = (if (snapshot.resource_list.resources.map (fun r => r.size_in_bytes)).min?
            = some UINT64_MAX then 0
         else ((snapshot.resource_list.resources.map (fun r => r.size_in_bytes)).min?).getD
          0) := by
    simp only [RmtDataSnapshotGetSmallestResourceSize, hfold]
    cases (snapshot.resource_list.resources.map (fun r => r.size_in_bytes)).min? with
    | none => simp
    | some m => simp
  refine ⟨hlargest, hsmallest, ?_, ?_, rfl, rfl⟩
  · rw [hsmallest, hlargest]
    cases hmin : (snapshot.resource_list.resources.map (fun r => r.size_in_bytes)).min? with
    | none => simp
    | some m =>
      cases hmax : (snapshot.resource_list.resources.map (fun r => r.size_in_bytes)).max? with
      | none =>
        rw [List.max?_eq_none_iff] at hmax
        simp [hmax] at hmin
      | some M =>
        obtain ⟨-, hm⟩ := List.min?_eq_some_iff'.1 hmin
        obtain ⟨hMmem, -⟩ := List.max?_eq_some_iff'.1 hmax
        have hmM : m ≤ M := hm M hMmem
        simp only [Option.getD_some]
        split_ifs
        · exact Nat.zero_le _
        · exact hmM
  · intro hempty
    rw [hsmallest, hlargest, hempty]
    simp

/-- The resources of 256, 64 and 1024 bytes: the smallest size is 64, the
largest 1024. -/
theorem resource_size_extremes_witness :
    (∀ r ∈ exampleResourceSnapshot.resource_list.resources, r.size_in_bytes ≤ UINT64_MAX)
      ∧ RmtDataSnapshotGetSmallestResourceSize (some exampleResourceSnapshot) = 64
      ∧ RmtDataSnapshotGetLargestResourceSize (some exampleResourceSnapshot) = 1024 :=
  ⟨by decide,
    (resource_size_extremes exampleResourceSnapshot (by decide)).2.1.trans (by decide),
    (resource_size_extremes exampleResourceSnapshot (by decide)).1.trans (by decide)⟩

end Rmv
